import Mathlib

/-!
# ObjectExporter: export codecs of UE2REngine

A shallow embedding of `ObjectExporterBPLibrary.cpp`.  The archive a file
writer fills is the list of bytes written so far; every `<<` of the source
appends the little-endian image of its operand.  Engine services the source
calls (file-name validation, writer creation, JSON text rendering, the
double-to-float narrowing) are fields of a `Host` record.  A run of an export
function yields its return value (or a fault, where the source dereferences a
null pointer or indexes an array out of range) and the file events it caused.
-/

namespace ObjectExporter

/-! ## Scalars, vectors and their byte images -/

/-- A single-precision float, kept as its IEEE-754 bit pattern. -/
structure F32 where
  bits : Fin 4294967296
deriving DecidableEq, Repr

/-- The float whose bit pattern is the low 32 bits of `n`. -/
def F32.ofBits (n : Nat) : F32 := ⟨⟨n % 4294967296, Nat.mod_lt _ (by decide)⟩⟩

/-- A double-precision float, kept as its IEEE-754 bit pattern. -/
structure F64 where
  bits : Nat
deriving DecidableEq, Repr

structure FVector2f where
  X : F32
  Y : F32
deriving DecidableEq, Repr

structure FVector3f where
  X : F32
  Y : F32
  Z : F32
deriving DecidableEq, Repr

structure FVector4f where
  X : F32
  Y : F32
  Z : F32
  W : F32
deriving DecidableEq, Repr

structure FQuat4f where
  X : F32
  Y : F32
  Z : F32
  W : F32
deriving DecidableEq, Repr

/-- The `k` low-order bytes of `n`, least significant first. -/
def leBytes : Nat → Nat → List Nat
  | 0, _ => []
  | k + 1, n => n % 256 :: leBytes k (n / 256)

/-- Byte image of an `int32`: two's complement, little-endian. -/
def encInt32 (v : Int) : List Nat := leBytes 4 (v % 4294967296).toNat

/-- Byte image of a `uint32`. -/
def encUInt32 (v : Nat) : List Nat := leBytes 4 (v % 4294967296)

/-- Byte image of a `uint16` (`FBoneIndexType`). -/
def encUInt16 (v : Nat) : List Nat := leBytes 2 (v % 65536)

/-- Byte image of a `uint8`. -/
def encUInt8 (v : Nat) : List Nat := leBytes 1 (v % 256)

/-- Byte image of a `float`: its bit pattern, little-endian. -/
def encFloat (f : F32) : List Nat := leBytes 4 f.bits.val

def encVector2f (v : FVector2f) : List Nat := encFloat v.X ++ encFloat v.Y

def encVector3f (v : FVector3f) : List Nat := encFloat v.X ++ encFloat v.Y ++ encFloat v.Z

def encVector4f (v : FVector4f) : List Nat :=
  encFloat v.X ++ encFloat v.Y ++ encFloat v.Z ++ encFloat v.W

def encQuat4f (q : FQuat4f) : List Nat :=
  encFloat q.X ++ encFloat q.Y ++ encFloat q.Z ++ encFloat q.W

/-- Modelled from the spec: the archive operator for strings and names is engine
code outside the sources; the spec calls the result a length-prefixed string.
The image is the `int32` character count followed by one 16-bit little-endian
code unit per character. -/
def encFString (s : String) : List Nat :=
  encInt32 s.data.length ++ s.data.flatMap (fun c => leBytes 2 (c.toNat % 65536))

/-- The bytes written to an open file writer so far. -/
abbrev FArchive := List Nat

namespace FArchive

def int32 (Ar : FArchive) (v : Int) : FArchive := Ar ++ encInt32 v

def uint32 (Ar : FArchive) (v : Nat) : FArchive := Ar ++ encUInt32 v

def uint16 (Ar : FArchive) (v : Nat) : FArchive := Ar ++ encUInt16 v

def uint8 (Ar : FArchive) (v : Nat) : FArchive := Ar ++ encUInt8 v

def float (Ar : FArchive) (f : F32) : FArchive := Ar ++ encFloat f

def vector2f (Ar : FArchive) (v : FVector2f) : FArchive := (Ar.float v.X).float v.Y

def vector3f (Ar : FArchive) (v : FVector3f) : FArchive := ((Ar.float v.X).float v.Y).float v.Z

def vector4f (Ar : FArchive) (v : FVector4f) : FArchive :=
  (((Ar.float v.X).float v.Y).float v.Z).float v.W

def quat4f (Ar : FArchive) (q : FQuat4f) : FArchive :=
  (((Ar.float q.X).float q.Y).float q.Z).float q.W

def fstring (Ar : FArchive) (s : String) : FArchive := Ar ++ encFString s

end FArchive

/-- The method `FString::EndsWith` with the engine's default, case-insensitive search. -/
def EndsWith (s suffix : String) : Bool :=
  (suffix.data.map Char.toLower).isSuffixOf (s.data.map Char.toLower)

def JSON_FILE_POSTFIX : String := ".json"

def STATIC_MESH_BINARY_FILE_POSTFIX : String := ".stm"

def SKELETAL_MESH_BINARY_FILE_POSTFIX : String := ".skm"

def SKELETON_BINARY_FILE_POSTFIX : String := ".skt"

def ANIMSEQUENCE_BINARY_FILE_POSTFIX : String := ".anm"

def MATERIAL_BINARY_FILE_POSTFIX : String := ".mtl"

def MAP_BINARY_FILE_POSTFIX : String := ".map"

/-! ## JSON documents, host services, runs -/

/-- A number handed to `SetNumberField`: an integer or a float of the source. -/
inductive FJsonNumber where
  | ofInt (v : Int)
  | ofFloat (f : F32)
deriving DecidableEq, Repr

/-- The document tree built through `FJsonObject`. -/
inductive FJsonValue where
  | Number (n : FJsonNumber)
  | String (s : String)
  | Array (items : List FJsonValue)
  | Object (fields : List (String × FJsonValue))

/-- Engine services the exporter calls. -/
structure Host where
  /-- The check `FFileHelper::IsFilenameValidForSaving`. -/
  IsFilenameValidForSaving : String → Bool
  /-- Whether `IFileManager::CreateFileWriter` hands out a writer for the path. -/
  CreateFileWriter : String → Bool
  /-- The call `FJsonSerializer::Serialize`: the rendered text, or none on failure. -/
  JsonSerialize : FJsonValue → Option String
  /-- Narrowing of a double to a float (`FVector3f(FVector)`, `FQuat4f(FQuat)`). -/
  toFloat : F64 → F32

/-- What happens to files during a run. -/
inductive FileEvent where
  | CreateFileWriter (path : String) (created : Bool)
  | Serialize (path : String) (bytes : List Nat)
  | SaveText (path : String) (text : String)
  | Close (path : String)
deriving DecidableEq, Repr

/-- How a call ends: it returns its flag, or it faults (null dereference,
array index out of range). -/
inductive Outcome where
  | returned (flag : Bool)
  | fault
deriving DecidableEq, Repr

structure Run where
  outcome : Outcome
  events : List FileEvent
deriving DecidableEq, Repr

/-- All bytes a run wrote through file writers, in order. -/
def Run.bytesWritten (r : Run) : List Nat :=
  r.events.flatMap fun e =>
    match e with
    | .Serialize _ bytes => bytes
    | _ => []

/-- The paths for which a writer was handed out. -/
def Run.writersCreated (r : Run) : List String :=
  r.events.filterMap fun e =>
    match e with
    | .CreateFileWriter path true => some path
    | _ => none

/-- The paths closed during the run. -/
def Run.writersClosed (r : Run) : List String :=
  r.events.filterMap fun e =>
    match e with
    | .Close path => some path
    | _ => none

/-- Whether any content reached a file, binary or text. -/
def Run.wroteNothing (r : Run) : Bool :=
  r.events.all fun e =>
    match e with
    | .Serialize _ _ => false
    | .SaveText _ _ => false
    | _ => true

/-- The helper `FFileHelper::SaveStringToFile`: creates a writer for the path, stores the
text and closes the writer; fails when no writer can be created. -/
def SaveStringToFile (host : Host) (text path : String) : Bool × List FileEvent :=
  if host.CreateFileWriter path then
    (true, [.CreateFileWriter path true, .SaveText path text, .Close path])
  else
    (false, [.CreateFileWriter path false])

/-! ## Static meshes -/

structure FStaticMeshSection where
  MaterialIndex : Int
  FirstIndex : Nat
  NumTriangles : Nat
  MinVertexIndex : Nat
  MaxVertexIndex : Nat
deriving DecidableEq, Repr

/-- The position buffer, through the accessors the exporter calls. -/
structure FPositionVertexBuffer where
  GetNumVertices : Nat
  VertexPosition : Nat → FVector3f

/-- The tangent/uv buffer, through the accessors the exporter calls. -/
structure FStaticMeshVertexBuffer where
  VertexTangentZ : Nat → FVector4f
  VertexTangentX : Nat → FVector4f
  GetVertexUV : Nat → Nat → FVector2f

structure FStaticMeshVertexBuffers where
  PositionVertexBuffer : FPositionVertexBuffer
  StaticMeshVertexBuffer : FStaticMeshVertexBuffer

structure FStaticMeshLODResources where
  VertexBuffers : FStaticMeshVertexBuffers
  /-- The view `IndexBuffer.GetArrayView()` returns. -/
  IndexBuffer : List Nat
  Sections : List FStaticMeshSection

structure FStaticMeshRenderData where
  LODResources : List FStaticMeshLODResources

structure UStaticMesh where
  GetName : String
  /-- Null when the mesh has no render data. -/
  GetRenderData : Option FStaticMeshRenderData

/-- Body of the vertex loop of the binary branch of `ExportStaticMesh`.  The
source widens both tangents to double vectors and narrows the components back
to float, which leaves every component unchanged. -/
def writeStaticVertex (CurLOD : FStaticMeshLODResources) (Ar : FArchive) (iVertex : Nat) :
    FArchive :=
  let Position := CurLOD.VertexBuffers.PositionVertexBuffer.VertexPosition iVertex
  let TangentZ := CurLOD.VertexBuffers.StaticMeshVertexBuffer.VertexTangentZ iVertex
  let TangentX := CurLOD.VertexBuffers.StaticMeshVertexBuffer.VertexTangentX iVertex
  let Normal : FVector4f := ⟨TangentZ.X, TangentZ.Y, TangentZ.Z, TangentZ.W⟩
  let Tangent : FVector3f := ⟨TangentX.X, TangentX.Y, TangentX.Z⟩
  let UV := CurLOD.VertexBuffers.StaticMeshVertexBuffer.GetVertexUV iVertex 0
  (((Ar.vector3f Position).vector4f Normal).vector3f Tangent).vector2f UV

/-- Body of the section loop of the binary branch of `ExportStaticMesh`. -/
def writeStaticSection (Ar : FArchive) (Section : FStaticMeshSection) : FArchive :=
  ((((Ar.int32 Section.MaterialIndex).uint32 Section.FirstIndex).uint32
    Section.NumTriangles).uint32 Section.MinVertexIndex).uint32 Section.MaxVertexIndex

/-- The loop over `LODResources` of the binary branch: the body runs for the
first level and then breaks.  The counts are stored in `int32` variables; their
byte image is that of the count modulo `2 ^ 32`. -/
def writeStaticMeshLODs (LODResources : List FStaticMeshLODResources) (Ar : FArchive) :
    FArchive :=
  match LODResources with
  | [] => Ar
  | CurLOD :: _ =>
    let NumVertices : Int := CurLOD.VertexBuffers.PositionVertexBuffer.GetNumVertices
    let Ar := Ar.int32 NumVertices
    let Ar := (List.range CurLOD.VertexBuffers.PositionVertexBuffer.GetNumVertices).foldl
      (writeStaticVertex CurLOD) Ar
    let NumIndices : Int := CurLOD.IndexBuffer.length
    let Ar := Ar.int32 NumIndices
    let Ar := CurLOD.IndexBuffer.foldl (fun Ar Index => Ar.uint32 Index) Ar
    let NumSection : Int := CurLOD.Sections.length
    let Ar := Ar.int32 NumSection
    CurLOD.Sections.foldl writeStaticSection Ar

/-- One entry of the `LODs` array of the JSON branch of `ExportStaticMesh`. -/
def jsonStaticLOD (LODIndex : Nat) (CurLOD : FStaticMeshLODResources) : FJsonValue :=
  let VertexBuffer := CurLOD.VertexBuffers.PositionVertexBuffer
  let JsonVertices := (List.range VertexBuffer.GetNumVertices).map fun iVertex =>
    let Position := VertexBuffer.VertexPosition iVertex
    FJsonValue.Object
      [("x", .Number (.ofFloat Position.X)), ("y", .Number (.ofFloat Position.Y)),
       ("z", .Number (.ofFloat Position.Z))]
  let JsonIndices := CurLOD.IndexBuffer.map fun Index =>
    FJsonValue.Object [("index", .Number (.ofInt Index))]
  .Object
    [("LOD", .Number (.ofInt LODIndex)),
     ("VertexCount", .Number (.ofInt VertexBuffer.GetNumVertices)),
     ("Vertices", .Array JsonVertices),
     ("IndexCount", .Number (.ofInt CurLOD.IndexBuffer.length)),
     ("Indices", .Array JsonIndices)]

/-- The document the JSON branch of `ExportStaticMesh` builds when render data
is present. -/
def jsonStaticMesh (StaticMesh : UStaticMesh) (RenderData : FStaticMeshRenderData) :
    FJsonValue :=
  .Object
    [("FileVersion", .Number (.ofInt 1)),
     ("MeshName", .String StaticMesh.GetName),
     ("VertexFormat", .Array []),
     ("LODCount", .Number (.ofInt RenderData.LODResources.length)),
     ("LODs", .Array (RenderData.LODResources.enum.map fun p => jsonStaticLOD p.1 p.2))]

/-- The function `UObjectExporterBPLibrary::ExportStaticMesh`. -/
def ExportStaticMesh (host : Host) (StaticMesh : Option UStaticMesh)
    (FullFilePathName : String) : Run :=
  if !host.IsFilenameValidForSaving FullFilePathName then
    ⟨.returned false, []⟩
  else
    match StaticMesh with
    | none => ⟨.returned false, []⟩
    | some Mesh =>
      if EndsWith FullFilePathName JSON_FILE_POSTFIX then
        match Mesh.GetRenderData with
        | none => ⟨.returned false, []⟩
        | some RenderData =>
          match host.JsonSerialize (jsonStaticMesh Mesh RenderData) with
          | none => ⟨.returned false, []⟩
          | some JsonContent =>
            let saved := SaveStringToFile host JsonContent FullFilePathName
            if saved.1 then ⟨.returned true, saved.2⟩ else ⟨.returned false, saved.2⟩
      else if EndsWith FullFilePathName STATIC_MESH_BINARY_FILE_POSTFIX then
        if !host.CreateFileWriter FullFilePathName then
          ⟨.returned false, [.CreateFileWriter FullFilePathName false]⟩
        else
          match Mesh.GetRenderData with
          | none => ⟨.fault, [.CreateFileWriter FullFilePathName true]⟩
          | some RenderData =>
            ⟨.returned false,
              [.CreateFileWriter FullFilePathName true,
               .Serialize FullFilePathName (writeStaticMeshLODs RenderData.LODResources []),
               .Close FullFilePathName]⟩
      else
        ⟨.returned false, []⟩

/-! ## Skeletons -/

/-- A double-precision vector (`FVector`). -/
structure FVector where
  X : F64
  Y : F64
  Z : F64
deriving DecidableEq, Repr

/-- A double-precision quaternion (`FQuat`). -/
structure FQuat where
  X : F64
  Y : F64
  Z : F64
  W : F64
deriving DecidableEq, Repr

structure FTransform where
  GetRotation : FQuat
  GetTranslation : FVector
  GetScale3D : FVector
deriving DecidableEq, Repr

structure FMeshBoneInfo where
  Name : String
  ParentIndex : Int
deriving DecidableEq, Repr

structure FReferenceSkeleton where
  GetRawRefBoneInfo : List FMeshBoneInfo
  GetRawRefBonePose : List FTransform
deriving DecidableEq, Repr

structure USkeleton where
  GetPathName : String
  GetReferenceSkeleton : FReferenceSkeleton
deriving DecidableEq, Repr

/-- The conversion `FVector3f(v)` of a double vector. -/
def Host.toVector3f (host : Host) (v : FVector) : FVector3f :=
  ⟨host.toFloat v.X, host.toFloat v.Y, host.toFloat v.Z⟩

/-- The conversion `FQuat4f(q)` of a double quaternion. -/
def Host.toQuat4f (host : Host) (q : FQuat) : FQuat4f :=
  ⟨host.toFloat q.X, host.toFloat q.Y, host.toFloat q.Z, host.toFloat q.W⟩

/-- Body of the bone-info loop of `ExportSkeleton`. -/
def writeBoneInfo (Ar : FArchive) (Boneinfo : FMeshBoneInfo) : FArchive :=
  (Ar.fstring Boneinfo.Name).int32 Boneinfo.ParentIndex

/-- Body of the bone-pose loop of `ExportSkeleton`. -/
def writeBonePose (host : Host) (Ar : FArchive) (BoneTransform : FTransform) : FArchive :=
  let Rot := host.toQuat4f BoneTransform.GetRotation
  let Tran := host.toVector3f BoneTransform.GetTranslation
  let Scale := host.toVector3f BoneTransform.GetScale3D
  ((Ar.quat4f Rot).vector3f Tran).vector3f Scale

/-- The writes of the binary branch of `ExportSkeleton`. -/
def writeSkeleton (host : Host) (Skeleton : USkeleton) (Ar : FArchive) : FArchive :=
  let BoneInfos := Skeleton.GetReferenceSkeleton.GetRawRefBoneInfo
  let BonePose := Skeleton.GetReferenceSkeleton.GetRawRefBonePose
  let NumBoneInfos : Int := BoneInfos.length
  let NumPosBones : Int := BonePose.length
  let Ar := Ar.int32 NumBoneInfos
  let Ar := BoneInfos.foldl writeBoneInfo Ar
  let Ar := Ar.int32 NumPosBones
  BonePose.foldl (writeBonePose host) Ar

/-- The function `UObjectExporterBPLibrary::ExportSkeleton`.  The JSON branch builds a
document holding `FileVersion` and drops it. -/
def ExportSkeleton (host : Host) (Skeleton : Option USkeleton) (FullFilePathName : String) :
    Run :=
  if !host.IsFilenameValidForSaving FullFilePathName then
    ⟨.returned false, []⟩
  else
    match Skeleton with
    | none => ⟨.returned false, []⟩
    | some Skel =>
      if EndsWith FullFilePathName JSON_FILE_POSTFIX then
        ⟨.returned false, []⟩
      else if EndsWith FullFilePathName SKELETON_BINARY_FILE_POSTFIX then
        if !host.CreateFileWriter FullFilePathName then
          ⟨.returned false, [.CreateFileWriter FullFilePathName false]⟩
        else
          ⟨.returned false,
            [.CreateFileWriter FullFilePathName true,
             .Serialize FullFilePathName (writeSkeleton host Skel []),
             .Close FullFilePathName]⟩
      else
        ⟨.returned false, []⟩

/-! ## Skeletal meshes -/

/-- Position of the highest set bit of `n`, for `0 < n < 2 ^ 64`. -/
def ilog2Aux : Nat → Nat → Nat
  | 0, _ => 0
  | fuel + 1, n => if n < 2 then 0 else 1 + ilog2Aux fuel (n / 2)

def ilog2 (n : Nat) : Nat := ilog2Aux 64 n

/-- The integer nearest to `num / den`, ties to even. -/
def roundHalfEven (num den : Nat) : Nat :=
  let q := num / den
  let r := num % den
  if 2 * r > den ∨ (2 * r = den ∧ q % 2 = 1) then q + 1 else q

/-- The float quotient `(float)a / (float)b` of two integers below `2 ^ 24`
(both exactly representable), `b` positive: IEEE-754 single-precision division,
rounded to nearest, ties to even. -/
def F32.divNat (a b : Nat) : F32 :=
  if a = 0 then F32.ofBits 0
  else
    let la := ilog2 a
    let lb := ilog2 b
    let e : Int := if b * 2 ^ la ≤ a * 2 ^ lb then (la : Int) - lb else (la : Int) - lb - 1
    let E : Int := e + 127
    if 255 ≤ E then F32.ofBits 0x7F800000
    else if E ≤ 0 then F32.ofBits (roundHalfEven (a * 2 ^ 149) b)
    else
      let s : Int := 23 - e
      let m := roundHalfEven (a * 2 ^ s.toNat) (b * 2 ^ (-s).toNat)
      F32.ofBits (min (E.toNat * 2 ^ 23 + (m - 2 ^ 23)) 0x7F800000)

/-- The rational a finite float denotes; none for infinities and NaNs. -/
def F32.toRat? (f : F32) : Option ℚ :=
  let sign : ℚ := if f.bits.val / 2 ^ 31 % 2 = 1 then -1 else 1
  let E : Nat := f.bits.val / 2 ^ 23 % 256
  let M : Nat := f.bits.val % 2 ^ 23
  if E = 255 then none
  else if E = 0 then some (sign * (M : ℚ) / 2 ^ 149)
  else some (sign * (2 ^ 23 + (M : ℚ)) * 2 ^ E / 2 ^ 150)

/-- The expression `InfluenceWeights[k] / 255.0f`. -/
def BoneWeight (InfluenceWeight : Nat) : F32 := F32.divNat InfluenceWeight 255

/-- One entry of the array `GetSkinWeights` fills: two fixed-size arrays, read
at slots 0 to 3. -/
structure FSkinWeightInfo where
  InfluenceBones : Nat → Nat
  InfluenceWeights : Nat → Nat

structure FSkelMeshRenderSection where
  MaterialIndex : Nat
  BaseIndex : Nat
  NumTriangles : Nat
  BaseVertexIndex : Nat
  NumVertices : Nat
  BoneMap : List Nat
deriving DecidableEq, Repr

structure FSkeletalMeshLODRenderData where
  StaticVertexBuffers : FStaticMeshVertexBuffers
  /-- The array `SkinWeightVertexBuffer.GetSkinWeights` fills. -/
  SkinWeights : List FSkinWeightInfo
  /-- The array `MultiSizeIndexContainer.GetIndexBuffer` fills. -/
  Indices : List Nat
  RenderSections : List FSkelMeshRenderSection

structure FSkeletalMeshRenderData where
  LODRenderData : List FSkeletalMeshLODRenderData

structure USkeletalMesh where
  /-- Null when the mesh has no render resource. -/
  GetResourceForRendering : Option FSkeletalMeshRenderData
  /-- Null when the mesh has no skeleton. -/
  GetSkeleton : Option USkeleton

/-- Modelled from the spec: the string method `FString::Split` is engine code
outside the source tree. The path name is split at its first ".": the left part
is the path prefix, the right part the name; when the string holds no "." the
split fails and both parts stay empty, as the callers declare them. -/
def Split (s : String) : String × String :=
  match s.data.span (fun c => c != '.') with
  | (l, _ :: r) => (String.mk l, String.mk r)
  | (_, []) => ("", "")

/-- Body of the vertex loop of `ExportSkeletalMesh`; none when `WeightInfos` or
`BoneMap` is indexed out of range. -/
def writeSkinnedVertex (CurLOD : FSkeletalMeshLODRenderData) (BoneMap : List Nat)
    (WeightInfos : List FSkinWeightInfo) (Ar : FArchive) (iVertex : Nat) : Option FArchive := do
  let Position := CurLOD.StaticVertexBuffers.PositionVertexBuffer.VertexPosition iVertex
  let TangentZ := CurLOD.StaticVertexBuffers.StaticMeshVertexBuffer.VertexTangentZ iVertex
  let TangentX := CurLOD.StaticVertexBuffers.StaticMeshVertexBuffer.VertexTangentX iVertex
  let Normal : FVector4f := ⟨TangentZ.X, TangentZ.Y, TangentZ.Z, TangentZ.W⟩
  let Tangent : FVector3f := ⟨TangentX.X, TangentX.Y, TangentX.Z⟩
  let UV := CurLOD.StaticVertexBuffers.StaticMeshVertexBuffer.GetVertexUV iVertex 0
  let Ar := (((Ar.vector3f Position).vector4f Normal).vector3f Tangent).vector2f UV
  let Info ← WeightInfos[iVertex]?
  let BoneIndex0 ← BoneMap[Info.InfluenceBones 0]?
  let Ar := Ar.uint16 BoneIndex0
  let BoneIndex1 ← BoneMap[Info.InfluenceBones 1]?
  let Ar := Ar.uint16 BoneIndex1
  let BoneIndex2 ← BoneMap[Info.InfluenceBones 2]?
  let Ar := Ar.uint16 BoneIndex2
  let BoneIndex3 ← BoneMap[Info.InfluenceBones 3]?
  let Ar := Ar.uint16 BoneIndex3
  let Ar := Ar.float (BoneWeight (Info.InfluenceWeights 0))
  let Ar := Ar.float (BoneWeight (Info.InfluenceWeights 1))
  let Ar := Ar.float (BoneWeight (Info.InfluenceWeights 2))
  let Ar := Ar.float (BoneWeight (Info.InfluenceWeights 3))
  pure Ar

/-- Body of the section loop of `ExportSkeletalMesh`. -/
def writeSkelSection (Ar : FArchive) (Section : FSkelMeshRenderSection) : FArchive :=
  let MaterialIndex : Int := Section.MaterialIndex
  ((((Ar.int32 MaterialIndex).uint32 Section.BaseIndex).uint32 Section.NumTriangles).uint32
    Section.BaseVertexIndex).uint32 Section.NumVertices

/-- The loop over `LODRenderData` of `ExportSkeletalMesh`: the body runs for the
first level and then breaks.  None when the body faults: no render section, an
index out of range, or a null skeleton. -/
def writeSkeletalMeshLODs (SkeletalMesh : USkeletalMesh)
    (LODRenderData : List FSkeletalMeshLODRenderData) (Ar : FArchive) : Option FArchive :=
  match LODRenderData with
  | [] => some Ar
  | CurLOD :: _ => do
    let Section0 ← CurLOD.RenderSections[0]?
    let BoneMap := Section0.BoneMap
    let WeightInfos := CurLOD.SkinWeights
    let NumVertices : Int := CurLOD.StaticVertexBuffers.PositionVertexBuffer.GetNumVertices
    let Ar := Ar.int32 NumVertices
    let Ar ← (List.range CurLOD.StaticVertexBuffers.PositionVertexBuffer.GetNumVertices).foldlM
      (writeSkinnedVertex CurLOD BoneMap WeightInfos) Ar
    let NumIndices : Int := CurLOD.Indices.length
    let Ar := Ar.int32 NumIndices
    let Ar := CurLOD.Indices.foldl (fun Ar Index => Ar.uint32 Index) Ar
    let NumSection : Int := CurLOD.RenderSections.length
    let Ar := Ar.int32 NumSection
    let Ar := CurLOD.RenderSections.foldl writeSkelSection Ar
    let Skeleton ← SkeletalMesh.GetSkeleton
    let ResourceName := (Split Skeleton.GetPathName).2
    pure (Ar.fstring ResourceName)

/-- The function `UObjectExporterBPLibrary::ExportSkeletalMesh`.  The JSON branch builds a
document holding `FileVersion` and drops it. -/
def ExportSkeletalMesh (host : Host) (SkeletalMesh : Option USkeletalMesh)
    (FullFilePathName : String) : Run :=
  if !host.IsFilenameValidForSaving FullFilePathName then
    ⟨.returned false, []⟩
  else
    match SkeletalMesh with
    | none => ⟨.returned false, []⟩
    | some Mesh =>
      if EndsWith FullFilePathName JSON_FILE_POSTFIX then
        ⟨.returned false, []⟩
      else if EndsWith FullFilePathName SKELETAL_MESH_BINARY_FILE_POSTFIX then
        if !host.CreateFileWriter FullFilePathName then
          ⟨.returned false, [.CreateFileWriter FullFilePathName false]⟩
        else
          match Mesh.GetResourceForRendering with
          | none => ⟨.fault, [.CreateFileWriter FullFilePathName true]⟩
          | some RenderData =>
            match writeSkeletalMeshLODs Mesh RenderData.LODRenderData [] with
            | none => ⟨.fault, [.CreateFileWriter FullFilePathName true]⟩
            | some Ar =>
              ⟨.returned false,
                [.CreateFileWriter FullFilePathName true,
                 .Serialize FullFilePathName Ar,
                 .Close FullFilePathName]⟩
      else
        ⟨.returned false, []⟩

/-! ## Animation sequences -/

/-- Modelled from the spec: the archive operator for arrays is engine code
outside the sources; the spec calls the result a length-prefixed raw array.
The image of an array of vectors is the `int32` element count, then the
elements. -/
def FArchive.vector3fArray (Ar : FArchive) (xs : List FVector3f) : FArchive :=
  xs.foldl FArchive.vector3f (Ar.int32 xs.length)

/-- Modelled from the spec: the archive operator for arrays, as for vectors.
The image of an array of quaternions is the `int32` element count, then the
elements. -/
def FArchive.quat4fArray (Ar : FArchive) (xs : List FQuat4f) : FArchive :=
  xs.foldl FArchive.quat4f (Ar.int32 xs.length)

structure FRawAnimSequenceTrack where
  PosKeys : List FVector3f
  RotKeys : List FQuat4f
  ScaleKeys : List FVector3f
deriving DecidableEq, Repr

structure FBoneAnimationTrack where
  InternalTrackData : FRawAnimSequenceTrack
  BoneTreeIndex : Int
deriving DecidableEq, Repr

structure UAnimSequence where
  GetResampledTrackData : List FBoneAnimationTrack
  GetNumberOfSampledKeys : Int
  GetPlayLength : F32
deriving DecidableEq, Repr

/-- Body of the track loop of `ExportAnimSequence`. -/
def writeAnimationTrack (Ar : FArchive) (AnimationTrack : FBoneAnimationTrack) : FArchive :=
  let AnimationData := AnimationTrack.InternalTrackData
  let BoneIndex := AnimationTrack.BoneTreeIndex
  let Ar := Ar.int32 BoneIndex
  let Ar := Ar.vector3fArray AnimationData.PosKeys
  let Ar := Ar.quat4fArray AnimationData.RotKeys
  Ar.vector3fArray AnimationData.ScaleKeys

/-- The writes of the binary branch of `ExportAnimSequence`. -/
def writeAnimSequence (AnimSequence : UAnimSequence) (Ar : FArchive) : FArchive :=
  let BoneAnimationTracks := AnimSequence.GetResampledTrackData
  let NumberOfFrames := AnimSequence.GetNumberOfSampledKeys
  let Ar := Ar.int32 NumberOfFrames
  let SequenceLength := AnimSequence.GetPlayLength
  let Ar := Ar.float SequenceLength
  BoneAnimationTracks.foldl writeAnimationTrack Ar

/-- The function `UObjectExporterBPLibrary::ExportAnimSequence`.  The JSON
branch builds a document holding `FileVersion` and drops it. -/
def ExportAnimSequence (host : Host) (AnimSequence : Option UAnimSequence)
    (FullFilePathName : String) : Run :=
  if !host.IsFilenameValidForSaving FullFilePathName then
    ⟨.returned false, []⟩
  else
    match AnimSequence with
    | none => ⟨.returned false, []⟩
    | some Anim =>
      if EndsWith FullFilePathName JSON_FILE_POSTFIX then
        ⟨.returned false, []⟩
      else if EndsWith FullFilePathName ANIMSEQUENCE_BINARY_FILE_POSTFIX then
        if !host.CreateFileWriter FullFilePathName then
          ⟨.returned false, [.CreateFileWriter FullFilePathName false]⟩
        else
          ⟨.returned false,
            [.CreateFileWriter FullFilePathName true,
             .Serialize FullFilePathName (writeAnimSequence Anim []),
             .Close FullFilePathName]⟩
      else
        ⟨.returned false, []⟩

/-! ## Material instances -/

structure FLinearColor where
  R : F32
  G : F32
  B : F32
  A : F32
deriving DecidableEq, Repr

def encLinearColor (c : FLinearColor) : List Nat :=
  encFloat c.R ++ encFloat c.G ++ encFloat c.B ++ encFloat c.A

def FArchive.linearColor (Ar : FArchive) (c : FLinearColor) : FArchive :=
  (((Ar.float c.R).float c.G).float c.B).float c.A

/-- An engine name.  Two names are equal when the engine compares them equal;
the embedding identifies a name with its text. -/
structure FName where
  ToString : String
deriving DecidableEq, Repr

structure FMaterialParameterInfo where
  Name : FName
  Association : Nat
  Index : Int
deriving DecidableEq, Repr

/-- A texture asset: its path name and the relative file names of the source
files of its import data. -/
structure UTexture where
  GetPathName : String
  SourceFiles : List String
deriving DecidableEq, Repr

/-- A material instance, through the members and accessors the exporter uses.
A value accessor yields none when the engine call returns false (for a
texture: when it leaves the texture pointer null). -/
structure UMaterialInstance where
  GetPathName : String
  IsValidLowLevel : Bool
  BlendMode : Nat
  GetFirstShadingModel : Nat
  TwoSided : Bool
  GetAllScalarParameterInfo : List FMaterialParameterInfo
  GetScalarParameterValue : FMaterialParameterInfo → Option F32
  GetAllVectorParameterInfo : List FMaterialParameterInfo
  GetVectorParameterValue : FMaterialParameterInfo → Option FLinearColor
  GetAllTextureParameterInfo : List FMaterialParameterInfo
  GetTextureParameterValue : FMaterialParameterInfo → Option UTexture

/-- Project directories of `FPaths`. -/
structure FPaths where
  ProjectSavedDir : String
  ProjectIntermediateDir : String
  ProjectPluginsDir : String
deriving DecidableEq, Repr

/-- Calls that leave the exporter: asset-tool exports, directory creation,
shell commands. -/
inductive ExternalCall where
  | ExportAssets (objectPath : String) (exportPath : String)
  | MakeDirectory (path : String)
  | system (command : String)
deriving DecidableEq, Repr

def ROOT_PATH : String := "REngine/"

def TEXTURE_PATH : String := "REngine/Texture/"

def MATERIAL_PATH : String := "REngine/Material/"

def STATICMESH_PATH : String := "REngine/StaticMesh/"

def SKELETALMESH_PATH : String := "REngine/SkeletalMesh/"

def SKELETON_PATH : String := "REngine/SkeletalMesh/Skeleton/"

def ANIMATION_PATH : String := "REngine/SkeletalMesh/Animation/"

/-- The method `FString::Split` at the last ".": the left and right parts,
both left empty when the string holds no ".". -/
def SplitFromEnd (s : String) : String × String :=
  match s.data.reverse.span (fun c => c != '.') with
  | (r, _ :: l) => (String.mk l.reverse, String.mk r.reverse)
  | (_, []) => ("", "")

/-- The call `CmdString.Replace(TEXT("/"), TEXT("\\"))`: every slash becomes a
backslash. -/
def ReplaceSlashes (s : String) : String :=
  String.mk (s.data.map fun c => if c = Char.ofNat 47 then Char.ofNat 92 else c)

/-- The loop of `ExportMaterialInstance` over the scalar parameter infos for one
name: it stops at the first info of that name and writes its value when the
material yields one. -/
def writeScalarParameter (MaterialInstace : UMaterialInstance) (Name : FName)
    (Infos : List FMaterialParameterInfo) (Ar : FArchive) : FArchive :=
  match Infos with
  | [] => Ar
  | ParameterInfo :: rest =>
    if ParameterInfo.Name = Name then
      match MaterialInstace.GetScalarParameterValue ParameterInfo with
      | some Value => Ar.float Value
      | none => Ar
    else
      writeScalarParameter MaterialInstace Name rest Ar

/-- The loop of `ExportMaterialInstance` over the vector parameter infos for one
name. -/
def writeVectorParameter (MaterialInstace : UMaterialInstance) (Name : FName)
    (Infos : List FMaterialParameterInfo) (Ar : FArchive) : FArchive :=
  match Infos with
  | [] => Ar
  | ParameterInfo :: rest =>
    if ParameterInfo.Name = Name then
      match MaterialInstace.GetVectorParameterValue ParameterInfo with
      | some Value => Ar.linearColor Value
      | none => Ar
    else
      writeVectorParameter MaterialInstace Name rest Ar

/-- The archive and the external calls of a material export in progress. -/
structure MaterialState where
  Ar : FArchive
  external : List ExternalCall

/-- Body of the texture loop of `ExportMaterialInstance`. -/
def writeTextureParameter (paths : FPaths) (MaterialInstace : UMaterialInstance)
    (st : MaterialState) (ParameterInfo : FMaterialParameterInfo) : MaterialState :=
  match MaterialInstace.GetTextureParameterValue ParameterInfo with
  | none => st
  | some Texture =>
    let ResourceFullName := Texture.GetPathName
    let ResourcePath := (Split ResourceFullName).1
    let ResourceName := (Split ResourceFullName).2
    let Name := ParameterInfo.Name.ToString
    let Ar := (st.Ar.fstring Name).fstring ResourceName
    let TempSavePath := paths.ProjectIntermediateDir
    let SavePath := paths.ProjectSavedDir ++ TEXTURE_PATH
    let FileExt :=
      match Texture.SourceFiles with
      | [] => "PNG"
      | SourceFile :: _ =>
        if (SplitFromEnd SourceFile).2.toLower = "exr" then "EXR" else "PNG"
    let CmdString := paths.ProjectPluginsDir ++ "ObjectExporter/texconv.exe -alpha -y -ft dds " ++
      paths.ProjectIntermediateDir ++ ResourcePath ++ "." ++ FileExt ++ " -o " ++ SavePath
    let CmdString := ReplaceSlashes CmdString
    ⟨Ar, st.external ++
      [.ExportAssets Texture.GetPathName TempSavePath, .MakeDirectory SavePath,
       .system CmdString]⟩

/-- The writes of the binary branch of `ExportMaterialInstance`. -/
def writeMaterialInstance (paths : FPaths) (MaterialInstace : UMaterialInstance)
    (Ar : FArchive) : MaterialState :=
  let OutTextureParameterInfo := MaterialInstace.GetAllTextureParameterInfo
  let BlendMode : Int := MaterialInstace.BlendMode
  let Ar := Ar.int32 BlendMode
  let ShadingModel : Int := MaterialInstace.GetFirstShadingModel
  let Ar := Ar.int32 ShadingModel
  let TwoSided : Nat := if MaterialInstace.TwoSided then 1 else 0
  let Ar := Ar.uint8 TwoSided
  let OutScalarParameterInfo := MaterialInstace.GetAllScalarParameterInfo
  let Ar := writeScalarParameter MaterialInstace ⟨"Metallic"⟩ OutScalarParameterInfo Ar
  let Ar := writeScalarParameter MaterialInstace ⟨"Specular"⟩ OutScalarParameterInfo Ar
  let Ar := writeScalarParameter MaterialInstace ⟨"Roughness"⟩ OutScalarParameterInfo Ar
  let Ar := writeScalarParameter MaterialInstace ⟨"Opacity"⟩ OutScalarParameterInfo Ar
  let OutVectorParameterInfo := MaterialInstace.GetAllVectorParameterInfo
  let Ar := writeVectorParameter MaterialInstace ⟨"EmissiveColor"⟩ OutVectorParameterInfo Ar
  let Ar := writeVectorParameter MaterialInstace ⟨"SubsurfaceColor"⟩ OutVectorParameterInfo Ar
  let NumTextureParam : Int := OutTextureParameterInfo.length
  let Ar := Ar.int32 NumTextureParam
  OutTextureParameterInfo.foldl (writeTextureParameter paths MaterialInstace) ⟨Ar, []⟩

/-- A run together with the external calls it made. -/
structure ExternalRun where
  run : Run
  external : List ExternalCall

/-- The function `UObjectExporterBPLibrary::ExportMaterialInstance`.  The JSON
branch builds a document holding `FileVersion` and drops it. -/
def ExportMaterialInstance (host : Host) (paths : FPaths)
    (MaterialInstace : Option UMaterialInstance) (FullFilePathName : String) : ExternalRun :=
  if !host.IsFilenameValidForSaving FullFilePathName then
    ⟨⟨.returned false, []⟩, []⟩
  else
    match MaterialInstace with
    | none => ⟨⟨.returned false, []⟩, []⟩
    | some Material =>
      if EndsWith FullFilePathName JSON_FILE_POSTFIX then
        ⟨⟨.returned false, []⟩, []⟩
      else if EndsWith FullFilePathName MATERIAL_BINARY_FILE_POSTFIX then
        if !host.CreateFileWriter FullFilePathName then
          ⟨⟨.returned false, [.CreateFileWriter FullFilePathName false]⟩, []⟩
        else
          let st := writeMaterialInstance paths Material []
          ⟨⟨.returned false,
            [.CreateFileWriter FullFilePathName true,
             .Serialize FullFilePathName st.Ar,
             .Close FullFilePathName]⟩, st.external⟩
      else
        ⟨⟨.returned false, []⟩, []⟩

/-! ## Scenes -/

structure FColor where
  R : Nat
  G : Nat
  B : Nat
  A : Nat
deriving DecidableEq, Repr

/-- Engine vector math the scene export calls. -/
structure FMath where
  /-- The method `FQuat4f::Vector`: the forward direction of a rotation. -/
  QuatVector : FQuat4f → FVector3f
  /-- The product of a vector and a float. -/
  VectorScale : FVector3f → F32 → FVector3f
  /-- The sum of two vectors. -/
  VectorAdd : FVector3f → FVector3f → FVector3f
  /-- The conversion `FLinearColor::FromSRGBColor`. -/
  FromSRGBColor : FColor → FLinearColor

structure UCameraComponent where
  GetComponentToWorld : FTransform
  FieldOfView : F32
  AspectRatio : F32
deriving DecidableEq, Repr

structure UDirectionalLightComponent where
  GetComponentToWorld : FTransform
  LightColor : FColor
  Intensity : F32
  DynamicShadowDistanceMovableLight : F32
  ShadowBias : F32
deriving DecidableEq, Repr

structure UPointLightComponent where
  GetComponentToWorld : FTransform
  AttenuationRadius : F32
  LightFalloffExponent : F32
  LightColor : FColor
  Intensity : F32
deriving DecidableEq, Repr

/-- What a material slot points to: a material instance, or a material of
another class, for which `Cast<UMaterialInstance>` yields null. -/
inductive UMaterialInterface where
  | MaterialInstance (Instance : UMaterialInstance)
  | Material (GetPathName : String)

/-- An asset object as a component refers to it: the object and the path name
`GetPathName` returns for it. -/
structure UObjectHandle (α : Type) where
  GetPathName : String
  Object : α

structure UStaticMeshComponent where
  GetComponentToWorld : FTransform
  /-- Null when no mesh is assigned. -/
  GetStaticMesh : Option (UObjectHandle UStaticMesh)
  /-- The array `GetMaterials` returns, one entry per slot, null entries
  included; `GetNumMaterials` is its length. -/
  GetMaterials : List (Option UMaterialInterface)

/-- The animation asset a skinned component plays; `AsAnimSequence` is the
result of `Cast<UAnimSequence>`. -/
structure UAnimationAsset where
  GetPathName : String
  AsAnimSequence : Option UAnimSequence

structure USkeletalMeshComponent where
  GetComponentToWorld : FTransform
  /-- Null when no mesh is assigned. -/
  GetSkeletalMeshAsset : Option (UObjectHandle USkeletalMesh)
  /-- The member `AnimationData.AnimToPlay`, null when no animation is set. -/
  AnimToPlay : Option UAnimationAsset
  GetMaterials : List (Option UMaterialInterface)

/-- A world, through the five queries `GetAllActorsOfClass` answers: per actor
returned, the component `GetComponentByClass` finds on it, if any. -/
structure UWorld where
  CameraActors : List (Option UCameraComponent)
  DirectionalLightActors : List (Option UDirectionalLightComponent)
  PointLightActors : List (Option UPointLightComponent)
  StaticMeshActors : List (Option UStaticMeshComponent)
  SkeletalMeshActors : List (Option USkeletalMeshComponent)

/-- A call of a per-asset export function, with the output path passed. -/
inductive ExportCall where
  | ExportStaticMesh (path : String)
  | ExportSkeletalMesh (path : String)
  | ExportMaterialInstance (path : String)
  | ExportSkeleton (path : String)
  | ExportAnimSequence (path : String)
deriving DecidableEq, Repr

/-- The scene archive, the file events and external calls of the nested
exports, and the nested export calls made so far. -/
structure MapState where
  Ar : FArchive
  events : List FileEvent
  external : List ExternalCall
  calls : List ExportCall

/-- The result of `ExportMap`: how it ended, the file events, the external calls
and the per-asset export calls it made. -/
structure MapRun where
  outcome : Outcome
  events : List FileEvent
  external : List ExternalCall
  calls : List ExportCall

/-- Body of the camera loop of `ExportMap`; none when the actor has no camera
component (the `check` fails). -/
def writeCameraActor (host : Host) (math : FMath) (Ar : FArchive)
    (Actor : Option UCameraComponent) : Option FArchive :=
  match Actor with
  | none => none
  | some Component =>
    let Transform := Component.GetComponentToWorld
    let Location := host.toVector3f Transform.GetTranslation
    let Rotation := host.toQuat4f Transform.GetRotation
    let Direction := math.QuatVector Rotation
    let Target := math.VectorAdd Location (math.VectorScale Direction (F32.ofBits 0x42C80000))
    let FOV := Component.FieldOfView
    let AspectRatio := Component.AspectRatio
    some ((((Ar.vector3f Location).vector3f Target).float FOV).float AspectRatio)

/-- Body of the directional-light loop of `ExportMap`. -/
def writeDirectionalLightActor (host : Host) (math : FMath) (Ar : FArchive)
    (Actor : Option UDirectionalLightComponent) : Option FArchive :=
  match Actor with
  | none => none
  | some Component =>
    let Transform := Component.GetComponentToWorld
    let Rotation := host.toQuat4f Transform.GetRotation
    let Direction := math.QuatVector Rotation
    let Color := math.FromSRGBColor Component.LightColor
    let Intensity := Component.Intensity
    let ShadowDistance := Component.DynamicShadowDistanceMovableLight
    let ShadowBias := Component.ShadowBias
    some (((((Ar.linearColor Color).vector3f Direction).float Intensity).float
      ShadowDistance).float ShadowBias)

/-- Body of the point-light loop of `ExportMap`. -/
def writePointLightActor (host : Host) (math : FMath) (Ar : FArchive)
    (Actor : Option UPointLightComponent) : Option FArchive :=
  match Actor with
  | none => none
  | some Component =>
    let Transform := Component.GetComponentToWorld
    let Location := host.toVector3f Transform.GetTranslation
    let AttenuationRadius := Component.AttenuationRadius
    let LightFalloffExponent := Component.LightFalloffExponent
    let Color := math.FromSRGBColor Component.LightColor
    let Intensity := Component.Intensity
    some (((((Ar.linearColor Color).vector3f Location).float Intensity).float
      AttenuationRadius).float LightFalloffExponent)

/-- The cast `Cast<UMaterialInstance>(Material)`, null for a null slot. -/
def castMaterialInstance : Option UMaterialInterface → Option UMaterialInstance
  | some (.MaterialInstance Instance) => some Instance
  | _ => none

/-- Body of the material loops of `ExportMap`: a slot whose cast is null or not
valid is skipped; otherwise the material name is written and the material is
exported, the flag returned being dropped. -/
def exportMaterialSlot (host : Host) (paths : FPaths) (st : MapState)
    (Material : Option UMaterialInterface) : MapState :=
  match castMaterialInstance Material with
  | none => st
  | some Instance =>
    if Instance.IsValidLowLevel then
      let MaterialFullName := Instance.GetPathName
      let MaterialName := (Split MaterialFullName).2
      let Ar := st.Ar.fstring MaterialName
      let SaveMaterialPath :=
        paths.ProjectSavedDir ++ MATERIAL_PATH ++ MaterialName ++ MATERIAL_BINARY_FILE_POSTFIX
      let r := ExportMaterialInstance host paths (some Instance) SaveMaterialPath
      ⟨Ar, st.events ++ r.run.events, st.external ++ r.external,
        st.calls ++ [.ExportMaterialInstance SaveMaterialPath]⟩
    else
      st

/-- Body of the static-mesh loop of `ExportMap`; none when the actor has no
mesh component, the component has no mesh, or the mesh export faults.  The
flag the mesh export returns is dropped. -/
def exportStaticMeshActor (host : Host) (paths : FPaths) (st : MapState)
    (Actor : Option UStaticMeshComponent) : Option MapState :=
  match Actor with
  | none => none
  | some Component =>
    match Component.GetStaticMesh with
    | none => none
    | some StaticMesh =>
      let Transform := Component.GetComponentToWorld
      let Location := host.toVector3f Transform.GetTranslation
      let Rotation := host.toQuat4f Transform.GetRotation
      let Scale := host.toVector3f Transform.GetScale3D
      let ResourceFullName := StaticMesh.GetPathName
      let NumMaterial : Int := Component.GetMaterials.length
      let ResourceName := (Split ResourceFullName).2
      let Ar := ((((st.Ar.quat4f Rotation).vector3f Location).vector3f Scale).fstring
        ResourceName).int32 NumMaterial
      let SaveStaticMeshPath :=
        paths.ProjectSavedDir ++ STATICMESH_PATH ++ ResourceName ++
          STATIC_MESH_BINARY_FILE_POSTFIX
      let r := ExportStaticMesh host (some StaticMesh.Object) SaveStaticMeshPath
      match r.outcome with
      | .fault => none
      | .returned _ =>
        some (Component.GetMaterials.foldl (exportMaterialSlot host paths)
          ⟨Ar, st.events ++ r.events, st.external,
            st.calls ++ [.ExportStaticMesh SaveStaticMeshPath]⟩)

/-- Body of the skeletal-mesh loop of `ExportMap`; none when the actor has no
mesh component, the component has no mesh, no animation or no skeleton, or
the mesh export faults.  The flags the nested exports return are dropped. -/
def exportSkeletalMeshActor (host : Host) (paths : FPaths) (st : MapState)
    (Actor : Option USkeletalMeshComponent) : Option MapState :=
  match Actor with
  | none => none
  | some Component =>
    match Component.GetSkeletalMeshAsset, Component.AnimToPlay with
    | some SkeletalMesh, some AnimToPlay =>
      let Transform := Component.GetComponentToWorld
      let Location := host.toVector3f Transform.GetTranslation
      let Rotation := host.toQuat4f Transform.GetRotation
      let Scale := host.toVector3f Transform.GetScale3D
      let ResourceFullName := SkeletalMesh.GetPathName
      let AnimationFullName := AnimToPlay.GetPathName
      let NumMaterial : Int := Component.GetMaterials.length
      let ResourceName := (Split ResourceFullName).2
      let AnimationName := (Split AnimationFullName).2
      let Ar := (((((st.Ar.quat4f Rotation).vector3f Location).vector3f Scale).fstring
        ResourceName).fstring AnimationName).int32 NumMaterial
      let SaveSkeletalMeshPath :=
        paths.ProjectSavedDir ++ SKELETALMESH_PATH ++ ResourceName ++
          SKELETAL_MESH_BINARY_FILE_POSTFIX
      let r := ExportSkeletalMesh host (some SkeletalMesh.Object) SaveSkeletalMeshPath
      match r.outcome with
      | .fault => none
      | .returned _ =>
        let st := Component.GetMaterials.foldl (exportMaterialSlot host paths)
          ⟨Ar, st.events ++ r.events, st.external,
            st.calls ++ [.ExportSkeletalMesh SaveSkeletalMeshPath]⟩
        match SkeletalMesh.Object.GetSkeleton with
        | none => none
        | some Skeleton =>
          let SkeletonFullName := Skeleton.GetPathName
          let SkeletonName := (Split SkeletonFullName).2
          let SaveSkeletonPath :=
            paths.ProjectSavedDir ++ SKELETON_PATH ++ SkeletonName ++
              SKELETON_BINARY_FILE_POSTFIX
          let rs := ExportSkeleton host (some Skeleton) SaveSkeletonPath
          let SaveAnimSequencePath :=
            paths.ProjectSavedDir ++ ANIMATION_PATH ++ AnimationName ++
              ANIMSEQUENCE_BINARY_FILE_POSTFIX
          let ra := ExportAnimSequence host AnimToPlay.AsAnimSequence SaveAnimSequencePath
          some ⟨st.Ar, st.events ++ rs.events ++ ra.events, st.external,
            st.calls ++ [.ExportSkeleton SaveSkeletonPath,
              .ExportAnimSequence SaveAnimSequencePath]⟩
    | _, _ => none

/-- The five loops of `ExportMap`, each after the `int32` count of its actors;
none when a loop body faults. -/
def writeMap (host : Host) (paths : FPaths) (math : FMath) (World : UWorld) :
    Option MapState := do
  let CameraCount : Int := World.CameraActors.length
  let Ar := FArchive.int32 [] CameraCount
  let Ar ← World.CameraActors.foldlM (writeCameraActor host math) Ar
  let DirectionalLightCount : Int := World.DirectionalLightActors.length
  let Ar := Ar.int32 DirectionalLightCount
  let Ar ← World.DirectionalLightActors.foldlM (writeDirectionalLightActor host math) Ar
  let PointLightCount : Int := World.PointLightActors.length
  let Ar := Ar.int32 PointLightCount
  let Ar ← World.PointLightActors.foldlM (writePointLightActor host math) Ar
  let StaticMeshActorCount : Int := World.StaticMeshActors.length
  let Ar := Ar.int32 StaticMeshActorCount
  let st ← World.StaticMeshActors.foldlM (exportStaticMeshActor host paths) ⟨Ar, [], [], []⟩
  let SkeletalMeshActorCount : Int := World.SkeletalMeshActors.length
  let st : MapState := ⟨st.Ar.int32 SkeletalMeshActorCount, st.events, st.external, st.calls⟩
  World.SkeletalMeshActors.foldlM (exportSkeletalMeshActor host paths) st

/-- The function `UObjectExporterBPLibrary::ExportMap`.  The world context is
none when it or its world is not valid.  The scene file is handed to its
writer as one `Serialize` event when the writer is closed, after the events of
the nested exports; the effects of a run that faults are not recorded beyond
the creation of the writer. -/
def ExportMap (host : Host) (paths : FPaths) (math : FMath)
    (WorldContextObject : Option UWorld) (FullFilePathName : String) (CopyToPath : Bool)
    (CopyPath : String) : MapRun :=
  match WorldContextObject with
  | none => ⟨.returned false, [], [], []⟩
  | some World =>
    if EndsWith FullFilePathName MAP_BINARY_FILE_POSTFIX then
      if !host.CreateFileWriter FullFilePathName then
        ⟨.returned false, [.CreateFileWriter FullFilePathName false], [], []⟩
      else
        match writeMap host paths math World with
        | none => ⟨.fault, [.CreateFileWriter FullFilePathName true], [], []⟩
        | some st =>
          let SavePath := paths.ProjectSavedDir ++ ROOT_PATH
          let CmdString := ReplaceSlashes ("xcopy " ++ SavePath ++ " " ++ CopyPath) ++ " /s/e/i/y"
          ⟨.returned true,
            [.CreateFileWriter FullFilePathName true] ++ st.events ++
              [.Serialize FullFilePathName st.Ar, .Close FullFilePathName],
            st.external ++ (if CopyToPath then [.system CmdString] else []),
            st.calls⟩
    else
      ⟨.returned false, [], [], []⟩

/-! ## IEEE-754 arithmetic for the sample scene -/

/-- Position of the highest set bit of `n`, for `0 < n < 2 ^ 2048`. -/
def ilog2Wide (n : Nat) : Nat := ilog2Aux 2048 n

/-- A float taken apart: not a number, an infinity, or the finite value
`m * 2 ^ e`, negated when `neg`. -/
inductive FloatValue where
  | nan
  | inf (neg : Bool)
  | finite (neg : Bool) (m : Nat) (e : Int)
deriving DecidableEq, Repr

def F32.decode (f : F32) : FloatValue :=
  let b : Nat := f.bits.val
  let neg := decide (b / 2 ^ 31 % 2 = 1)
  let E : Nat := b / 2 ^ 23 % 256
  let M : Nat := b % 2 ^ 23
  if E = 255 then (if M = 0 then .inf neg else .nan)
  else if E = 0 then .finite neg M (-149)
  else .finite neg (2 ^ 23 + M) ((E : Int) - 150)

def F64.decode (d : F64) : FloatValue :=
  let b : Nat := d.bits
  let neg := decide (b / 2 ^ 63 % 2 = 1)
  let E : Nat := b / 2 ^ 52 % 2048
  let M : Nat := b % 2 ^ 52
  if E = 2047 then (if M = 0 then .inf neg else .nan)
  else if E = 0 then .finite neg M (-1074)
  else .finite neg (2 ^ 52 + M) ((E : Int) - 1075)

/-- The float nearest to `m * 2 ^ e` (negated when `neg`), ties to even;
infinity on overflow. -/
def F32.round (neg : Bool) (m : Nat) (e : Int) : F32 :=
  let s := if neg then 2 ^ 31 else 0
  if m = 0 then F32.ofBits s
  else
    let X : Int := (ilog2Wide m : Int) + e
    if X < -126 then
      let q := if -149 ≤ e then m * 2 ^ (e + 149).toNat
        else roundHalfEven m (2 ^ (-149 - e).toNat)
      F32.ofBits (s + q)
    else
      let t : Int := X - 23
      let q := if t ≤ e then m * 2 ^ (e - t).toNat else roundHalfEven m (2 ^ (t - e).toNat)
      F32.ofBits (s + min ((X + 127).toNat * 2 ^ 23 + (q - 2 ^ 23)) 0x7F800000)

/-- The canonical quiet NaN. -/
def F32.nan : F32 := F32.ofBits 0x7FC00000

def F32.infinity (neg : Bool) : F32 := F32.ofBits (if neg then 0xFF800000 else 0x7F800000)

/-- Single-precision product, rounded to nearest even; an invalid product
gives the canonical NaN. -/
def F32.mul (a b : F32) : F32 :=
  match a.decode, b.decode with
  | .nan, _ => F32.nan
  | _, .nan => F32.nan
  | .inf n1, .inf n2 => F32.infinity (n1 != n2)
  | .inf n1, .finite n2 m _ => if m = 0 then F32.nan else F32.infinity (n1 != n2)
  | .finite n1 m _, .inf n2 => if m = 0 then F32.nan else F32.infinity (n1 != n2)
  | .finite n1 m1 e1, .finite n2 m2 e2 => F32.round (n1 != n2) (m1 * m2) (e1 + e2)

/-- Single-precision sum, rounded to nearest even; an invalid sum gives the
canonical NaN. -/
def F32.add (a b : F32) : F32 :=
  match a.decode, b.decode with
  | .nan, _ => F32.nan
  | _, .nan => F32.nan
  | .inf n1, .inf n2 => if n1 = n2 then F32.infinity n1 else F32.nan
  | .inf n1, .finite _ _ _ => F32.infinity n1
  | .finite _ _ _, .inf n2 => F32.infinity n2
  | .finite n1 m1 e1, .finite n2 m2 e2 =>
    if m1 = 0 ∧ m2 = 0 then F32.round (n1 && n2) 0 0
    else
      let e := min e1 e2
      let v1 : Int := (if n1 then -1 else 1) * ((m1 * 2 ^ (e1 - e).toNat : Nat) : Int)
      let v2 : Int := (if n2 then -1 else 1) * ((m2 * 2 ^ (e2 - e).toNat : Nat) : Int)
      let v := v1 + v2
      F32.round (decide (v < 0)) v.natAbs e

def F32.neg (a : F32) : F32 := F32.ofBits (a.bits.val + 2 ^ 31)

def F32.sub (a b : F32) : F32 := F32.add a (F32.neg b)

/-- Narrowing of a double to a float, rounded to nearest even; a NaN gives the
canonical NaN. -/
def F64.toF32 (d : F64) : F32 :=
  match d.decode with
  | .nan => F32.nan
  | .inf neg => F32.infinity neg
  | .finite neg m e => F32.round neg m e

def F32.one : F32 := F32.ofBits 0x3F800000

def F32.zero : F32 := F32.ofBits 0

/-- The cross product of two vectors in single precision. -/
def crossProduct (a b : FVector3f) : FVector3f :=
  ⟨F32.sub (F32.mul a.Y b.Z) (F32.mul a.Z b.Y),
   F32.sub (F32.mul a.Z b.X) (F32.mul a.X b.Z),
   F32.sub (F32.mul a.X b.Y) (F32.mul a.Y b.X)⟩

/-- Component-wise sum in single precision. -/
def vectorAdd (a b : FVector3f) : FVector3f :=
  ⟨F32.add a.X b.X, F32.add a.Y b.Y, F32.add a.Z b.Z⟩

/-- Product of a vector and a float in single precision. -/
def vectorScale (a : FVector3f) (s : F32) : FVector3f :=
  ⟨F32.mul a.X s, F32.mul a.Y s, F32.mul a.Z s⟩

/-- Rotation of a vector by a quaternion: with `Q` the vector part and `T` twice
the cross product of `Q` and `V`, the result is `V + W * T + Q x T`. -/
def rotateVector (q : FQuat4f) (V : FVector3f) : FVector3f :=
  let Q : FVector3f := ⟨q.X, q.Y, q.Z⟩
  let T := vectorScale (crossProduct Q V) (F32.ofBits 0x40000000)
  vectorAdd (vectorAdd V (vectorScale T q.W)) (crossProduct Q T)

/-- Vector math in IEEE-754 single precision: the forward direction is the
rotated X axis.  The colour conversion divides each channel by 255, a
stand-in for the engine's sRGB table. -/
def ieeeMath : FMath :=
  { QuatVector := fun q => rotateVector q ⟨F32.one, F32.zero, F32.zero⟩
    VectorScale := vectorScale
    VectorAdd := vectorAdd
    FromSRGBColor := fun c =>
      ⟨F32.divNat c.R 255, F32.divNat c.G 255, F32.divNat c.B 255, F32.divNat c.A 255⟩ }

/-! ## Layouts and the reference decoder, after the specification -/

/-- The twelve floats of one vertex record of section 4.1: position (3),
normal (4), tangent (3), uv (2). -/
def vertexFloats (VertexBuffers : FStaticMeshVertexBuffers) (i : Nat) : List F32 :=
  let p := VertexBuffers.PositionVertexBuffer.VertexPosition i
  let n := VertexBuffers.StaticMeshVertexBuffer.VertexTangentZ i
  let t := VertexBuffers.StaticMeshVertexBuffer.VertexTangentX i
  let uv := VertexBuffers.StaticMeshVertexBuffer.GetVertexUV i 0
  [p.X, p.Y, p.Z, n.X, n.Y, n.Z, n.W, t.X, t.Y, t.Z, uv.X, uv.Y]

/-- One section record of section 4.1: material index (int32), first index,
triangle count, min and max vertex index (uint32 each). -/
def sectionRecord (s : FStaticMeshSection) : List Nat :=
  encInt32 s.MaterialIndex ++ encUInt32 s.FirstIndex ++ encUInt32 s.NumTriangles ++
    encUInt32 s.MinVertexIndex ++ encUInt32 s.MaxVertexIndex

/-- The static geometry file of section 4.1 for one detail level. -/
def staticMeshLayout (lod : FStaticMeshLODResources) : List Nat :=
  encInt32 lod.VertexBuffers.PositionVertexBuffer.GetNumVertices ++
    (List.range lod.VertexBuffers.PositionVertexBuffer.GetNumVertices).flatMap
      (fun i => (vertexFloats lod.VertexBuffers i).flatMap encFloat) ++
    encInt32 lod.IndexBuffer.length ++
    lod.IndexBuffer.flatMap encUInt32 ++
    encInt32 lod.Sections.length ++
    lod.Sections.flatMap sectionRecord

/-- One pose record of section 4.3 as the file holds it: rotation quaternion,
translation, scale, in single precision. -/
structure PoseRecord where
  Rotation : FQuat4f
  Translation : FVector3f
  Scale : FVector3f
deriving DecidableEq, Repr

/-- The pose record a bone transform of the source is written as. -/
def poseRecord (host : Host) (t : FTransform) : PoseRecord :=
  ⟨host.toQuat4f t.GetRotation, host.toVector3f t.GetTranslation, host.toVector3f t.GetScale3D⟩

/-- The ten floats of a pose record, in file order. -/
def poseFloats (p : PoseRecord) : List F32 :=
  [p.Rotation.X, p.Rotation.Y, p.Rotation.Z, p.Rotation.W,
   p.Translation.X, p.Translation.Y, p.Translation.Z, p.Scale.X, p.Scale.Y, p.Scale.Z]

/-- The skeleton file of section 4.3. -/
def skeletonLayout (host : Host) (bones : List FMeshBoneInfo) (poses : List FTransform) :
    List Nat :=
  encInt32 bones.length ++
    bones.flatMap (fun b => encFString b.Name ++ encInt32 b.ParentIndex) ++
    encInt32 poses.length ++
    poses.flatMap (fun t => (poseFloats (poseRecord host t)).flatMap encFloat)

/-- Reads a `uint32`. -/
def decUInt32 : List Nat → Option (Nat × List Nat)
  | b0 :: b1 :: b2 :: b3 :: rest => some (b0 + 256 * b1 + 65536 * b2 + 16777216 * b3, rest)
  | _ => none

/-- Reads an `int32`. -/
def decInt32 (bytes : List Nat) : Option (Int × List Nat) :=
  match decUInt32 bytes with
  | some (u, rest) => some (if u < 2147483648 then (u : Int) else (u : Int) - 4294967296, rest)
  | none => none

/-- Reads a `float`. -/
def decFloat (bytes : List Nat) : Option (F32 × List Nat) :=
  match decUInt32 bytes with
  | some (u, rest) => some (F32.ofBits u, rest)
  | none => none

/-- Reads one 16-bit character. -/
def decChar : List Nat → Option (Char × List Nat)
  | b0 :: b1 :: rest => some (Char.ofNat (b0 + 256 * b1), rest)
  | _ => none

/-- Reads `n` items one after the other. -/
def decMany {α : Type} (dec : List Nat → Option (α × List Nat)) :
    Nat → List Nat → Option (List α × List Nat)
  | 0, bytes => some ([], bytes)
  | n + 1, bytes =>
    match dec bytes with
    | none => none
    | some (x, rest) =>
      match decMany dec n rest with
      | none => none
      | some (xs, rest) => some (x :: xs, rest)

/-- Reads a length-prefixed string. -/
def decFString (bytes : List Nat) : Option (String × List Nat) :=
  match decInt32 bytes with
  | none => none
  | some (n, rest) =>
    if n < 0 then none
    else
      match decMany decChar n.toNat rest with
      | none => none
      | some (cs, rest) => some (String.mk cs, rest)

/-- Reads one bone record: name, parent index. -/
def decBone (bytes : List Nat) : Option (FMeshBoneInfo × List Nat) :=
  match decFString bytes with
  | none => none
  | some (name, rest) =>
    match decInt32 rest with
    | none => none
    | some (parent, rest) => some (⟨name, parent⟩, rest)

/-- Reads one pose record: rotation, translation, scale. -/
def decPose (bytes : List Nat) : Option (PoseRecord × List Nat) :=
  match decMany decFloat 10 bytes with
  | some ([rx, ry, rz, rw, tx, ty, tz, sx, sy, sz], rest) =>
    some (⟨⟨rx, ry, rz, rw⟩, ⟨tx, ty, tz⟩, ⟨sx, sy, sz⟩⟩, rest)
  | _ => none

/-- Reference decoder of the skeleton file of section 4.3: the bone count and
that many bone records, the pose count and that many pose records, and no
byte left over. -/
def decodeSkeleton (bytes : List Nat) : Option (List FMeshBoneInfo × List PoseRecord) :=
  match decInt32 bytes with
  | none => none
  | some (nb, rest) =>
    if nb < 0 then none
    else
      match decMany decBone nb.toNat rest with
      | none => none
      | some (bones, rest) =>
        match decInt32 rest with
        | none => none
        | some (np, rest) =>
          if np < 0 then none
          else
            match decMany decPose np.toNat rest with
            | some (poses, []) => some (bones, poses)
            | _ => none

instance : Inhabited FSkinWeightInfo := ⟨⟨fun _ => 0, fun _ => 0⟩⟩

/-- One skinned vertex record of section 4.2: the twelve floats of section 4.1,
four bone indices (uint16) looked up in `BoneMap`, four weights (float). -/
def skinnedVertexRecord (VertexBuffers : FStaticMeshVertexBuffers) (BoneMap : List Nat)
    (Info : FSkinWeightInfo) (i : Nat) : List Nat :=
  (vertexFloats VertexBuffers i).flatMap encFloat ++
    (List.range 4).flatMap (fun k => encUInt16 (BoneMap.getD (Info.InfluenceBones k) 0)) ++
    (List.range 4).flatMap (fun k => encFloat (BoneWeight (Info.InfluenceWeights k)))

/-- The five fields `ExportSkeletalMesh` writes per section. -/
def skelSectionRecord (s : FSkelMeshRenderSection) : List Nat :=
  encInt32 s.MaterialIndex ++ encUInt32 s.BaseIndex ++ encUInt32 s.NumTriangles ++
    encUInt32 s.BaseVertexIndex ++ encUInt32 s.NumVertices

/-- The skinned geometry file of section 4.2 for one detail level, bone indices
looked up in `BoneMap`, followed by the skeleton name. -/
def skeletalMeshLayout (lod : FSkeletalMeshLODRenderData) (BoneMap : List Nat)
    (SkeletonName : String) : List Nat :=
  encInt32 lod.StaticVertexBuffers.PositionVertexBuffer.GetNumVertices ++
    (List.range lod.StaticVertexBuffers.PositionVertexBuffer.GetNumVertices).flatMap
      (fun i => skinnedVertexRecord lod.StaticVertexBuffers BoneMap
        (lod.SkinWeights.getD i default) i) ++
    encInt32 lod.Indices.length ++
    lod.Indices.flatMap encUInt32 ++
    encInt32 lod.RenderSections.length ++
    lod.RenderSections.flatMap skelSectionRecord ++
    encFString SkeletonName

/-- The inputs on which the body of `ExportSkeletalMesh` indexes in range: the
skin-weight array covers every vertex and every influence bone of slots 0 to 3
is an index into `BoneMap`. -/
def skinIndicesInRange (lod : FSkeletalMeshLODRenderData) (BoneMap : List Nat) : Prop :=
  lod.StaticVertexBuffers.PositionVertexBuffer.GetNumVertices ≤ lod.SkinWeights.length ∧
  ∀ i, i < lod.StaticVertexBuffers.PositionVertexBuffer.GetNumVertices →
    ∀ k, k < 4 → (lod.SkinWeights.getD i default).InfluenceBones k < BoneMap.length

/-- The section that owns a vertex: the first one whose vertex range
`[BaseVertexIndex, BaseVertexIndex + NumVertices)` contains it. -/
def owningSection (sections : List FSkelMeshRenderSection) (v : Nat) :
    Option FSkelMeshRenderSection :=
  sections.find? fun s => decide (s.BaseVertexIndex ≤ v) &&
    decide (v < s.BaseVertexIndex + s.NumVertices)

/-- The bone index of slot `k` of vertex `v`, resolved through the bone map of
the section that owns `v`. -/
def boneIndexThroughOwner (lod : FSkeletalMeshLODRenderData) (v k : Nat) : Option Nat :=
  match owningSection lod.RenderSections v, lod.SkinWeights[v]? with
  | some s, some Info => s.BoneMap[Info.InfluenceBones k]?
  | _, _ => none

/-- The largest vertex index of a section's vertex range. -/
def maxVertexIndex (s : FSkelMeshRenderSection) : Nat := s.BaseVertexIndex + s.NumVertices - 1

/-- Integer form of the facts about `BoneWeight w` for a raw weight `w`: the
pattern is a non-negative normal float `m * 2 ^ E / 2 ^ 150` (zero for `w = 0`)
that is at most 1 and within relative error `2 ^ -24` of `w / 255`. -/
def weightOk (w : Nat) : Bool :=
  let b := (BoneWeight w).bits.val
  let E := b / 2 ^ 23 % 256
  let m := 2 ^ 23 + b % 2 ^ 23
  if w = 0 then b == 0
  else
    decide (b / 2 ^ 31 % 2 = 0) && decide (1 ≤ E) && decide (E ≤ 127) &&
    decide (m * 2 ^ E ≤ 2 ^ 150) &&
    decide (m * 2 ^ E * 255 * 2 ^ 24 ≤ w * 2 ^ 150 * 2 ^ 24 + w * 2 ^ 150) &&
    decide (w * 2 ^ 150 * 2 ^ 24 ≤ m * 2 ^ E * 255 * 2 ^ 24 + w * 2 ^ 150)

/-- Whether `v` is a value of type `int32`. -/
def isInt32 (v : Int) : Bool := decide (-2147483648 ≤ v) && decide (v < 2147483648)

/-- Whether `s` is a string of 16-bit characters whose length is an `int32`. -/
def isTCharString (s : String) : Bool :=
  decide (s.data.length < 2147483648) && s.data.all (fun c => decide (c.toNat < 65536))

/-- Whether a bone info holds values of its C++ field types. -/
def FMeshBoneInfo.wellTyped (b : FMeshBoneInfo) : Bool :=
  isTCharString b.Name && isInt32 b.ParentIndex

/-- One track record of section 4.4: the bone index, then the position,
rotation and scale key arrays, each after its own `int32` length. -/
def animationTrackRecord (t : FBoneAnimationTrack) : List Nat :=
  encInt32 t.BoneTreeIndex ++
    (encInt32 t.InternalTrackData.PosKeys.length ++
      t.InternalTrackData.PosKeys.flatMap encVector3f) ++
    (encInt32 t.InternalTrackData.RotKeys.length ++
      t.InternalTrackData.RotKeys.flatMap encQuat4f) ++
    (encInt32 t.InternalTrackData.ScaleKeys.length ++
      t.InternalTrackData.ScaleKeys.flatMap encVector3f)

/-- The value of the scalar parameter of a name, as the material defines it:
the value of the first scalar parameter info of that name. -/
def UMaterialInstance.scalarValue (m : UMaterialInstance) (name : String) : Option F32 :=
  match m.GetAllScalarParameterInfo.find? (fun info => decide (info.Name = ⟨name⟩)) with
  | some info => m.GetScalarParameterValue info
  | none => none

/-- The value of the vector parameter of a name, as the material defines it. -/
def UMaterialInstance.vectorValue (m : UMaterialInstance) (name : String) :
    Option FLinearColor :=
  match m.GetAllVectorParameterInfo.find? (fun info => decide (info.Name = ⟨name⟩)) with
  | some info => m.GetVectorParameterValue info
  | none => none

/-- The bytes of an optional scalar field of section 4.5: the float when the
material defines the parameter, nothing otherwise. -/
def optionalScalar (m : UMaterialInstance) (name : String) : List Nat :=
  match m.scalarValue name with
  | some v => encFloat v
  | none => []

/-- The bytes of an optional vector field of section 4.5: the four floats of
the colour when the material defines the parameter, nothing otherwise. -/
def optionalVector (m : UMaterialInstance) (name : String) : List Nat :=
  match m.vectorValue name with
  | some c => encLinearColor c
  | none => []

/-- The (parameter name, texture name) pairs of a material: one per texture
parameter that refers to a texture, in parameter order. -/
def texturePairs (m : UMaterialInstance) : List (String × String) :=
  m.GetAllTextureParameterInfo.filterMap fun info =>
    match m.GetTextureParameterValue info with
    | some Texture => some (info.Name.ToString, (Split Texture.GetPathName).2)
    | none => none

/-- Reads the (name, name) string pairs a byte sequence consists of; none when
the bytes are not a sequence of such pairs.  The fuel bounds the number of
pairs read. -/
def decStringPairs : Nat → List Nat → Option (List (String × String))
  | _, [] => some []
  | 0, _ :: _ => none
  | fuel + 1, bytes =>
    match decFString bytes with
    | none => none
    | some (a, rest) =>
      match decFString rest with
      | none => none
      | some (b, rest) =>
        match decStringPairs fuel rest with
        | none => none
        | some ps => some ((a, b) :: ps)

/-- One camera record of the scene file: location, target, field of view,
aspect ratio; the target is the location plus 100 times the forward vector. -/
def cameraRecord (host : Host) (math : FMath) (c : UCameraComponent) : List Nat :=
  let location := host.toVector3f c.GetComponentToWorld.GetTranslation
  let forward := math.QuatVector (host.toQuat4f c.GetComponentToWorld.GetRotation)
  encVector3f location ++
    encVector3f (math.VectorAdd location (math.VectorScale forward (F32.ofBits 0x42C80000))) ++
    encFloat c.FieldOfView ++ encFloat c.AspectRatio

/-- One directional-light record: colour, direction, intensity, shadow
distance, shadow bias. -/
def directionalLightRecord (host : Host) (math : FMath) (c : UDirectionalLightComponent) :
    List Nat :=
  encLinearColor (math.FromSRGBColor c.LightColor) ++
    encVector3f (math.QuatVector (host.toQuat4f c.GetComponentToWorld.GetRotation)) ++
    encFloat c.Intensity ++ encFloat c.DynamicShadowDistanceMovableLight ++
    encFloat c.ShadowBias

/-- One point-light record: colour, position, intensity, attenuation radius,
falloff exponent. -/
def pointLightRecord (host : Host) (math : FMath) (c : UPointLightComponent) : List Nat :=
  encLinearColor (math.FromSRGBColor c.LightColor) ++
    encVector3f (host.toVector3f c.GetComponentToWorld.GetTranslation) ++
    encFloat c.Intensity ++ encFloat c.AttenuationRadius ++ encFloat c.LightFalloffExponent

/-- The valid material instances among the material slots of a component, in
slot order. -/
def validMaterialInstances (slots : List (Option UMaterialInterface)) :
    List UMaterialInstance :=
  slots.filterMap fun slot =>
    match castMaterialInstance slot with
    | some Instance => if Instance.IsValidLowLevel then some Instance else none
    | none => none

/-- The canonical name of an asset: the part of its path name the resolver
keeps. -/
def canonicalName (pathName : String) : String := (Split pathName).2

/-- The output path of a dependency: saved directory, subdirectory of the
asset kind, canonical name, extension. -/
def outputPath (paths : FPaths) (subdirectory pathName extension : String) : String :=
  paths.ProjectSavedDir ++ subdirectory ++ canonicalName pathName ++ extension

/-- The transform part of a mesh instance record: rotation, location, scale. -/
def transformRecord (host : Host) (t : FTransform) : List Nat :=
  encQuat4f (host.toQuat4f t.GetRotation) ++ encVector3f (host.toVector3f t.GetTranslation) ++
    encVector3f (host.toVector3f t.GetScale3D)

/-- One static-mesh instance record: transform, mesh name, material count, and
the names of the valid material instances. -/
def staticMeshInstanceRecord (host : Host) (c : UStaticMeshComponent) : List Nat :=
  match c.GetStaticMesh with
  | none => []
  | some Mesh =>
    transformRecord host c.GetComponentToWorld ++ encFString (canonicalName Mesh.GetPathName) ++
      encInt32 c.GetMaterials.length ++
      (validMaterialInstances c.GetMaterials).flatMap
        (fun i => encFString (canonicalName i.GetPathName))

/-- One skinned-mesh instance record: transform, mesh name, animation name,
material count, and the names of the valid material instances. -/
def skeletalMeshInstanceRecord (host : Host) (c : USkeletalMeshComponent) : List Nat :=
  match c.GetSkeletalMeshAsset, c.AnimToPlay with
  | some Mesh, some Anim =>
    transformRecord host c.GetComponentToWorld ++ encFString (canonicalName Mesh.GetPathName) ++
      encFString (canonicalName Anim.GetPathName) ++
      encInt32 c.GetMaterials.length ++
      (validMaterialInstances c.GetMaterials).flatMap
        (fun i => encFString (canonicalName i.GetPathName))
  | _, _ => []

/-- The material export calls for the slots of a component: one per valid
material instance, in slot order. -/
def materialCalls (paths : FPaths) (slots : List (Option UMaterialInterface)) :
    List ExportCall :=
  (validMaterialInstances slots).map fun i =>
    .ExportMaterialInstance (outputPath paths MATERIAL_PATH i.GetPathName
      MATERIAL_BINARY_FILE_POSTFIX)

/-- The export calls for one static-mesh instance: the mesh, then its materials. -/
def staticMeshActorCalls (paths : FPaths) (c : UStaticMeshComponent) : List ExportCall :=
  match c.GetStaticMesh with
  | none => []
  | some Mesh =>
    .ExportStaticMesh (outputPath paths STATICMESH_PATH Mesh.GetPathName
        STATIC_MESH_BINARY_FILE_POSTFIX) ::
      materialCalls paths c.GetMaterials

/-- The export calls for one skinned-mesh instance: the mesh, its materials,
the skeleton, the animation. -/
def skeletalMeshActorCalls (paths : FPaths) (c : USkeletalMeshComponent) : List ExportCall :=
  match c.GetSkeletalMeshAsset, c.AnimToPlay with
  | some Mesh, some Anim =>
    match Mesh.Object.GetSkeleton with
    | none => []
    | some Skeleton =>
      .ExportSkeletalMesh (outputPath paths SKELETALMESH_PATH Mesh.GetPathName
          SKELETAL_MESH_BINARY_FILE_POSTFIX) ::
        materialCalls paths c.GetMaterials ++
        [.ExportSkeleton (outputPath paths SKELETON_PATH Skeleton.GetPathName
            SKELETON_BINARY_FILE_POSTFIX),
         .ExportAnimSequence (outputPath paths ANIMATION_PATH Anim.GetPathName
            ANIMSEQUENCE_BINARY_FILE_POSTFIX)]
  | _, _ => []

/-- The file events and external calls of the material exports for the slots of
a component. -/
def materialEffects (host : Host) (paths : FPaths) (slots : List (Option UMaterialInterface)) :
    List FileEvent × List ExternalCall :=
  ((validMaterialInstances slots).flatMap fun i =>
      (ExportMaterialInstance host paths (some i) (outputPath paths MATERIAL_PATH i.GetPathName
        MATERIAL_BINARY_FILE_POSTFIX)).run.events,
   (validMaterialInstances slots).flatMap fun i =>
      (ExportMaterialInstance host paths (some i) (outputPath paths MATERIAL_PATH i.GetPathName
        MATERIAL_BINARY_FILE_POSTFIX)).external)

/-- The file events of the nested exports for one static-mesh instance. -/
def staticMeshActorEvents (host : Host) (paths : FPaths) (c : UStaticMeshComponent) :
    List FileEvent :=
  match c.GetStaticMesh with
  | none => []
  | some Mesh =>
    (ExportStaticMesh host (some Mesh.Object) (outputPath paths STATICMESH_PATH Mesh.GetPathName
        STATIC_MESH_BINARY_FILE_POSTFIX)).events ++
      (materialEffects host paths c.GetMaterials).1

/-- The file events of the nested exports for one skinned-mesh instance. -/
def skeletalMeshActorEvents (host : Host) (paths : FPaths) (c : USkeletalMeshComponent) :
    List FileEvent :=
  match c.GetSkeletalMeshAsset, c.AnimToPlay with
  | some Mesh, some Anim =>
    match Mesh.Object.GetSkeleton with
    | none => []
    | some Skeleton =>
      (ExportSkeletalMesh host (some Mesh.Object) (outputPath paths SKELETALMESH_PATH
          Mesh.GetPathName SKELETAL_MESH_BINARY_FILE_POSTFIX)).events ++
        (materialEffects host paths c.GetMaterials).1 ++
        (ExportSkeleton host (some Skeleton) (outputPath paths SKELETON_PATH
          Skeleton.GetPathName SKELETON_BINARY_FILE_POSTFIX)).events ++
        (ExportAnimSequence host Anim.AsAnimSequence (outputPath paths ANIMATION_PATH
          Anim.GetPathName ANIMSEQUENCE_BINARY_FILE_POSTFIX)).events
  | _, _ => []

/-- A static mesh whose export does not fault: it has render data. -/
def UStaticMesh.exportable (m : UStaticMesh) : Prop := m.GetRenderData.isSome = true

/-- A skeletal mesh whose export does not fault: it has a render resource and a
skeleton, and its first level, if any, has a render section and skin weights
that index in range. -/
def USkeletalMesh.exportable (m : USkeletalMesh) : Prop :=
  m.GetSkeleton.isSome = true ∧
  ∃ RenderData, m.GetResourceForRendering = some RenderData ∧
    ∀ CurLOD rest, RenderData.LODRenderData = CurLOD :: rest →
      ∃ Section0 others, CurLOD.RenderSections = Section0 :: others ∧
        skinIndicesInRange CurLOD Section0.BoneMap

/-- A static-mesh component the scene export can process: a mesh is assigned
and it is exportable. -/
def UStaticMeshComponent.wellFormed (c : UStaticMeshComponent) : Prop :=
  ∃ Mesh, c.GetStaticMesh = some Mesh ∧ Mesh.Object.exportable

/-- A skinned-mesh component the scene export can process: a mesh and an
animation are assigned and the mesh is exportable. -/
def USkeletalMeshComponent.wellFormed (c : USkeletalMeshComponent) : Prop :=
  ∃ Mesh Anim, c.GetSkeletalMeshAsset = some Mesh ∧ c.AnimToPlay = some Anim ∧
    Mesh.Object.exportable

/-- A scene, as the five actor queries answer it, in which every actor has its
component. -/
structure Scene where
  Cameras : List UCameraComponent
  DirectionalLights : List UDirectionalLightComponent
  PointLights : List UPointLightComponent
  StaticMeshes : List UStaticMeshComponent
  SkeletalMeshes : List USkeletalMeshComponent

/-- The world of a scene. -/
def Scene.toWorld (s : Scene) : UWorld :=
  { CameraActors := s.Cameras.map some
    DirectionalLightActors := s.DirectionalLights.map some
    PointLightActors := s.PointLights.map some
    StaticMeshActors := s.StaticMeshes.map some
    SkeletalMeshActors := s.SkeletalMeshes.map some }

/-- A scene the export can process without a fault. -/
def Scene.wellFormed (s : Scene) : Prop :=
  (∀ c ∈ s.StaticMeshes, c.wellFormed) ∧ (∀ c ∈ s.SkeletalMeshes, c.wellFormed)

/-- The scene file of section 4.6: five blocks in the order cameras,
directional lights, point lights, static-mesh instances, skinned-mesh
instances, each an `int32` count followed by one record per entity. -/
def sceneLayout (host : Host) (math : FMath) (s : Scene) : List Nat :=
  encInt32 s.Cameras.length ++ s.Cameras.flatMap (cameraRecord host math) ++
    encInt32 s.DirectionalLights.length ++
    s.DirectionalLights.flatMap (directionalLightRecord host math) ++
    encInt32 s.PointLights.length ++ s.PointLights.flatMap (pointLightRecord host math) ++
    encInt32 s.StaticMeshes.length ++ s.StaticMeshes.flatMap (staticMeshInstanceRecord host) ++
    encInt32 s.SkeletalMeshes.length ++
    s.SkeletalMeshes.flatMap (skeletalMeshInstanceRecord host)

/-- Whether the path of a nested export call selects the binary branch of the
function called: it ends with the extension of that codec and not with
".json". -/
def ExportCall.selectsBinary : ExportCall → Bool
  | .ExportStaticMesh path =>
    EndsWith path STATIC_MESH_BINARY_FILE_POSTFIX && !EndsWith path JSON_FILE_POSTFIX
  | .ExportSkeletalMesh path =>
    EndsWith path SKELETAL_MESH_BINARY_FILE_POSTFIX && !EndsWith path JSON_FILE_POSTFIX
  | .ExportMaterialInstance path =>
    EndsWith path MATERIAL_BINARY_FILE_POSTFIX && !EndsWith path JSON_FILE_POSTFIX
  | .ExportSkeleton path =>
    EndsWith path SKELETON_BINARY_FILE_POSTFIX && !EndsWith path JSON_FILE_POSTFIX
  | .ExportAnimSequence path =>
    EndsWith path ANIMSEQUENCE_BINARY_FILE_POSTFIX && !EndsWith path JSON_FILE_POSTFIX

/-- The value of a field of a JSON object; none when the value is no object or
has no such field. -/
def jsonField? (doc : FJsonValue) (name : String) : Option FJsonValue :=
  match doc with
  | .Object fields => (fields.find? (fun p => p.1 == name)).map Prod.snd
  | _ => none

/-- The entries of a JSON array; no entry when the value is absent or no array. -/
def FJsonValue.entries : Option FJsonValue → List FJsonValue
  | some (.Array items) => items
  | _ => []

/-- The per-level entries of the document of a static mesh. -/
def lodEntries (doc : FJsonValue) : List FJsonValue := FJsonValue.entries (jsonField? doc "LODs")

/-- All vertex records of the document of a static mesh, level after level. -/
def vertexRecords (doc : FJsonValue) : List FJsonValue :=
  (lodEntries doc).flatMap fun lod => FJsonValue.entries (jsonField? lod "Vertices")

/-- All index records of the document of a static mesh, level after level. -/
def indexRecords (doc : FJsonValue) : List FJsonValue :=
  (lodEntries doc).flatMap fun lod => FJsonValue.entries (jsonField? lod "Indices")

/-- The vertex records of one detail level: the position of each vertex. -/
def levelVertexRecords (lod : FStaticMeshLODResources) : List FJsonValue :=
  (List.range lod.VertexBuffers.PositionVertexBuffer.GetNumVertices).map fun i =>
    FJsonValue.Object
      [("x", .Number (.ofFloat (lod.VertexBuffers.PositionVertexBuffer.VertexPosition i).X)),
       ("y", .Number (.ofFloat (lod.VertexBuffers.PositionVertexBuffer.VertexPosition i).Y)),
       ("z", .Number (.ofFloat (lod.VertexBuffers.PositionVertexBuffer.VertexPosition i).Z))]

/-- The index records of one detail level. -/
def levelIndexRecords (lod : FStaticMeshLODResources) : List FJsonValue :=
  lod.IndexBuffer.map fun Index => FJsonValue.Object [("index", .Number (.ofInt Index))]

/-- The material-name strings of a mesh instance record: the canonical name of
each valid material instance among the slots, in slot order. -/
def materialNames (slots : List (Option UMaterialInterface)) : List String :=
  (validMaterialInstances slots).map fun i => canonicalName i.GetPathName

/-- Whether a material slot holds a valid material instance. -/
def holdsValidInstance (slot : Option UMaterialInterface) : Bool :=
  match castMaterialInstance slot with
  | some Instance => Instance.IsValidLowLevel
  | none => false

/-- The four weights serialized for a vertex: the quotient by 255 of each raw
weight of slots 0 to 3. -/
def serializedWeights (Info : FSkinWeightInfo) : List F32 :=
  (List.range 4).map fun k => BoneWeight (Info.InfluenceWeights k)

/-- The sum of the numbers a list of floats denotes; none when one of them is
no number. -/
def weightSum (ws : List F32) : Option ℚ :=
  ws.foldr (fun f acc =>
    match f.toRat?, acc with
    | some q, some s => some (q + s)
    | _, _ => none) (some 0)

/-! ## Sample inputs -/

/-- A host that accepts every path and hands out every writer; its narrowing
keeps the high half of the double's pattern. -/
def sampleHost : Host :=
  { IsFilenameValidForSaving := fun _ => true
    CreateFileWriter := fun _ => true
    JsonSerialize := fun _ => some "{}"
    toFloat := fun d => F32.ofBits (d.bits / 4294967296) }

/-- A host on which no writer can be created. -/
def readOnlyHost : Host :=
  { sampleHost with CreateFileWriter := fun _ => false }

def sampleVertexBuffers : FStaticMeshVertexBuffers :=
  { PositionVertexBuffer :=
      { GetNumVertices := 3
        VertexPosition := fun i => ⟨F32.ofBits (0x3F800000 + i), F32.ofBits 0, F32.ofBits 0⟩ }
    StaticMeshVertexBuffer :=
      { VertexTangentZ := fun _ => ⟨F32.ofBits 0, F32.ofBits 0, F32.ofBits 0x3F800000,
          F32.ofBits 0x3F800000⟩
        VertexTangentX := fun _ => ⟨F32.ofBits 0x3F800000, F32.ofBits 0, F32.ofBits 0,
          F32.ofBits 0x3F800000⟩
        GetVertexUV := fun i c => ⟨F32.ofBits i, F32.ofBits c⟩ } }

/-- A triangle: three vertices, three indices, one section. -/
def sampleLOD : FStaticMeshLODResources :=
  { VertexBuffers := sampleVertexBuffers
    IndexBuffer := [0, 1, 2]
    Sections := [⟨0, 0, 1, 0, 2⟩] }

/-- A coarser level: no index, no section. -/
def coarseLOD : FStaticMeshLODResources :=
  { VertexBuffers := sampleVertexBuffers
    IndexBuffer := []
    Sections := [] }

def sampleStaticMesh : UStaticMesh := ⟨"Triangle", some ⟨[sampleLOD, coarseLOD]⟩⟩

/-- The same first level as `sampleStaticMesh`, no further level, another name. -/
def sampleStaticMeshOneLOD : UStaticMesh := ⟨"TriangleOnly", some ⟨[sampleLOD]⟩⟩

def samplePose (n : Nat) : FTransform :=
  { GetRotation := ⟨⟨0⟩, ⟨0⟩, ⟨0⟩, ⟨0x3FF0000000000000⟩⟩
    GetTranslation := ⟨⟨n * 4294967296⟩, ⟨0⟩, ⟨0⟩⟩
    GetScale3D := ⟨⟨0x3FF0000000000000⟩, ⟨0x3FF0000000000000⟩, ⟨0x3FF0000000000000⟩⟩ }

/-- Two bones, two poses. -/
def sampleSkeleton : USkeleton :=
  { GetPathName := "/Game/Hero/Hero_Skeleton.Hero_Skeleton"
    GetReferenceSkeleton :=
      { GetRawRefBoneInfo := [⟨"root", -1⟩, ⟨"spine", 0⟩]
        GetRawRefBonePose := [samplePose 0, samplePose 1] } }

/-- Two bones, one pose. -/
def lopsidedSkeleton : USkeleton :=
  { GetPathName := "/Game/Hero/Odd_Skeleton.Odd_Skeleton"
    GetReferenceSkeleton :=
      { GetRawRefBoneInfo := [⟨"root", -1⟩, ⟨"spine", 0⟩]
        GetRawRefBonePose := [samplePose 0] } }

/-- Skin weights of a vertex bound to local bone `b` with full weight. -/
def sampleSkinWeight (b : Nat) : FSkinWeightInfo :=
  { InfluenceBones := fun k => if k = 0 then b else 0
    InfluenceWeights := fun k => if k = 0 then 255 else 0 }

/-- A section owning vertices 0 and 1. -/
def sampleSection0 : FSkelMeshRenderSection :=
  { MaterialIndex := 0, BaseIndex := 0, NumTriangles := 1, BaseVertexIndex := 0,
    NumVertices := 2, BoneMap := [5, 6] }

/-- A section owning vertex 2, with another bone map. -/
def sampleSection1 : FSkelMeshRenderSection :=
  { MaterialIndex := 1, BaseIndex := 3, NumTriangles := 0, BaseVertexIndex := 2,
    NumVertices := 1, BoneMap := [9, 10] }

/-- Three vertices in two sections with different bone maps: section 0 owns
vertices 0 and 1, section 1 owns vertex 2. -/
def twoSectionLOD : FSkeletalMeshLODRenderData :=
  { StaticVertexBuffers := sampleVertexBuffers
    SkinWeights := [sampleSkinWeight 0, sampleSkinWeight 1, sampleSkinWeight 1]
    Indices := [0, 1, 2]
    RenderSections := [sampleSection0, sampleSection1] }

def twoSectionMesh : USkeletalMesh :=
  { GetResourceForRendering := some ⟨[twoSectionLOD]⟩
    GetSkeleton := some sampleSkeleton }

def samplePaths : FPaths :=
  { ProjectSavedDir := "C:/Project/Saved/"
    ProjectIntermediateDir := "C:/Project/Intermediate/"
    ProjectPluginsDir := "C:/Project/Plugins/" }

/-- Five sampled frames and two tracks whose key arrays have different
lengths. -/
def sampleAnimSequence : UAnimSequence :=
  { GetResampledTrackData :=
      [{ InternalTrackData :=
           { PosKeys := [⟨F32.zero, F32.zero, F32.zero⟩, ⟨F32.one, F32.zero, F32.zero⟩]
             RotKeys := [⟨F32.zero, F32.zero, F32.zero, F32.one⟩]
             ScaleKeys := [] }
         BoneTreeIndex := 0 },
       { InternalTrackData :=
           { PosKeys := []
             RotKeys := [⟨F32.zero, F32.zero, F32.zero, F32.one⟩,
               ⟨F32.zero, F32.zero, F32.one, F32.zero⟩, ⟨F32.zero, F32.one, F32.zero, F32.zero⟩]
             ScaleKeys := [⟨F32.one, F32.one, F32.one⟩] }
         BoneTreeIndex := 1 }]
    GetNumberOfSampledKeys := 5
    GetPlayLength := F32.one }

def sampleTexture : UTexture :=
  { GetPathName := "/Game/Textures/T_Wood.T_Wood", SourceFiles := ["../Art/T_Wood.png"] }

/-- A material defining the scalar parameter Roughness and the vector parameter
EmissiveColor, besides a scalar parameter the exporter does not know, and one
texture parameter. -/
def roughEmissiveMaterial : UMaterialInstance :=
  { GetPathName := "/Game/Materials/MI_Wood.MI_Wood"
    IsValidLowLevel := true
    BlendMode := 0
    GetFirstShadingModel := 1
    TwoSided := true
    GetAllScalarParameterInfo := [⟨⟨"Tiling"⟩, 0, -1⟩, ⟨⟨"Roughness"⟩, 0, -1⟩]
    GetScalarParameterValue := fun info =>
      if info.Name = ⟨"Roughness"⟩ then some (F32.ofBits 0x3F000000) else some F32.one
    GetAllVectorParameterInfo := [⟨⟨"EmissiveColor"⟩, 0, -1⟩]
    GetVectorParameterValue := fun _ => some ⟨F32.one, F32.zero, F32.zero, F32.one⟩
    GetAllTextureParameterInfo := [⟨⟨"BaseColor"⟩, 0, -1⟩]
    GetTextureParameterValue := fun _ => some sampleTexture }

/-- A material with two texture parameters, the second of which refers to no
texture, and no scalar or vector parameter. -/
def halfTexturedMaterial : UMaterialInstance :=
  { GetPathName := "/Game/Materials/MI_Half.MI_Half"
    IsValidLowLevel := true
    BlendMode := 0
    GetFirstShadingModel := 1
    TwoSided := false
    GetAllScalarParameterInfo := []
    GetScalarParameterValue := fun _ => none
    GetAllVectorParameterInfo := []
    GetVectorParameterValue := fun _ => none
    GetAllTextureParameterInfo := [⟨⟨"BaseColor"⟩, 0, -1⟩, ⟨⟨"Normal"⟩, 0, -1⟩]
    GetTextureParameterValue := fun info =>
      if info.Name = ⟨"BaseColor"⟩ then some sampleTexture else none }

/-- A host that accepts every path, hands out every writer and narrows doubles
as IEEE-754 prescribes. -/
def ieeeHost : Host :=
  { sampleHost with toFloat := F64.toF32 }

/-- The identity transform moved to the point (0, 0, 100). -/
def sampleCameraTransform : FTransform :=
  { GetRotation := ⟨⟨0⟩, ⟨0⟩, ⟨0⟩, ⟨0x3FF0000000000000⟩⟩
    GetTranslation := ⟨⟨0⟩, ⟨0⟩, ⟨0x4059000000000000⟩⟩
    GetScale3D := ⟨⟨0x3FF0000000000000⟩, ⟨0x3FF0000000000000⟩, ⟨0x3FF0000000000000⟩⟩ }

/-- A camera at (0, 0, 100) with identity rotation, field of view 90 and aspect
ratio 1.777. -/
def sampleCamera : UCameraComponent :=
  { GetComponentToWorld := sampleCameraTransform
    FieldOfView := F32.ofBits 0x42B40000
    AspectRatio := F32.divNat 1777 1000 }

/-- The scene of one camera and no other entity. -/
def oneCameraScene : Scene :=
  { Cameras := [sampleCamera]
    DirectionalLights := []
    PointLights := []
    StaticMeshes := []
    SkeletalMeshes := [] }

/-- A static-mesh instance with three material slots: a valid material
instance, a null slot, and a material that is not an instance. -/
def sampleStaticMeshComponent : UStaticMeshComponent :=
  { GetComponentToWorld := sampleCameraTransform
    GetStaticMesh := some ⟨"/Game/Meshes/Triangle.Triangle", sampleStaticMesh⟩
    GetMaterials :=
      [some (.MaterialInstance roughEmissiveMaterial), none,
       some (.Material "/Game/Materials/M_Base.M_Base")] }

def sampleAnimationAsset : UAnimationAsset :=
  { GetPathName := "/Game/Hero/Walk.Walk", AsAnimSequence := some sampleAnimSequence }

/-- A skinned-mesh instance with one valid material instance. -/
def sampleSkeletalMeshComponent : USkeletalMeshComponent :=
  { GetComponentToWorld := sampleCameraTransform
    GetSkeletalMeshAsset := some ⟨"/Game/Hero/Hero.Hero", twoSectionMesh⟩
    AnimToPlay := some sampleAnimationAsset
    GetMaterials := [some (.MaterialInstance roughEmissiveMaterial)] }

/-- A scene with one camera, two instances of the same static mesh and one
skinned-mesh instance. -/
def sampleScene : Scene :=
  { Cameras := [sampleCamera]
    DirectionalLights := []
    PointLights := []
    StaticMeshes := [sampleStaticMeshComponent, sampleStaticMeshComponent]
    SkeletalMeshes := [sampleSkeletalMeshComponent] }

/-- A coarser skinned level: one vertex, one section. -/
def coarseSkinnedLOD : FSkeletalMeshLODRenderData :=
  { StaticVertexBuffers :=
      { sampleVertexBuffers with
        PositionVertexBuffer := { sampleVertexBuffers.PositionVertexBuffer with
          GetNumVertices := 1 } }
    SkinWeights := [sampleSkinWeight 0]
    Indices := []
    RenderSections := [sampleSection0] }

/-- The first level of `twoSectionMesh`, a further level, and another skeleton
object of the same path name. -/
def twoLevelSkinnedMesh : USkeletalMesh :=
  { GetResourceForRendering := some ⟨[twoSectionLOD, coarseSkinnedLOD]⟩
    GetSkeleton := some { lopsidedSkeleton with GetPathName := sampleSkeleton.GetPathName } }

mutual
/-- A serializer for sample hosts: the document in a compact text form, a float
shown by its bit pattern. -/
def renderJson : FJsonValue → String
  | .Number (.ofInt v) => toString v
  | .Number (.ofFloat f) => "0x" ++ String.mk (Nat.toDigits 16 f.bits.val)
  | .String s => "\"" ++ s ++ "\""
  | .Array items => "[" ++ renderItems items ++ "]"
  | .Object fields => "\x7b" ++ renderFields fields ++ "\x7d"
/-- The entries of an array, each followed by a comma. -/
def renderItems : List FJsonValue → String
  | [] => ""
  | v :: rest => renderJson v ++ "," ++ renderItems rest
/-- The fields of an object, each followed by a comma. -/
def renderFields : List (String × FJsonValue) → String
  | [] => ""
  | (k, v) :: rest => "\"" ++ k ++ "\":" ++ renderJson v ++ "," ++ renderFields rest
end

/-- A host that accepts every path, hands out every writer and serializes
documents with `renderJson`. -/
def jsonHost : Host :=
  { sampleHost with JsonSerialize := fun doc => some (renderJson doc) }

/-- The name and first level of `sampleStaticMesh`, no further level. -/
def sampleStaticMeshFirstLevel : UStaticMesh := ⟨"Triangle", some ⟨[sampleLOD]⟩⟩

/-- The level of `twoSectionMesh` without any render section. -/
def noSectionLOD : FSkeletalMeshLODRenderData := { twoSectionLOD with RenderSections := [] }

def noSectionMesh : USkeletalMesh :=
  { GetResourceForRendering := some ⟨[noSectionLOD]⟩
    GetSkeleton := some sampleSkeleton }

/-- The level of `twoSectionMesh` with vertex 1 bound to local bone 2, which
the two-entry bone map of section 0 does not hold. -/
def strayBoneLOD : FSkeletalMeshLODRenderData :=
  { twoSectionLOD with
    SkinWeights := [sampleSkinWeight 0, sampleSkinWeight 2, sampleSkinWeight 1] }

def strayBoneMesh : USkeletalMesh :=
  { GetResourceForRendering := some ⟨[strayBoneLOD]⟩
    GetSkeleton := some sampleSkeleton }

/-- The level of `twoSectionMesh` with the raw weights 255, 255, 0, 0 on vertex
0 and 0, 0, 0, 0 on vertex 1. -/
def unnormalizedLOD : FSkeletalMeshLODRenderData :=
  { twoSectionLOD with
    SkinWeights :=
      [⟨fun _ => 0, fun k => if k < 2 then 255 else 0⟩, ⟨fun _ => 0, fun _ => 0⟩,
       sampleSkinWeight 0] }

def unnormalizedMesh : USkeletalMesh :=
  { GetResourceForRendering := some ⟨[unnormalizedLOD]⟩
    GetSkeleton := some sampleSkeleton }

/-! ## Archive lemmas -/

theorem length_leBytes (k n : Nat) : (leBytes k n).length = k := by
  induction k generalizing n with
  | zero => rfl
  | succ k ih => simp [leBytes, ih]

theorem length_encInt32 (v : Int) : (encInt32 v).length = 4 := length_leBytes _ _

theorem length_encUInt32 (v : Nat) : (encUInt32 v).length = 4 := length_leBytes _ _

theorem length_encUInt16 (v : Nat) : (encUInt16 v).length = 2 := length_leBytes _ _

theorem length_encFloat (f : F32) : (encFloat f).length = 4 := length_leBytes _ _

/-- A loop whose body appends to the archive writes the images one after the
other. -/
theorem foldl_append_flatMap {α : Type} (step : FArchive → α → FArchive) (f : α → List Nat)
    (h : ∀ Ar x, step Ar x = Ar ++ f x) (xs : List α) (Ar : FArchive) :
    xs.foldl step Ar = Ar ++ xs.flatMap f := by
  induction xs generalizing Ar with
  | nil => simp
  | cons x xs ih => simp [ih, h, List.append_assoc]

/-- Records of a fixed size add up. -/
theorem length_flatMap_const {α : Type} (f : α → List Nat) (c : Nat) (xs : List α)
    (h : ∀ x, (f x).length = c) : (xs.flatMap f).length = xs.length * c := by
  induction xs with
  | nil => simp
  | cons x xs ih => simp [ih, h, Nat.add_mul, Nat.add_comm]

theorem writeStaticVertex_eq (CurLOD : FStaticMeshLODResources) (Ar : FArchive) (i : Nat) :
    writeStaticVertex CurLOD Ar i =
      Ar ++ (vertexFloats CurLOD.VertexBuffers i).flatMap encFloat := by
  simp [writeStaticVertex, vertexFloats, FArchive.vector3f, FArchive.vector4f,
    FArchive.vector2f, FArchive.float, List.append_assoc]

theorem writeStaticSection_eq (Ar : FArchive) (s : FStaticMeshSection) :
    writeStaticSection Ar s = Ar ++ sectionRecord s := by
  simp [writeStaticSection, sectionRecord, FArchive.int32, FArchive.uint32, List.append_assoc]

theorem writeStaticMeshLODs_cons (CurLOD : FStaticMeshLODResources)
    (rest : List FStaticMeshLODResources) :
    writeStaticMeshLODs (CurLOD :: rest) [] = staticMeshLayout CurLOD := by
  simp only [writeStaticMeshLODs, staticMeshLayout, FArchive.int32]
  rw [foldl_append_flatMap _ _ (writeStaticVertex_eq CurLOD),
    foldl_append_flatMap (fun Ar Index => FArchive.uint32 Ar Index) encUInt32 (fun _ _ => rfl),
    foldl_append_flatMap _ _ writeStaticSection_eq]
  simp [List.append_assoc]

theorem length_vertexFloats (vb : FStaticMeshVertexBuffers) (i : Nat) :
    ((vertexFloats vb i).flatMap encFloat).length = 48 := by
  simp [vertexFloats, length_encFloat]

theorem length_sectionRecord (s : FStaticMeshSection) : (sectionRecord s).length = 20 := by
  simp [sectionRecord, length_encInt32, length_encUInt32]

theorem length_staticMeshLayout (lod : FStaticMeshLODResources) :
    (staticMeshLayout lod).length =
      4 + lod.VertexBuffers.PositionVertexBuffer.GetNumVertices * 48 + 4 +
        lod.IndexBuffer.length * 4 + 4 + lod.Sections.length * 20 := by
  simp only [staticMeshLayout, List.length_append, length_encInt32,
    length_flatMap_const _ 48 _ (length_vertexFloats lod.VertexBuffers),
    length_flatMap_const _ 4 _ length_encUInt32,
    length_flatMap_const _ 20 _ length_sectionRecord, List.length_range]

/-- A path cannot end with two postfixes neither of which ends with the other. -/
theorem EndsWith_exclusive (path a b : String) (ha : EndsWith path a = true)
    (hab : (a.data.map Char.toLower).isSuffixOf (b.data.map Char.toLower) = false)
    (hba : (b.data.map Char.toLower).isSuffixOf (a.data.map Char.toLower) = false) :
    EndsWith path b = false := by
  cases hb : EndsWith path b
  · rfl
  · exfalso
    simp only [EndsWith, List.isSuffixOf_iff_suffix] at ha hb
    rcases Nat.le_total (a.data.map Char.toLower).length (b.data.map Char.toLower).length
      with hle | hle
    · have := List.suffix_of_suffix_length_le ha hb hle
      rw [← List.isSuffixOf_iff_suffix] at this
      simp [this] at hab
    · have := List.suffix_of_suffix_length_le hb ha hle
      rw [← List.isSuffixOf_iff_suffix] at this
      simp [this] at hba

theorem not_json_of_stm (path : String)
    (h : EndsWith path STATIC_MESH_BINARY_FILE_POSTFIX = true) :
    EndsWith path JSON_FILE_POSTFIX = false :=
  EndsWith_exclusive path _ _ h (by decide) (by decide)

theorem not_json_of_skt (path : String)
    (h : EndsWith path SKELETON_BINARY_FILE_POSTFIX = true) :
    EndsWith path JSON_FILE_POSTFIX = false :=
  EndsWith_exclusive path _ _ h (by decide) (by decide)

theorem not_json_of_skm (path : String)
    (h : EndsWith path SKELETAL_MESH_BINARY_FILE_POSTFIX = true) :
    EndsWith path JSON_FILE_POSTFIX = false :=
  EndsWith_exclusive path _ _ h (by decide) (by decide)

/-- The binary branch of `ExportStaticMesh`, run to its end. -/
theorem ExportStaticMesh_binary (host : Host) (Mesh : UStaticMesh)
    (RenderData : FStaticMeshRenderData) (path : String)
    (hvalid : host.IsFilenameValidForSaving path = true)
    (hext : EndsWith path STATIC_MESH_BINARY_FILE_POSTFIX = true)
    (hwriter : host.CreateFileWriter path = true)
    (hdata : Mesh.GetRenderData = some RenderData) :
    ExportStaticMesh host (some Mesh) path =
      ⟨.returned false,
        [.CreateFileWriter path true,
         .Serialize path (writeStaticMeshLODs RenderData.LODResources []),
         .Close path]⟩ := by
  simp [ExportStaticMesh, hvalid, hext, hwriter, hdata, not_json_of_stm path hext]

theorem writeStaticMeshLODs_head (lods : List FStaticMeshLODResources) :
    writeStaticMeshLODs lods [] =
      match lods.head? with
      | none => []
      | some lod => staticMeshLayout lod := by
  cases lods with
  | nil => rfl
  | cons lod rest => simp [writeStaticMeshLODs_cons]

/-! ## Static geometry codec (C1, C2, C3, C5) -/

/-- C1: for a static mesh with a first detail level, a valid path ending in ".stm"
and a writer that is created, `ExportStaticMesh` creates the writer, writes the
int32 vertex count, one record of twelve floats per vertex (position, normal,
tangent, uv) in vertex order, the int32 index count, the indices as uint32, the
int32 section count and one five-field record per section, and closes the
writer; nothing else is written. -/
theorem C1_ExportStaticMesh_layout (host : Host) (Mesh : UStaticMesh)
    (RenderData : FStaticMeshRenderData) (CurLOD : FStaticMeshLODResources)
    (rest : List FStaticMeshLODResources) (path : String)
    (hvalid : host.IsFilenameValidForSaving path = true)
    (hext : EndsWith path STATIC_MESH_BINARY_FILE_POSTFIX = true)
    (hwriter : host.CreateFileWriter path = true)
    (hdata : Mesh.GetRenderData = some RenderData)
    (hlod : RenderData.LODResources = CurLOD :: rest) :
    (ExportStaticMesh host (some Mesh) path).events =
      [.CreateFileWriter path true,
       .Serialize path
         (encInt32 CurLOD.VertexBuffers.PositionVertexBuffer.GetNumVertices ++
          (List.range CurLOD.VertexBuffers.PositionVertexBuffer.GetNumVertices).flatMap
            (fun i => (vertexFloats CurLOD.VertexBuffers i).flatMap encFloat) ++
          encInt32 CurLOD.IndexBuffer.length ++
          CurLOD.IndexBuffer.flatMap encUInt32 ++
          encInt32 CurLOD.Sections.length ++
          CurLOD.Sections.flatMap (fun s =>
            encInt32 s.MaterialIndex ++ encUInt32 s.FirstIndex ++ encUInt32 s.NumTriangles ++
              encUInt32 s.MinVertexIndex ++ encUInt32 s.MaxVertexIndex)),
       .Close path] := by
  rw [ExportStaticMesh_binary host Mesh RenderData path hvalid hext hwriter hdata, hlod,
    writeStaticMeshLODs_cons]
  rfl

theorem C1_ExportStaticMesh_layout_witness :
    sampleHost.IsFilenameValidForSaving "Saved/REngine/StaticMesh/Triangle.stm" = true ∧
    EndsWith "Saved/REngine/StaticMesh/Triangle.stm" STATIC_MESH_BINARY_FILE_POSTFIX = true ∧
    (ExportStaticMesh sampleHost (some sampleStaticMesh)
        "Saved/REngine/StaticMesh/Triangle.stm").events =
      [.CreateFileWriter "Saved/REngine/StaticMesh/Triangle.stm" true,
       .Serialize "Saved/REngine/StaticMesh/Triangle.stm"
         (encInt32 3 ++
          (List.range 3).flatMap
            (fun i => (vertexFloats sampleVertexBuffers i).flatMap encFloat) ++
          encInt32 3 ++ [0, 1, 2].flatMap encUInt32 ++ encInt32 1 ++
          (encInt32 0 ++ encUInt32 0 ++ encUInt32 1 ++ encUInt32 0 ++ encUInt32 2)),
       .Close "Saved/REngine/StaticMesh/Triangle.stm"] :=
  ⟨rfl, by decide, by
    simpa [sampleLOD] using
      C1_ExportStaticMesh_layout sampleHost sampleStaticMesh ⟨[sampleLOD, coarseLOD]⟩ sampleLOD
        [coarseLOD] "Saved/REngine/StaticMesh/Triangle.stm" rfl (by decide) rfl rfl rfl⟩

/-- C2: with V vertices, I indices and S sections in the first detail level, the
file `ExportStaticMesh` writes is 4 + V*(12+16+12+8) + 4 + I*4 + 4 + S*20 bytes
long. -/
theorem C2_ExportStaticMesh_size (host : Host) (Mesh : UStaticMesh)
    (RenderData : FStaticMeshRenderData) (CurLOD : FStaticMeshLODResources)
    (rest : List FStaticMeshLODResources) (path : String) (V I S : Nat)
    (hvalid : host.IsFilenameValidForSaving path = true)
    (hext : EndsWith path STATIC_MESH_BINARY_FILE_POSTFIX = true)
    (hwriter : host.CreateFileWriter path = true)
    (hdata : Mesh.GetRenderData = some RenderData)
    (hlod : RenderData.LODResources = CurLOD :: rest)
    (hV : CurLOD.VertexBuffers.PositionVertexBuffer.GetNumVertices = V)
    (hI : CurLOD.IndexBuffer.length = I)
    (hS : CurLOD.Sections.length = S) :
    (ExportStaticMesh host (some Mesh) path).bytesWritten.length =
      4 + V * (12 + 16 + 12 + 8) + 4 + I * 4 + 4 + S * 20 := by
  rw [ExportStaticMesh_binary host Mesh RenderData path hvalid hext hwriter hdata, hlod,
    writeStaticMeshLODs_cons]
  simp [Run.bytesWritten, length_staticMeshLayout, hV, hI, hS]

theorem C2_ExportStaticMesh_size_witness :
    sampleHost.IsFilenameValidForSaving "Triangle.stm" = true ∧
    EndsWith "Triangle.stm" STATIC_MESH_BINARY_FILE_POSTFIX = true ∧
    (ExportStaticMesh sampleHost (some sampleStaticMesh) "Triangle.stm").bytesWritten.length =
      4 + 3 * (12 + 16 + 12 + 8) + 4 + 3 * 4 + 4 + 1 * 20 :=
  ⟨rfl, by decide,
    C2_ExportStaticMesh_size sampleHost sampleStaticMesh ⟨[sampleLOD, coarseLOD]⟩ sampleLOD
      [coarseLOD] "Triangle.stm" 3 3 1 rfl (by decide) rfl rfl rfl rfl rfl rfl⟩

/-- C3: two static meshes whose first detail levels are equal give the same run
of `ExportStaticMesh` on the same path ending in ".stm" (same events, same
bytes, same result), whatever their names and further levels. -/
theorem C3_ExportStaticMesh_first_level_only (host : Host) (Mesh1 Mesh2 : UStaticMesh)
    (RenderData1 RenderData2 : FStaticMeshRenderData) (path : String)
    (hext : EndsWith path STATIC_MESH_BINARY_FILE_POSTFIX = true)
    (hdata1 : Mesh1.GetRenderData = some RenderData1)
    (hdata2 : Mesh2.GetRenderData = some RenderData2)
    (hfirst : RenderData1.LODResources.head? = RenderData2.LODResources.head?) :
    ExportStaticMesh host (some Mesh1) path = ExportStaticMesh host (some Mesh2) path := by
  have h : writeStaticMeshLODs RenderData1.LODResources [] =
      writeStaticMeshLODs RenderData2.LODResources [] := by
    rw [writeStaticMeshLODs_head, writeStaticMeshLODs_head, hfirst]
  simp [ExportStaticMesh, hext, hdata1, hdata2, not_json_of_stm path hext, h]

theorem C3_ExportStaticMesh_first_level_only_witness :
    EndsWith "Triangle.stm" STATIC_MESH_BINARY_FILE_POSTFIX = true ∧
    ExportStaticMesh sampleHost (some sampleStaticMesh) "Triangle.stm" =
      ExportStaticMesh sampleHost (some sampleStaticMeshOneLOD) "Triangle.stm" :=
  ⟨by decide,
    C3_ExportStaticMesh_first_level_only sampleHost sampleStaticMesh sampleStaticMeshOneLOD
      ⟨[sampleLOD, coarseLOD]⟩ ⟨[sampleLOD]⟩ "Triangle.stm" (by decide) rfl rfl rfl⟩

/-- C5: when the path fails the validity check, or the mesh handle is null, or
no writer can be created for the path, `ExportStaticMesh` returns false, no
content reaches any file and no writer is left open (none was handed out); in
the first two cases creating a writer is not even attempted. -/
theorem C5_ExportStaticMesh_failure (host : Host) (StaticMesh : Option UStaticMesh)
    (path : String)
    (h : host.IsFilenameValidForSaving path = false ∨ StaticMesh = none ∨
      host.CreateFileWriter path = false) :
    (ExportStaticMesh host StaticMesh path).outcome = .returned false ∧
    (ExportStaticMesh host StaticMesh path).bytesWritten = [] ∧
    (ExportStaticMesh host StaticMesh path).wroteNothing = true ∧
    (ExportStaticMesh host StaticMesh path).writersCreated = [] ∧
    ((host.IsFilenameValidForSaving path = false ∨ StaticMesh = none) →
      (ExportStaticMesh host StaticMesh path).events = []) := by
  unfold ExportStaticMesh
  cases hv : host.IsFilenameValidForSaving path
  · simp [Run.bytesWritten, Run.wroteNothing, Run.writersCreated]
  · cases StaticMesh with
    | none => simp [Run.bytesWritten, Run.wroteNothing, Run.writersCreated]
    | some Mesh =>
      have hw : host.CreateFileWriter path = false := by simpa [hv] using h
      simp only [hw, SaveStringToFile, Bool.not_true, Bool.not_false, Bool.false_eq_true,
        if_false, if_true]
      split_ifs <;> (try split) <;> (try split) <;>
        simp_all [Run.bytesWritten, Run.wroteNothing, Run.writersCreated]

theorem C5_ExportStaticMesh_failure_witness :
    (readOnlyHost.IsFilenameValidForSaving "Triangle.stm" = false ∨
      some sampleStaticMesh = none ∨ readOnlyHost.CreateFileWriter "Triangle.stm" = false) ∧
    (ExportStaticMesh readOnlyHost (some sampleStaticMesh) "Triangle.stm").outcome =
      .returned false ∧
    (ExportStaticMesh readOnlyHost (some sampleStaticMesh) "Triangle.stm").bytesWritten = [] :=
  ⟨Or.inr (Or.inr rfl),
    (C5_ExportStaticMesh_failure readOnlyHost (some sampleStaticMesh) "Triangle.stm"
      (Or.inr (Or.inr rfl))).1,
    (C5_ExportStaticMesh_failure readOnlyHost (some sampleStaticMesh) "Triangle.stm"
      (Or.inr (Or.inr rfl))).2.1⟩

/-! ## Skeleton codec (C6, C7) -/

theorem writeBoneInfo_eq (Ar : FArchive) (b : FMeshBoneInfo) :
    writeBoneInfo Ar b = Ar ++ (encFString b.Name ++ encInt32 b.ParentIndex) := by
  simp [writeBoneInfo, FArchive.fstring, FArchive.int32, List.append_assoc]

theorem writeBonePose_eq (host : Host) (Ar : FArchive) (t : FTransform) :
    writeBonePose host Ar t = Ar ++ (poseFloats (poseRecord host t)).flatMap encFloat := by
  simp [writeBonePose, poseFloats, poseRecord, FArchive.quat4f, FArchive.vector3f,
    FArchive.float, List.append_assoc]

theorem writeSkeleton_eq (host : Host) (Skel : USkeleton) :
    writeSkeleton host Skel [] =
      skeletonLayout host Skel.GetReferenceSkeleton.GetRawRefBoneInfo
        Skel.GetReferenceSkeleton.GetRawRefBonePose := by
  simp only [writeSkeleton, skeletonLayout, FArchive.int32]
  rw [foldl_append_flatMap _ _ writeBoneInfo_eq,
    foldl_append_flatMap _ _ (writeBonePose_eq host)]
  simp [List.append_assoc]

/-- The binary branch of `ExportSkeleton`, run to its end. -/
theorem ExportSkeleton_binary (host : Host) (Skel : USkeleton) (path : String)
    (hvalid : host.IsFilenameValidForSaving path = true)
    (hext : EndsWith path SKELETON_BINARY_FILE_POSTFIX = true)
    (hwriter : host.CreateFileWriter path = true) :
    ExportSkeleton host (some Skel) path =
      ⟨.returned false,
        [.CreateFileWriter path true,
         .Serialize path (skeletonLayout host Skel.GetReferenceSkeleton.GetRawRefBoneInfo
            Skel.GetReferenceSkeleton.GetRawRefBonePose),
         .Close path]⟩ := by
  simp [ExportSkeleton, hvalid, hext, hwriter, not_json_of_skt path hext, writeSkeleton_eq]

theorem decUInt32_leBytes (n : Nat) (rest : List Nat) :
    decUInt32 (leBytes 4 n ++ rest) = some (n % 4294967296, rest) := by
  simp only [leBytes, decUInt32, List.cons_append, List.nil_append, Option.some.injEq,
    Prod.mk.injEq, and_true]
  omega

theorem decInt32_encInt32 (v : Int) (rest : List Nat) (h : isInt32 v = true) :
    decInt32 (encInt32 v ++ rest) = some (v, rest) := by
  simp only [isInt32, Bool.and_eq_true, decide_eq_true_eq] at h
  simp only [decInt32, encInt32, decUInt32_leBytes, Option.some.injEq, Prod.mk.injEq, and_true]
  split_ifs <;> omega

theorem decFloat_encFloat (f : F32) (rest : List Nat) :
    decFloat (encFloat f ++ rest) = some (f, rest) := by
  obtain ⟨⟨b, hb⟩⟩ := f
  simp [decFloat, encFloat, decUInt32_leBytes, F32.ofBits, Nat.mod_eq_of_lt hb]

theorem decMany_flatMap {α β : Type} (dec : List Nat → Option (α × List Nat))
    (enc : β → List Nat) (f : β → α) (xs : List β) (rest : List Nat)
    (h : ∀ x ∈ xs, ∀ rest, dec (enc x ++ rest) = some (f x, rest)) :
    decMany dec xs.length (xs.flatMap enc ++ rest) = some (xs.map f, rest) := by
  induction xs with
  | nil => simp [decMany]
  | cons x xs ih =>
    have hx := h x (List.mem_cons_self _ _)
    have hxs := ih (fun y hy => h y (List.mem_cons_of_mem _ hy))
    simp [decMany, List.append_assoc, hx, hxs]

theorem decChar_enc (c : Char) (rest : List Nat) (h : c.toNat < 65536) :
    decChar (leBytes 2 (c.toNat % 65536) ++ rest) = some (c, rest) := by
  have e : c.toNat % 65536 % 256 + 256 * (c.toNat % 65536 / 256 % 256) = c.toNat := by omega
  simp [leBytes, decChar, e]

theorem decFString_encFString (s : String) (rest : List Nat) (h : isTCharString s = true) :
    decFString (encFString s ++ rest) = some (s, rest) := by
  simp only [isTCharString, Bool.and_eq_true, decide_eq_true_eq, List.all_eq_true] at h
  have hlen : isInt32 (s.data.length : Int) = true := by
    simp only [isInt32, Bool.and_eq_true, decide_eq_true_eq]
    omega
  have hchars : decMany decChar s.length
      (s.data.flatMap (fun c => leBytes 2 (c.toNat % 65536)) ++ rest) =
        some (s.data.map id, rest) :=
    @decMany_flatMap Char Char decChar (fun c => leBytes 2 (c.toNat % 65536)) id s.data rest
      (fun c hc rest => decChar_enc c rest (h.2 c hc))
  simp only [decFString, encFString, List.append_assoc]
  rw [decInt32_encInt32 _ _ hlen]
  simp [hchars]

theorem decBone_enc (b : FMeshBoneInfo) (rest : List Nat) (h : b.wellTyped = true) :
    decBone (encFString b.Name ++ encInt32 b.ParentIndex ++ rest) = some (b, rest) := by
  simp only [FMeshBoneInfo.wellTyped, Bool.and_eq_true] at h
  simp [decBone, List.append_assoc, decFString_encFString _ _ h.1, decInt32_encInt32 _ _ h.2]

theorem decPose_enc (p : PoseRecord) (rest : List Nat) :
    decPose ((poseFloats p).flatMap encFloat ++ rest) = some (p, rest) := by
  have h := decMany_flatMap decFloat encFloat id (poseFloats p) rest
    (fun f _ rest => decFloat_encFloat f rest)
  simp only [poseFloats, List.length_cons, List.length_nil, List.map_id] at h
  simp only [decPose, poseFloats]
  rw [h]

theorem decodeSkeleton_skeletonLayout (host : Host) (bones : List FMeshBoneInfo)
    (poses : List FTransform) (hb : bones.length < 2147483648)
    (hp : poses.length < 2147483648) (htyped : ∀ b ∈ bones, b.wellTyped = true) :
    decodeSkeleton (skeletonLayout host bones poses) =
      some (bones, poses.map (poseRecord host)) := by
  have hnb : isInt32 (bones.length : Int) = true := by
    simp only [isInt32, Bool.and_eq_true, decide_eq_true_eq]
    omega
  have hnp : isInt32 (poses.length : Int) = true := by
    simp only [isInt32, Bool.and_eq_true, decide_eq_true_eq]
    omega
  have hbones : ∀ rest, decMany decBone bones.length
      (bones.flatMap (fun b => encFString b.Name ++ encInt32 b.ParentIndex) ++ rest) =
        some (bones.map id, rest) := fun rest =>
    @decMany_flatMap FMeshBoneInfo FMeshBoneInfo decBone
      (fun b => encFString b.Name ++ encInt32 b.ParentIndex) id bones rest
      (fun b hmem rest => by
        have := decBone_enc b rest (htyped b hmem)
        simpa [List.append_assoc] using this)
  have hposes : decMany decPose poses.length
      (poses.flatMap (fun t => (poseFloats (poseRecord host t)).flatMap encFloat) ++ []) =
        some (poses.map (poseRecord host), []) :=
    @decMany_flatMap PoseRecord FTransform decPose
      (fun t => (poseFloats (poseRecord host t)).flatMap encFloat) (poseRecord host) poses []
      (fun t _ rest => decPose_enc (poseRecord host t) rest)
  simp only [List.append_nil] at hposes
  simp only [decodeSkeleton, skeletonLayout, List.append_assoc]
  rw [decInt32_encInt32 _ _ hnb]
  simp only [Int.toNat_ofNat, hbones]
  rw [decInt32_encInt32 _ _ hnp]
  simp [hposes]

/-- C6: for a skeleton with N bones and N poses whose names and parent indices
are values of their field types, decoding the bytes `ExportSkeleton` writes
yields exactly N bone records, equal to the source bone infos (same names, same
parent indices, same order), and exactly N pose records, the source poses in
single precision, in order. -/
theorem C6_skeleton_round_trip (host : Host) (Skel : USkeleton) (path : String) (N : Nat)
    (hvalid : host.IsFilenameValidForSaving path = true)
    (hext : EndsWith path SKELETON_BINARY_FILE_POSTFIX = true)
    (hwriter : host.CreateFileWriter path = true)
    (hbones : Skel.GetReferenceSkeleton.GetRawRefBoneInfo.length = N)
    (hposes : Skel.GetReferenceSkeleton.GetRawRefBonePose.length = N)
    (hN : N < 2147483648)
    (htyped : ∀ b ∈ Skel.GetReferenceSkeleton.GetRawRefBoneInfo, b.wellTyped = true) :
    ∃ bones poses,
      decodeSkeleton (ExportSkeleton host (some Skel) path).bytesWritten = some (bones, poses) ∧
      bones.length = N ∧ poses.length = N ∧
      bones = Skel.GetReferenceSkeleton.GetRawRefBoneInfo ∧
      poses = Skel.GetReferenceSkeleton.GetRawRefBonePose.map (poseRecord host) := by
  refine ⟨_, _, ?_, hbones, by simpa using hposes, rfl, rfl⟩
  rw [ExportSkeleton_binary host Skel path hvalid hext hwriter]
  simp only [Run.bytesWritten, List.flatMap_cons, List.flatMap_nil, List.nil_append,
    List.append_nil]
  exact decodeSkeleton_skeletonLayout host _ _ (hbones ▸ hN) (hposes ▸ hN) htyped

theorem C6_skeleton_round_trip_witness :
    EndsWith "Hero_Skeleton.skt" SKELETON_BINARY_FILE_POSTFIX = true ∧
    (∀ b ∈ sampleSkeleton.GetReferenceSkeleton.GetRawRefBoneInfo, b.wellTyped = true) ∧
    ∃ bones poses,
      decodeSkeleton (ExportSkeleton sampleHost (some sampleSkeleton)
        "Hero_Skeleton.skt").bytesWritten = some (bones, poses) ∧
      bones.length = 2 ∧ poses.length = 2 ∧
      bones = [⟨"root", -1⟩, ⟨"spine", 0⟩] ∧
      poses = [samplePose 0, samplePose 1].map (poseRecord sampleHost) :=
  ⟨by decide, by decide,
    C6_skeleton_round_trip sampleHost sampleSkeleton "Hero_Skeleton.skt" 2 rfl (by decide) rfl
      rfl rfl (by decide) (by decide)⟩

/-- C7: for a skeleton with B bone infos and P poses, B and P arbitrary,
`ExportSkeleton` writes int32 B, B records of name string and int32 parent
index, int32 P and P records of ten floats (rotation quaternion, translation,
scale), closes the writer and does not fault, whether or not B equals P. -/
theorem C7_ExportSkeleton_layout (host : Host) (Skel : USkeleton) (path : String)
    (bones : List FMeshBoneInfo) (poses : List FTransform)
    (hvalid : host.IsFilenameValidForSaving path = true)
    (hext : EndsWith path SKELETON_BINARY_FILE_POSTFIX = true)
    (hwriter : host.CreateFileWriter path = true)
    (hbones : Skel.GetReferenceSkeleton.GetRawRefBoneInfo = bones)
    (hposes : Skel.GetReferenceSkeleton.GetRawRefBonePose = poses) :
    (ExportSkeleton host (some Skel) path).events =
      [.CreateFileWriter path true,
       .Serialize path
         (encInt32 bones.length ++
          bones.flatMap (fun b => encFString b.Name ++ encInt32 b.ParentIndex) ++
          encInt32 poses.length ++
          poses.flatMap (fun t =>
            ([(host.toQuat4f t.GetRotation).X, (host.toQuat4f t.GetRotation).Y,
              (host.toQuat4f t.GetRotation).Z, (host.toQuat4f t.GetRotation).W,
              (host.toVector3f t.GetTranslation).X, (host.toVector3f t.GetTranslation).Y,
              (host.toVector3f t.GetTranslation).Z,
              (host.toVector3f t.GetScale3D).X, (host.toVector3f t.GetScale3D).Y,
              (host.toVector3f t.GetScale3D).Z] : List F32).flatMap encFloat)),
       .Close path] ∧
    (ExportSkeleton host (some Skel) path).outcome ≠ .fault := by
  rw [ExportSkeleton_binary host Skel path hvalid hext hwriter, hbones, hposes]
  exact ⟨rfl, by simp⟩

theorem C7_ExportSkeleton_layout_witness :
    EndsWith "Odd_Skeleton.skt" SKELETON_BINARY_FILE_POSTFIX = true ∧
    (ExportSkeleton sampleHost (some lopsidedSkeleton) "Odd_Skeleton.skt").bytesWritten.take 4
      = encInt32 2 ∧
    (ExportSkeleton sampleHost (some lopsidedSkeleton) "Odd_Skeleton.skt").outcome ≠ .fault :=
  ⟨by decide, by
    rw [Run.bytesWritten, (C7_ExportSkeleton_layout sampleHost lopsidedSkeleton
      "Odd_Skeleton.skt" _ _ rfl (by decide) rfl rfl rfl).1]
    rfl,
    (C7_ExportSkeleton_layout sampleHost lopsidedSkeleton "Odd_Skeleton.skt" _ _ rfl
      (by decide) rfl rfl rfl).2⟩

/-! ## Result flags of the binary branches (C4) -/

/-- C4: on a valid path with the binary postfix, a non-null asset and a created
writer, `ExportStaticMesh` and `ExportSkeleton` write the whole file, close it,
and return false; `ExportSkeleton` returns false on every input. -/
theorem C4_binary_export_returns_false (host : Host) (Mesh : UStaticMesh)
    (RenderData : FStaticMeshRenderData) (Skel : USkeleton) (meshPath skelPath : String)
    (hvalid : host.IsFilenameValidForSaving meshPath = true)
    (hext : EndsWith meshPath STATIC_MESH_BINARY_FILE_POSTFIX = true)
    (hwriter : host.CreateFileWriter meshPath = true)
    (hdata : Mesh.GetRenderData = some RenderData)
    (hvalid2 : host.IsFilenameValidForSaving skelPath = true)
    (hext2 : EndsWith skelPath SKELETON_BINARY_FILE_POSTFIX = true)
    (hwriter2 : host.CreateFileWriter skelPath = true) :
    ExportStaticMesh host (some Mesh) meshPath =
      ⟨.returned false,
        [.CreateFileWriter meshPath true,
         .Serialize meshPath (writeStaticMeshLODs RenderData.LODResources []),
         .Close meshPath]⟩ ∧
    ExportSkeleton host (some Skel) skelPath =
      ⟨.returned false,
        [.CreateFileWriter skelPath true,
         .Serialize skelPath (writeSkeleton host Skel []),
         .Close skelPath]⟩ ∧
    ∀ (Skeleton : Option USkeleton) (path : String),
      (ExportSkeleton host Skeleton path).outcome = .returned false := by
  refine ⟨ExportStaticMesh_binary host Mesh RenderData meshPath hvalid hext hwriter hdata,
    ?_, ?_⟩
  · rw [ExportSkeleton_binary host Skel skelPath hvalid2 hext2 hwriter2, writeSkeleton_eq]
  · intro Skeleton path
    unfold ExportSkeleton
    cases Skeleton <;> simp only [] <;> split_ifs <;> rfl

theorem C4_binary_export_returns_false_witness :
    EndsWith "Triangle.stm" STATIC_MESH_BINARY_FILE_POSTFIX = true ∧
    EndsWith "Hero_Skeleton.skt" SKELETON_BINARY_FILE_POSTFIX = true ∧
    (ExportStaticMesh sampleHost (some sampleStaticMesh) "Triangle.stm").outcome =
      .returned false ∧
    (ExportSkeleton sampleHost (some sampleSkeleton) "Hero_Skeleton.skt").outcome =
      .returned false :=
  ⟨by decide, by decide,
    by rw [(C4_binary_export_returns_false sampleHost sampleStaticMesh
      ⟨[sampleLOD, coarseLOD]⟩ sampleSkeleton "Triangle.stm" "Hero_Skeleton.skt" rfl
      (by decide) rfl rfl rfl (by decide) rfl).1],
    by rw [(C4_binary_export_returns_false sampleHost sampleStaticMesh
      ⟨[sampleLOD, coarseLOD]⟩ sampleSkeleton "Triangle.stm" "Hero_Skeleton.skt" rfl
      (by decide) rfl rfl rfl (by decide) rfl).2.1]⟩

/-! ## Skinned geometry codec (C8, C9, C10) -/

/-- A loop whose body appends to the archive and does not fault writes the
images one after the other. -/
theorem foldlM_append_flatMap {α : Type} (step : FArchive → α → Option FArchive)
    (f : α → List Nat) (xs : List α)
    (h : ∀ x ∈ xs, ∀ Ar, step Ar x = some (Ar ++ f x)) (Ar : FArchive) :
    xs.foldlM step Ar = some (Ar ++ xs.flatMap f) := by
  induction xs generalizing Ar with
  | nil => simp
  | cons x xs ih =>
    rw [List.foldlM_cons, h x (List.mem_cons_self _ _) Ar]
    simp [ih (fun y hy => h y (List.mem_cons_of_mem _ hy)), List.append_assoc]

theorem writeSkinnedVertex_eq (CurLOD : FSkeletalMeshLODRenderData) (BoneMap : List Nat)
    (Ar : FArchive) (i : Nat) (hi : i < CurLOD.SkinWeights.length)
    (hb : ∀ k, k < 4 → (CurLOD.SkinWeights.getD i default).InfluenceBones k < BoneMap.length) :
    writeSkinnedVertex CurLOD BoneMap CurLOD.SkinWeights Ar i =
      some (Ar ++ skinnedVertexRecord CurLOD.StaticVertexBuffers BoneMap
        (CurLOD.SkinWeights.getD i default) i) := by
  have hinfo : CurLOD.SkinWeights[i]? = some (CurLOD.SkinWeights.getD i default) := by
    simp [hi]
  have h0 := hb 0 (by decide)
  have h1 := hb 1 (by decide)
  have h2 := hb 2 (by decide)
  have h3 := hb 3 (by decide)
  have e : ∀ j, j < BoneMap.length → BoneMap[j]? = some (BoneMap.getD j 0) := by
    intro j hj
    simp [hj]
  simp only [writeSkinnedVertex, hinfo, Option.bind_eq_bind, Option.some_bind, Option.pure_def,
    e _ h0, e _ h1, e _ h2, e _ h3]
  simp [skinnedVertexRecord, vertexFloats, FArchive.vector3f, FArchive.vector4f,
    FArchive.vector2f, FArchive.float, FArchive.uint16, List.range_succ, List.append_assoc]

theorem length_skinnedVertexRecord (vb : FStaticMeshVertexBuffers) (BoneMap : List Nat)
    (Info : FSkinWeightInfo) (i : Nat) :
    (skinnedVertexRecord vb BoneMap Info i).length = 72 := by
  have h2 := length_flatMap_const
    (fun k => encUInt16 (BoneMap.getD (Info.InfluenceBones k) 0)) 2 (List.range 4)
    (fun _ => length_encUInt16 _)
  have h4 := length_flatMap_const
    (fun k => encFloat (BoneWeight (Info.InfluenceWeights k))) 4 (List.range 4)
    (fun _ => length_encFloat _)
  simp only [skinnedVertexRecord, List.length_append, length_vertexFloats, h2, h4,
    List.length_range]

theorem writeSkelSection_eq (Ar : FArchive) (s : FSkelMeshRenderSection) :
    writeSkelSection Ar s = Ar ++ skelSectionRecord s := by
  simp [writeSkelSection, skelSectionRecord, FArchive.int32, FArchive.uint32,
    List.append_assoc]

theorem writeSkeletalMeshLODs_cons (Mesh : USkeletalMesh) (CurLOD : FSkeletalMeshLODRenderData)
    (rest : List FSkeletalMeshLODRenderData) (Section0 : FSkelMeshRenderSection)
    (others : List FSkelMeshRenderSection) (Skeleton : USkeleton)
    (hsec : CurLOD.RenderSections = Section0 :: others)
    (hrange : skinIndicesInRange CurLOD Section0.BoneMap)
    (hskel : Mesh.GetSkeleton = some Skeleton) :
    writeSkeletalMeshLODs Mesh (CurLOD :: rest) [] =
      some (skeletalMeshLayout CurLOD Section0.BoneMap (Split Skeleton.GetPathName).2) := by
  have hloop := foldlM_append_flatMap
    (writeSkinnedVertex CurLOD Section0.BoneMap CurLOD.SkinWeights)
    (fun i => skinnedVertexRecord CurLOD.StaticVertexBuffers Section0.BoneMap
      (CurLOD.SkinWeights.getD i default) i)
    (List.range CurLOD.StaticVertexBuffers.PositionVertexBuffer.GetNumVertices)
    (fun i hi Ar => writeSkinnedVertex_eq CurLOD Section0.BoneMap Ar i
      (Nat.lt_of_lt_of_le (List.mem_range.mp hi) hrange.1)
      (hrange.2 i (List.mem_range.mp hi)))
  have h0 : CurLOD.RenderSections[0]? = some Section0 := by simp [hsec]
  simp only [writeSkeletalMeshLODs, h0, hskel, hloop, Option.bind_eq_bind, Option.some_bind,
    Option.pure_def, FArchive.int32, FArchive.fstring, skeletalMeshLayout]
  rw [foldl_append_flatMap (fun Ar Index => FArchive.uint32 Ar Index) encUInt32
      (fun _ _ => rfl),
    foldl_append_flatMap _ _ writeSkelSection_eq]
  simp [List.append_assoc]

/-- The binary branch of `ExportSkeletalMesh`, run to its end on inputs that
index in range. -/
theorem ExportSkeletalMesh_binary (host : Host) (Mesh : USkeletalMesh)
    (RenderData : FSkeletalMeshRenderData) (CurLOD : FSkeletalMeshLODRenderData)
    (rest : List FSkeletalMeshLODRenderData) (Section0 : FSkelMeshRenderSection)
    (others : List FSkelMeshRenderSection) (Skeleton : USkeleton) (path : String)
    (hvalid : host.IsFilenameValidForSaving path = true)
    (hext : EndsWith path SKELETAL_MESH_BINARY_FILE_POSTFIX = true)
    (hwriter : host.CreateFileWriter path = true)
    (hdata : Mesh.GetResourceForRendering = some RenderData)
    (hlod : RenderData.LODRenderData = CurLOD :: rest)
    (hsec : CurLOD.RenderSections = Section0 :: others)
    (hrange : skinIndicesInRange CurLOD Section0.BoneMap)
    (hskel : Mesh.GetSkeleton = some Skeleton) :
    ExportSkeletalMesh host (some Mesh) path =
      ⟨.returned false,
        [.CreateFileWriter path true,
         .Serialize path
           (skeletalMeshLayout CurLOD Section0.BoneMap (Split Skeleton.GetPathName).2),
         .Close path]⟩ := by
  simp [ExportSkeletalMesh, hvalid, hext, hwriter, hdata, hlod, not_json_of_skm path hext,
    writeSkeletalMeshLODs_cons Mesh CurLOD rest Section0 others Skeleton hsec hrange hskel]

theorem twoSectionLOD_inRange : skinIndicesInRange twoSectionLOD sampleSection0.BoneMap := by
  unfold skinIndicesInRange
  decide

/-- C8: on a mesh of two sections with different bone maps, vertex 2 is owned
by section 1, whose map resolves its first influence bone to 10, while the
bytes `ExportSkeletalMesh` writes for that bone index (offset 4 + 72*2 + 48)
are the image of 6, the entry of section 0's map. -/
theorem C8_bone_index_through_first_section_map :
    owningSection twoSectionLOD.RenderSections 2 = some sampleSection1 ∧
    boneIndexThroughOwner twoSectionLOD 2 0 = some 10 ∧
    ((ExportSkeletalMesh sampleHost (some twoSectionMesh) "Hero.skm").bytesWritten.drop
      (4 + 72 * 2 + 48)).take 2 = encUInt16 6 ∧
    encUInt16 6 ≠ encUInt16 10 := by
  refine ⟨by decide, by decide, ?_, by decide⟩
  rw [ExportSkeletalMesh_binary sampleHost twoSectionMesh ⟨[twoSectionLOD]⟩ twoSectionLOD []
    sampleSection0 [sampleSection1] sampleSkeleton "Hero.skm" rfl (by decide) rfl rfl rfl rfl
    twoSectionLOD_inRange rfl]
  decide

set_option maxRecDepth 100000 in
theorem weightOk_all : ∀ w, w ≤ 255 → weightOk w = true := by decide

/-- The rational a non-negative normal float with exponent at most 127 denotes. -/
theorem toRat?_normal (f : F32) (hs : f.bits.val / 2 ^ 31 % 2 = 0)
    (h1 : 1 ≤ f.bits.val / 2 ^ 23 % 256) (h2 : f.bits.val / 2 ^ 23 % 256 ≤ 127) :
    f.toRat? =
      some (((2 ^ 23 + f.bits.val % 2 ^ 23 : Nat) : ℚ) * 2 ^ (f.bits.val / 2 ^ 23 % 256) /
        2 ^ 150) := by
  have a : ¬ f.bits.val / 2 ^ 23 % 256 = 255 := by omega
  have b : ¬ f.bits.val / 2 ^ 23 % 256 = 0 := by omega
  have c : ¬ f.bits.val / 2 ^ 31 % 2 = 1 := by omega
  simp only [F32.toRat?, a, b, c, if_false]
  push_cast
  ring_nf

/-- The value of a serialized weight: a float in [0, 1] within relative error
`2 ^ -24` of `w / 255`. -/
theorem BoneWeight_value (w : Nat) (hw : w ≤ 255) :
    ∃ q : ℚ, (BoneWeight w).toRat? = some q ∧ 0 ≤ q ∧ q ≤ 1 ∧
      |q - (w : ℚ) / 255| ≤ (w : ℚ) / 255 / 2 ^ 24 := by
  have h := weightOk_all w hw
  unfold weightOk at h
  by_cases h0 : w = 0
  · subst h0
    refine ⟨0, ?_, le_refl _, by norm_num, by norm_num⟩
    have e : BoneWeight 0 = F32.ofBits 0 := rfl
    rw [e]
    simp [F32.toRat?, F32.ofBits]
  · simp only [h0, if_false, Bool.and_eq_true, decide_eq_true_eq] at h
    obtain ⟨⟨⟨⟨⟨hs, hE1⟩, hE2⟩, hle⟩, hup⟩, hlo⟩ := h
    refine ⟨_, toRat?_normal _ hs hE1 hE2, ?_, ?_, ?_⟩
    · positivity
    · rw [div_le_one (by positivity)]
      exact_mod_cast hle
    · have hup' : (((2 ^ 23 + (BoneWeight w).bits.val % 2 ^ 23 : Nat) : ℚ) *
          2 ^ ((BoneWeight w).bits.val / 2 ^ 23 % 256)) * 255 * 2 ^ 24 ≤
          (w : ℚ) * 2 ^ 150 * 2 ^ 24 + (w : ℚ) * 2 ^ 150 := by exact_mod_cast hup
      have hlo' : (w : ℚ) * 2 ^ 150 * 2 ^ 24 ≤
          (((2 ^ 23 + (BoneWeight w).bits.val % 2 ^ 23 : Nat) : ℚ) *
            2 ^ ((BoneWeight w).bits.val / 2 ^ 23 % 256)) * 255 * 2 ^ 24 +
          (w : ℚ) * 2 ^ 150 := by exact_mod_cast hlo
      generalize (((2 ^ 23 + (BoneWeight w).bits.val % 2 ^ 23 : Nat) : ℚ) *
        2 ^ ((BoneWeight w).bits.val / 2 ^ 23 % 256)) = X at hup' hlo' ⊢
      rw [abs_le]
      constructor
      · rw [neg_le_sub_iff_le_add, div_add_div _ _ (by norm_num) (by norm_num),
          div_le_div_iff₀ (by norm_num) (by norm_num)]
        norm_num at hlo' ⊢
        linarith
      · rw [sub_le_iff_le_add, div_add_div _ _ (by norm_num) (by norm_num),
          div_le_div_iff₀ (by norm_num) (by norm_num)]
        norm_num at hup' ⊢
        linarith

/-- C9: in the file `ExportSkeletalMesh` writes, the record of vertex i ends with
the four floats `InfluenceWeights[k] / 255.0f`, k = 0..3; for a raw weight w of
0..255 that float is the single-precision quotient of w by 255: it denotes a
number in [0, 1] within relative error 2^-24 of w/255, raw 255 gives exactly 1
and raw 0 gives exactly 0. -/
theorem C9_serialized_weight (host : Host) (Mesh : USkeletalMesh)
    (RenderData : FSkeletalMeshRenderData) (CurLOD : FSkeletalMeshLODRenderData)
    (rest : List FSkeletalMeshLODRenderData) (Section0 : FSkelMeshRenderSection)
    (others : List FSkelMeshRenderSection) (Skeleton : USkeleton) (path : String)
    (hvalid : host.IsFilenameValidForSaving path = true)
    (hext : EndsWith path SKELETAL_MESH_BINARY_FILE_POSTFIX = true)
    (hwriter : host.CreateFileWriter path = true)
    (hdata : Mesh.GetResourceForRendering = some RenderData)
    (hlod : RenderData.LODRenderData = CurLOD :: rest)
    (hsec : CurLOD.RenderSections = Section0 :: others)
    (hrange : skinIndicesInRange CurLOD Section0.BoneMap)
    (hskel : Mesh.GetSkeleton = some Skeleton) :
    (∃ tail, (ExportSkeletalMesh host (some Mesh) path).bytesWritten =
      encInt32 CurLOD.StaticVertexBuffers.PositionVertexBuffer.GetNumVertices ++
      (List.range CurLOD.StaticVertexBuffers.PositionVertexBuffer.GetNumVertices).flatMap
        (fun i =>
          (vertexFloats CurLOD.StaticVertexBuffers i).flatMap encFloat ++
          (List.range 4).flatMap (fun k => encUInt16
            (Section0.BoneMap.getD ((CurLOD.SkinWeights.getD i default).InfluenceBones k) 0)) ++
          (List.range 4).flatMap (fun k => encFloat
            (F32.divNat ((CurLOD.SkinWeights.getD i default).InfluenceWeights k) 255))) ++
      tail) ∧
    (∀ w, w ≤ 255 → ∃ q : ℚ, (F32.divNat w 255).toRat? = some q ∧ 0 ≤ q ∧ q ≤ 1 ∧
      |q - (w : ℚ) / 255| ≤ (w : ℚ) / 255 / 2 ^ 24) ∧
    F32.divNat 255 255 = F32.ofBits 0x3F800000 ∧ (F32.divNat 255 255).toRat? = some 1 ∧
    F32.divNat 0 255 = F32.ofBits 0 ∧ (F32.divNat 0 255).toRat? = some 0 := by
  refine ⟨⟨encInt32 CurLOD.Indices.length ++ CurLOD.Indices.flatMap encUInt32 ++
      encInt32 CurLOD.RenderSections.length ++ CurLOD.RenderSections.flatMap skelSectionRecord ++
      encFString (Split Skeleton.GetPathName).2, ?_⟩,
    BoneWeight_value, by decide, ?_, by decide, ?_⟩
  · rw [ExportSkeletalMesh_binary host Mesh RenderData CurLOD rest Section0 others Skeleton
      path hvalid hext hwriter hdata hlod hsec hrange hskel]
    simp only [Run.bytesWritten, List.flatMap_cons, List.flatMap_nil, List.nil_append,
      List.append_nil, skeletalMeshLayout, skinnedVertexRecord, skelSectionRecord, BoneWeight,
      List.append_assoc]
  · have e : F32.divNat 255 255 = F32.ofBits 0x3F800000 := by decide
    rw [e]
    norm_num [F32.toRat?, F32.ofBits]
  · have e : F32.divNat 0 255 = F32.ofBits 0 := by decide
    rw [e]
    norm_num [F32.toRat?, F32.ofBits]

theorem C9_serialized_weight_witness :
    EndsWith "Hero.skm" SKELETAL_MESH_BINARY_FILE_POSTFIX = true ∧
    skinIndicesInRange twoSectionLOD sampleSection0.BoneMap ∧
    (∃ tail, (ExportSkeletalMesh sampleHost (some twoSectionMesh) "Hero.skm").bytesWritten =
      encInt32 twoSectionLOD.StaticVertexBuffers.PositionVertexBuffer.GetNumVertices ++
      (List.range twoSectionLOD.StaticVertexBuffers.PositionVertexBuffer.GetNumVertices).flatMap
        (fun i =>
          (vertexFloats twoSectionLOD.StaticVertexBuffers i).flatMap encFloat ++
          (List.range 4).flatMap (fun k => encUInt16
            (sampleSection0.BoneMap.getD
              ((twoSectionLOD.SkinWeights.getD i default).InfluenceBones k) 0)) ++
          (List.range 4).flatMap (fun k => encFloat
            (F32.divNat ((twoSectionLOD.SkinWeights.getD i default).InfluenceWeights k) 255))) ++
      tail) ∧
    (F32.divNat 255 255).toRat? = some 1 :=
  ⟨by decide, twoSectionLOD_inRange,
    (C9_serialized_weight sampleHost twoSectionMesh ⟨[twoSectionLOD]⟩ twoSectionLOD []
      sampleSection0 [sampleSection1] sampleSkeleton "Hero.skm" rfl (by decide) rfl rfl rfl rfl
      twoSectionLOD_inRange rfl).1,
    (C9_serialized_weight sampleHost twoSectionMesh ⟨[twoSectionLOD]⟩ twoSectionLOD []
      sampleSection0 [sampleSection1] sampleSkeleton "Hero.skm" rfl (by decide) rfl rfl rfl rfl
      twoSectionLOD_inRange rfl).2.2.2.1⟩

/-- C10 fails as stated: on the two-section mesh the fifth field of the first
section record (offset 4 + 72*3 + 4 + 4*3 + 4 + 16) is the image of 2, the
section's vertex count, while the section's largest vertex index is 1. -/
theorem C10_fifth_field_not_max_vertex_index :
    twoSectionLOD.RenderSections[0]? = some sampleSection0 ∧
    sampleSection0.BaseVertexIndex = 0 ∧ sampleSection0.NumVertices = 2 ∧
    maxVertexIndex sampleSection0 = 1 ∧
    ((ExportSkeletalMesh sampleHost (some twoSectionMesh) "Hero.skm").bytesWritten.drop
      (4 + 72 * 3 + 4 + 4 * 3 + 4 + 16)).take 4 = encUInt32 2 ∧
    encUInt32 2 ≠ encUInt32 1 := by
  refine ⟨rfl, rfl, rfl, rfl, ?_, by decide⟩
  rw [ExportSkeletalMesh_binary sampleHost twoSectionMesh ⟨[twoSectionLOD]⟩ twoSectionLOD []
    sampleSection0 [sampleSection1] sampleSkeleton "Hero.skm" rfl (by decide) rfl rfl rfl rfl
    twoSectionLOD_inRange rfl]
  decide

/-- C10 amended: `ExportSkeletalMesh` frames sections as the static codec does,
an int32 count and per section one int32 and four uint32 (the record of a
static section with the same five numbers), and the five fields are material
index, first-index offset, triangle count, base vertex index and vertex count
of the section. -/
theorem C10_skeletal_section_framing (host : Host) (Mesh : USkeletalMesh)
    (RenderData : FSkeletalMeshRenderData) (CurLOD : FSkeletalMeshLODRenderData)
    (rest : List FSkeletalMeshLODRenderData) (Section0 : FSkelMeshRenderSection)
    (others : List FSkelMeshRenderSection) (Skeleton : USkeleton) (path : String)
    (hvalid : host.IsFilenameValidForSaving path = true)
    (hext : EndsWith path SKELETAL_MESH_BINARY_FILE_POSTFIX = true)
    (hwriter : host.CreateFileWriter path = true)
    (hdata : Mesh.GetResourceForRendering = some RenderData)
    (hlod : RenderData.LODRenderData = CurLOD :: rest)
    (hsec : CurLOD.RenderSections = Section0 :: others)
    (hrange : skinIndicesInRange CurLOD Section0.BoneMap)
    (hskel : Mesh.GetSkeleton = some Skeleton) :
    (∃ head, head.length =
        4 + CurLOD.StaticVertexBuffers.PositionVertexBuffer.GetNumVertices * 72 + 4 +
          CurLOD.Indices.length * 4 ∧
      (ExportSkeletalMesh host (some Mesh) path).bytesWritten =
        head ++ encInt32 CurLOD.RenderSections.length ++
        CurLOD.RenderSections.flatMap (fun s =>
          encInt32 s.MaterialIndex ++ encUInt32 s.BaseIndex ++ encUInt32 s.NumTriangles ++
            encUInt32 s.BaseVertexIndex ++ encUInt32 s.NumVertices) ++
        encFString (Split Skeleton.GetPathName).2) ∧
    ∀ s : FSkelMeshRenderSection,
      encInt32 s.MaterialIndex ++ encUInt32 s.BaseIndex ++ encUInt32 s.NumTriangles ++
          encUInt32 s.BaseVertexIndex ++ encUInt32 s.NumVertices =
        sectionRecord ⟨s.MaterialIndex, s.BaseIndex, s.NumTriangles, s.BaseVertexIndex,
          s.NumVertices⟩ := by
  refine ⟨⟨encInt32 CurLOD.StaticVertexBuffers.PositionVertexBuffer.GetNumVertices ++
      (List.range CurLOD.StaticVertexBuffers.PositionVertexBuffer.GetNumVertices).flatMap
        (fun i => skinnedVertexRecord CurLOD.StaticVertexBuffers Section0.BoneMap
          (CurLOD.SkinWeights.getD i default) i) ++
      encInt32 CurLOD.Indices.length ++ CurLOD.Indices.flatMap encUInt32, ?_, ?_⟩,
    fun s => rfl⟩
  · have hrec : ∀ i, (skinnedVertexRecord CurLOD.StaticVertexBuffers Section0.BoneMap
        (CurLOD.SkinWeights.getD i default) i).length = 72 :=
      fun i => length_skinnedVertexRecord _ _ _ i
    simp only [List.length_append, length_encInt32, length_flatMap_const _ 72 _ hrec,
      length_flatMap_const _ 4 _ length_encUInt32, List.length_range]
  · rw [ExportSkeletalMesh_binary host Mesh RenderData CurLOD rest Section0 others Skeleton
      path hvalid hext hwriter hdata hlod hsec hrange hskel]
    have e : skelSectionRecord = fun s =>
        encInt32 s.MaterialIndex ++ encUInt32 s.BaseIndex ++ encUInt32 s.NumTriangles ++
          encUInt32 s.BaseVertexIndex ++ encUInt32 s.NumVertices := rfl
    simp only [Run.bytesWritten, List.flatMap_cons, List.flatMap_nil, List.nil_append,
      List.append_nil, skeletalMeshLayout, e, List.append_assoc]

theorem C10_skeletal_section_framing_witness :
    EndsWith "Hero.skm" SKELETAL_MESH_BINARY_FILE_POSTFIX = true ∧
    skinIndicesInRange twoSectionLOD sampleSection0.BoneMap ∧
    ∃ head,
      head.length =
        4 + twoSectionLOD.StaticVertexBuffers.PositionVertexBuffer.GetNumVertices * 72 + 4 +
          twoSectionLOD.Indices.length * 4 ∧
      (ExportSkeletalMesh sampleHost (some twoSectionMesh) "Hero.skm").bytesWritten =
        head ++ encInt32 twoSectionLOD.RenderSections.length ++
        twoSectionLOD.RenderSections.flatMap (fun s =>
          encInt32 s.MaterialIndex ++ encUInt32 s.BaseIndex ++ encUInt32 s.NumTriangles ++
            encUInt32 s.BaseVertexIndex ++ encUInt32 s.NumVertices) ++
        encFString (Split sampleSkeleton.GetPathName).2 :=
  ⟨by decide, twoSectionLOD_inRange,
    (C10_skeletal_section_framing sampleHost twoSectionMesh ⟨[twoSectionLOD]⟩ twoSectionLOD []
      sampleSection0 [sampleSection1] sampleSkeleton "Hero.skm" rfl (by decide) rfl rfl rfl rfl
      twoSectionLOD_inRange rfl).1⟩

/-! ## Animation codec (C12) -/

theorem not_json_of_anm (path : String)
    (h : EndsWith path ANIMSEQUENCE_BINARY_FILE_POSTFIX = true) :
    EndsWith path JSON_FILE_POSTFIX = false :=
  EndsWith_exclusive path _ _ h (by decide) (by decide)

theorem not_json_of_mtl (path : String)
    (h : EndsWith path MATERIAL_BINARY_FILE_POSTFIX = true) :
    EndsWith path JSON_FILE_POSTFIX = false :=
  EndsWith_exclusive path _ _ h (by decide) (by decide)

theorem vector3f_eq (Ar : FArchive) (v : FVector3f) : Ar.vector3f v = Ar ++ encVector3f v := by
  simp [FArchive.vector3f, FArchive.float, encVector3f, List.append_assoc]

theorem quat4f_eq (Ar : FArchive) (q : FQuat4f) : Ar.quat4f q = Ar ++ encQuat4f q := by
  simp [FArchive.quat4f, FArchive.float, encQuat4f, List.append_assoc]

theorem linearColor_eq (Ar : FArchive) (c : FLinearColor) :
    Ar.linearColor c = Ar ++ encLinearColor c := by
  simp [FArchive.linearColor, FArchive.float, encLinearColor, List.append_assoc]

theorem vector3fArray_eq (Ar : FArchive) (xs : List FVector3f) :
    Ar.vector3fArray xs = Ar ++ (encInt32 xs.length ++ xs.flatMap encVector3f) := by
  rw [FArchive.vector3fArray, foldl_append_flatMap _ _ vector3f_eq]
  simp [FArchive.int32, List.append_assoc]

theorem quat4fArray_eq (Ar : FArchive) (xs : List FQuat4f) :
    Ar.quat4fArray xs = Ar ++ (encInt32 xs.length ++ xs.flatMap encQuat4f) := by
  rw [FArchive.quat4fArray, foldl_append_flatMap _ _ quat4f_eq]
  simp [FArchive.int32, List.append_assoc]

theorem writeAnimationTrack_eq (Ar : FArchive) (t : FBoneAnimationTrack) :
    writeAnimationTrack Ar t = Ar ++ animationTrackRecord t := by
  simp only [writeAnimationTrack, animationTrackRecord, vector3fArray_eq, quat4fArray_eq,
    FArchive.int32, List.append_assoc]

theorem writeAnimSequence_eq (Anim : UAnimSequence) :
    writeAnimSequence Anim [] =
      encInt32 Anim.GetNumberOfSampledKeys ++ encFloat Anim.GetPlayLength ++
        Anim.GetResampledTrackData.flatMap animationTrackRecord := by
  simp only [writeAnimSequence]
  rw [foldl_append_flatMap _ _ writeAnimationTrack_eq]
  simp [FArchive.int32, FArchive.float]

/-- The binary branch of `ExportAnimSequence`, run to its end. -/
theorem ExportAnimSequence_binary (host : Host) (Anim : UAnimSequence) (path : String)
    (hvalid : host.IsFilenameValidForSaving path = true)
    (hext : EndsWith path ANIMSEQUENCE_BINARY_FILE_POSTFIX = true)
    (hwriter : host.CreateFileWriter path = true) :
    ExportAnimSequence host (some Anim) path =
      ⟨.returned false,
        [.CreateFileWriter path true,
         .Serialize path (encInt32 Anim.GetNumberOfSampledKeys ++ encFloat Anim.GetPlayLength ++
            Anim.GetResampledTrackData.flatMap animationTrackRecord),
         .Close path]⟩ := by
  simp [ExportAnimSequence, hvalid, hext, hwriter, not_json_of_anm path hext,
    writeAnimSequence_eq]

/-- C12: for an animation, a valid path ending in ".anm" and a created writer,
`ExportAnimSequence` writes the int32 sampled-frame count, the float play
length, and per bone track in source order the int32 bone index followed by
the position, rotation and scale key arrays, each as its own int32 length and
that many elements; nothing relates the three lengths or the frame count. -/
theorem C12_ExportAnimSequence_layout (host : Host) (Anim : UAnimSequence) (path : String)
    (hvalid : host.IsFilenameValidForSaving path = true)
    (hext : EndsWith path ANIMSEQUENCE_BINARY_FILE_POSTFIX = true)
    (hwriter : host.CreateFileWriter path = true) :
    (ExportAnimSequence host (some Anim) path).events =
      [.CreateFileWriter path true,
       .Serialize path
         (encInt32 Anim.GetNumberOfSampledKeys ++ encFloat Anim.GetPlayLength ++
          Anim.GetResampledTrackData.flatMap (fun t =>
            encInt32 t.BoneTreeIndex ++
            (encInt32 t.InternalTrackData.PosKeys.length ++
              t.InternalTrackData.PosKeys.flatMap encVector3f) ++
            (encInt32 t.InternalTrackData.RotKeys.length ++
              t.InternalTrackData.RotKeys.flatMap encQuat4f) ++
            (encInt32 t.InternalTrackData.ScaleKeys.length ++
              t.InternalTrackData.ScaleKeys.flatMap encVector3f))),
       .Close path] := by
  rw [ExportAnimSequence_binary host Anim path hvalid hext hwriter]
  have e : animationTrackRecord = fun t =>
      encInt32 t.BoneTreeIndex ++
      (encInt32 t.InternalTrackData.PosKeys.length ++
        t.InternalTrackData.PosKeys.flatMap encVector3f) ++
      (encInt32 t.InternalTrackData.RotKeys.length ++
        t.InternalTrackData.RotKeys.flatMap encQuat4f) ++
      (encInt32 t.InternalTrackData.ScaleKeys.length ++
        t.InternalTrackData.ScaleKeys.flatMap encVector3f) := rfl
  rw [e]

theorem C12_ExportAnimSequence_layout_witness :
    EndsWith "Saved/REngine/SkeletalMesh/Animation/Walk.anm"
      ANIMSEQUENCE_BINARY_FILE_POSTFIX = true ∧
    (sampleAnimSequence.GetResampledTrackData.map fun t =>
      (t.InternalTrackData.PosKeys.length, t.InternalTrackData.RotKeys.length,
        t.InternalTrackData.ScaleKeys.length)) = [(2, 1, 0), (0, 3, 1)] ∧
    (ExportAnimSequence sampleHost (some sampleAnimSequence)
        "Saved/REngine/SkeletalMesh/Animation/Walk.anm").events =
      [.CreateFileWriter "Saved/REngine/SkeletalMesh/Animation/Walk.anm" true,
       .Serialize "Saved/REngine/SkeletalMesh/Animation/Walk.anm"
         (encInt32 sampleAnimSequence.GetNumberOfSampledKeys ++
          encFloat sampleAnimSequence.GetPlayLength ++
          sampleAnimSequence.GetResampledTrackData.flatMap (fun t =>
            encInt32 t.BoneTreeIndex ++
            (encInt32 t.InternalTrackData.PosKeys.length ++
              t.InternalTrackData.PosKeys.flatMap encVector3f) ++
            (encInt32 t.InternalTrackData.RotKeys.length ++
              t.InternalTrackData.RotKeys.flatMap encQuat4f) ++
            (encInt32 t.InternalTrackData.ScaleKeys.length ++
              t.InternalTrackData.ScaleKeys.flatMap encVector3f))),
       .Close "Saved/REngine/SkeletalMesh/Animation/Walk.anm"] :=
  ⟨by decide, by decide,
    C12_ExportAnimSequence_layout sampleHost sampleAnimSequence
      "Saved/REngine/SkeletalMesh/Animation/Walk.anm" rfl (by decide) rfl⟩

/-! ## Material codec (C13, C14, C15) -/

theorem writeScalarParameter_find (m : UMaterialInstance) (name : String)
    (infos : List FMaterialParameterInfo) (Ar : FArchive) :
    writeScalarParameter m ⟨name⟩ infos Ar =
      Ar ++ (match infos.find? (fun info => decide (info.Name = ⟨name⟩)) with
        | some info =>
          (match m.GetScalarParameterValue info with
            | some v => encFloat v
            | none => [])
        | none => []) := by
  induction infos with
  | nil => simp [writeScalarParameter]
  | cons info rest ih =>
    by_cases h : info.Name = ⟨name⟩
    · cases hv : m.GetScalarParameterValue info <;>
        simp [writeScalarParameter, h, hv, FArchive.float]
    · simp [writeScalarParameter, h, ih]

theorem writeVectorParameter_find (m : UMaterialInstance) (name : String)
    (infos : List FMaterialParameterInfo) (Ar : FArchive) :
    writeVectorParameter m ⟨name⟩ infos Ar =
      Ar ++ (match infos.find? (fun info => decide (info.Name = ⟨name⟩)) with
        | some info =>
          (match m.GetVectorParameterValue info with
            | some c => encLinearColor c
            | none => [])
        | none => []) := by
  induction infos with
  | nil => simp [writeVectorParameter]
  | cons info rest ih =>
    by_cases h : info.Name = ⟨name⟩
    · cases hv : m.GetVectorParameterValue info <;>
        simp [writeVectorParameter, h, hv, linearColor_eq]
    · simp [writeVectorParameter, h, ih]

theorem writeScalarParameter_eq (m : UMaterialInstance) (name : String) (Ar : FArchive) :
    writeScalarParameter m ⟨name⟩ m.GetAllScalarParameterInfo Ar =
      Ar ++ optionalScalar m name := by
  rw [writeScalarParameter_find, optionalScalar, UMaterialInstance.scalarValue]
  cases m.GetAllScalarParameterInfo.find? (fun info => decide (info.Name = ⟨name⟩)) <;> rfl

theorem writeVectorParameter_eq (m : UMaterialInstance) (name : String) (Ar : FArchive) :
    writeVectorParameter m ⟨name⟩ m.GetAllVectorParameterInfo Ar =
      Ar ++ optionalVector m name := by
  rw [writeVectorParameter_find, optionalVector, UMaterialInstance.vectorValue]
  cases m.GetAllVectorParameterInfo.find? (fun info => decide (info.Name = ⟨name⟩)) <;> rfl

/-- The texture loop appends one pair of strings per parameter that refers to a
texture. -/
theorem writeTextureParameters_Ar (paths : FPaths) (m : UMaterialInstance)
    (infos : List FMaterialParameterInfo) (st : MaterialState) :
    (infos.foldl (writeTextureParameter paths m) st).Ar =
      st.Ar ++ (infos.filterMap fun info =>
        match m.GetTextureParameterValue info with
        | some Texture => some (info.Name.ToString, (Split Texture.GetPathName).2)
        | none => none).flatMap (fun p => encFString p.1 ++ encFString p.2) := by
  induction infos generalizing st with
  | nil => simp
  | cons info rest ih =>
    rw [List.foldl_cons, ih]
    cases hv : m.GetTextureParameterValue info <;>
      simp [writeTextureParameter, hv, FArchive.fstring, List.append_assoc]

theorem writeMaterialInstance_Ar (paths : FPaths) (m : UMaterialInstance) :
    (writeMaterialInstance paths m []).Ar =
      encInt32 m.BlendMode ++ encInt32 m.GetFirstShadingModel ++
        encUInt8 (if m.TwoSided then 1 else 0) ++
        (optionalScalar m "Metallic" ++ optionalScalar m "Specular" ++
          optionalScalar m "Roughness" ++ optionalScalar m "Opacity" ++
          optionalVector m "EmissiveColor" ++ optionalVector m "SubsurfaceColor") ++
        (encInt32 m.GetAllTextureParameterInfo.length ++
          (texturePairs m).flatMap (fun p => encFString p.1 ++ encFString p.2)) := by
  simp only [writeMaterialInstance, writeTextureParameters_Ar, writeScalarParameter_eq,
    writeVectorParameter_eq, texturePairs, FArchive.int32, FArchive.uint8, List.nil_append,
    List.append_assoc]

/-- The binary branch of `ExportMaterialInstance`, run to its end. -/
theorem ExportMaterialInstance_binary (host : Host) (paths : FPaths) (m : UMaterialInstance)
    (path : String)
    (hvalid : host.IsFilenameValidForSaving path = true)
    (hext : EndsWith path MATERIAL_BINARY_FILE_POSTFIX = true)
    (hwriter : host.CreateFileWriter path = true) :
    (ExportMaterialInstance host paths (some m) path).run =
      ⟨.returned false,
        [.CreateFileWriter path true,
         .Serialize path (writeMaterialInstance paths m []).Ar,
         .Close path]⟩ := by
  simp [ExportMaterialInstance, hvalid, hext, hwriter, not_json_of_mtl path hext]

theorem bytesWritten_single (outcome : Outcome) (path : String) (bytes : List Nat) :
    (Run.mk outcome [.CreateFileWriter path true, .Serialize path bytes,
      .Close path]).bytesWritten = bytes := by
  simp [Run.bytesWritten]

/-- C13: a material that defines Roughness and EmissiveColor and none of
Metallic, Specular, Opacity, SubsurfaceColor is written as blend mode (4
bytes), shading model (4 bytes), two-sided flag (1 byte), the Roughness float
and the four EmissiveColor floats, 29 bytes in all, followed at once by the
texture section (count, then pairs). -/
theorem C13_material_optional_field_omission (host : Host) (paths : FPaths)
    (m : UMaterialInstance) (path : String) (roughness : F32) (emissive : FLinearColor)
    (hvalid : host.IsFilenameValidForSaving path = true)
    (hext : EndsWith path MATERIAL_BINARY_FILE_POSTFIX = true)
    (hwriter : host.CreateFileWriter path = true)
    (hRoughness : m.scalarValue "Roughness" = some roughness)
    (hEmissive : m.vectorValue "EmissiveColor" = some emissive)
    (hMetallic : m.scalarValue "Metallic" = none)
    (hSpecular : m.scalarValue "Specular" = none)
    (hOpacity : m.scalarValue "Opacity" = none)
    (hSubsurface : m.vectorValue "SubsurfaceColor" = none) :
    (ExportMaterialInstance host paths (some m) path).run.bytesWritten =
      (encInt32 m.BlendMode ++ encInt32 m.GetFirstShadingModel ++
        encUInt8 (if m.TwoSided then 1 else 0) ++ encFloat roughness ++
        encLinearColor emissive) ++
      (encInt32 m.GetAllTextureParameterInfo.length ++
        (texturePairs m).flatMap (fun p => encFString p.1 ++ encFString p.2)) ∧
    (encInt32 m.BlendMode ++ encInt32 m.GetFirstShadingModel ++
      encUInt8 (if m.TwoSided then 1 else 0) ++ encFloat roughness ++
      encLinearColor emissive).length = 29 := by
  constructor
  · rw [ExportMaterialInstance_binary host paths m path hvalid hext hwriter,
      bytesWritten_single, writeMaterialInstance_Ar]
    simp only [optionalScalar, optionalVector, hRoughness, hEmissive, hMetallic, hSpecular,
      hOpacity, hSubsurface, List.nil_append, List.append_nil, List.append_assoc]
  · simp only [List.length_append, length_encInt32, length_encFloat, encLinearColor, encUInt8,
      length_leBytes]

theorem C13_material_optional_field_omission_witness :
    EndsWith "MI_Wood.mtl" MATERIAL_BINARY_FILE_POSTFIX = true ∧
    roughEmissiveMaterial.scalarValue "Roughness" = some (F32.ofBits 0x3F000000) ∧
    roughEmissiveMaterial.scalarValue "Metallic" = none ∧
    (ExportMaterialInstance sampleHost samplePaths (some roughEmissiveMaterial)
        "MI_Wood.mtl").run.bytesWritten =
      (encInt32 roughEmissiveMaterial.BlendMode ++
        encInt32 roughEmissiveMaterial.GetFirstShadingModel ++
        encUInt8 (if roughEmissiveMaterial.TwoSided then 1 else 0) ++
        encFloat (F32.ofBits 0x3F000000) ++
        encLinearColor ⟨F32.one, F32.zero, F32.zero, F32.one⟩) ++
      (encInt32 roughEmissiveMaterial.GetAllTextureParameterInfo.length ++
        (texturePairs roughEmissiveMaterial).flatMap
          (fun p => encFString p.1 ++ encFString p.2)) :=
  ⟨by decide, by decide, by decide,
    (C13_material_optional_field_omission sampleHost samplePaths roughEmissiveMaterial
      "MI_Wood.mtl" (F32.ofBits 0x3F000000) ⟨F32.one, F32.zero, F32.zero, F32.one⟩ rfl
      (by decide) rfl (by decide) (by decide) (by decide) (by decide) (by decide)
      (by decide)).1⟩

/-- C14: between the two-sided flag and the texture-parameter count the file
holds, in the order Metallic, Specular, Roughness, Opacity, EmissiveColor,
SubsurfaceColor, the value of each parameter the material defines (one float
per scalar, four floats per vector) and nothing for a parameter it does not
define; no flag or tag is written. -/
theorem C14_material_optional_fields (host : Host) (paths : FPaths) (m : UMaterialInstance)
    (path : String)
    (hvalid : host.IsFilenameValidForSaving path = true)
    (hext : EndsWith path MATERIAL_BINARY_FILE_POSTFIX = true)
    (hwriter : host.CreateFileWriter path = true) :
    (ExportMaterialInstance host paths (some m) path).run.bytesWritten =
      (encInt32 m.BlendMode ++ encInt32 m.GetFirstShadingModel ++
        encUInt8 (if m.TwoSided then 1 else 0)) ++
      (optionalScalar m "Metallic" ++ optionalScalar m "Specular" ++
        optionalScalar m "Roughness" ++ optionalScalar m "Opacity" ++
        optionalVector m "EmissiveColor" ++ optionalVector m "SubsurfaceColor") ++
      (encInt32 m.GetAllTextureParameterInfo.length ++
        (texturePairs m).flatMap (fun p => encFString p.1 ++ encFString p.2)) ∧
    (∀ name v, m.scalarValue name = some v → optionalScalar m name = encFloat v) ∧
    (∀ name, m.scalarValue name = none → optionalScalar m name = []) ∧
    (∀ name c, m.vectorValue name = some c →
      optionalVector m name = encFloat c.R ++ encFloat c.G ++ encFloat c.B ++ encFloat c.A) ∧
    (∀ name, m.vectorValue name = none → optionalVector m name = []) := by
  refine ⟨?_, ?_, ?_, ?_, ?_⟩
  · rw [ExportMaterialInstance_binary host paths m path hvalid hext hwriter,
      bytesWritten_single, writeMaterialInstance_Ar]
  · intro name v h
    simp [optionalScalar, h]
  · intro name h
    simp [optionalScalar, h]
  · intro name c h
    simp [optionalVector, h, encLinearColor]
  · intro name h
    simp [optionalVector, h]

theorem C14_material_optional_fields_witness :
    EndsWith "MI_Wood.mtl" MATERIAL_BINARY_FILE_POSTFIX = true ∧
    (ExportMaterialInstance sampleHost samplePaths (some roughEmissiveMaterial)
        "MI_Wood.mtl").run.bytesWritten =
      (encInt32 roughEmissiveMaterial.BlendMode ++
        encInt32 roughEmissiveMaterial.GetFirstShadingModel ++
        encUInt8 (if roughEmissiveMaterial.TwoSided then 1 else 0)) ++
      (optionalScalar roughEmissiveMaterial "Metallic" ++
        optionalScalar roughEmissiveMaterial "Specular" ++
        optionalScalar roughEmissiveMaterial "Roughness" ++
        optionalScalar roughEmissiveMaterial "Opacity" ++
        optionalVector roughEmissiveMaterial "EmissiveColor" ++
        optionalVector roughEmissiveMaterial "SubsurfaceColor") ++
      (encInt32 roughEmissiveMaterial.GetAllTextureParameterInfo.length ++
        (texturePairs roughEmissiveMaterial).flatMap
          (fun p => encFString p.1 ++ encFString p.2)) :=
  ⟨by decide,
    (C14_material_optional_fields sampleHost samplePaths roughEmissiveMaterial "MI_Wood.mtl"
      rfl (by decide) rfl).1⟩

/-- C15: for a material with two texture parameters of which the second refers
to no texture, the count `ExportMaterialInstance` writes after the nine header
bytes is 2 and exactly one (parameter name, texture name) pair follows: the
count is written before the loop and the loop skips a null texture. -/
theorem C15_count_exceeds_pairs :
    halfTexturedMaterial.GetAllTextureParameterInfo.length = 2 ∧
    ∃ rest,
      decInt32 ((ExportMaterialInstance sampleHost samplePaths (some halfTexturedMaterial)
        "MI_Half.mtl").run.bytesWritten.drop 9) = some (2, rest) ∧
      decStringPairs 4 rest = some [("BaseColor", "T_Wood")] := by
  refine ⟨rfl, encFString "BaseColor" ++ encFString "T_Wood", ?_, by decide⟩
  rw [ExportMaterialInstance_binary sampleHost samplePaths halfTexturedMaterial "MI_Half.mtl"
    rfl (by decide) rfl, bytesWritten_single]
  decide

/-- The texture block of a material file, for every material: the int32 number
of texture parameters, written before the loop, then one (parameter name,
texture name) pair per parameter that refers to a texture. The pairs are at
most as many as the count, and as many exactly when every texture parameter
refers to a texture. -/
theorem ExportMaterialInstance_texture_block (host : Host) (paths : FPaths)
    (m : UMaterialInstance) (path : String)
    (hvalid : host.IsFilenameValidForSaving path = true)
    (hext : EndsWith path MATERIAL_BINARY_FILE_POSTFIX = true)
    (hwriter : host.CreateFileWriter path = true) :
    (∃ head : List Nat,
      (ExportMaterialInstance host paths (some m) path).run.bytesWritten =
        head ++ encInt32 m.GetAllTextureParameterInfo.length ++
          (texturePairs m).flatMap (fun p => encFString p.1 ++ encFString p.2)) ∧
    (texturePairs m).length ≤ m.GetAllTextureParameterInfo.length ∧
    ((texturePairs m).length = m.GetAllTextureParameterInfo.length ↔
      ∀ info ∈ m.GetAllTextureParameterInfo,
        (m.GetTextureParameterValue info).isSome = true) := by
  refine ⟨⟨encInt32 m.BlendMode ++ encInt32 m.GetFirstShadingModel ++
      encUInt8 (if m.TwoSided then 1 else 0) ++
      (optionalScalar m "Metallic" ++ optionalScalar m "Specular" ++
        optionalScalar m "Roughness" ++ optionalScalar m "Opacity" ++
        optionalVector m "EmissiveColor" ++ optionalVector m "SubsurfaceColor"), ?_⟩,
    List.length_filterMap_le _ _, ?_⟩
  · rw [ExportMaterialInstance_binary host paths m path hvalid hext hwriter,
      bytesWritten_single, writeMaterialInstance_Ar]
    simp only [List.append_assoc]
  · rw [texturePairs, List.filterMap_length_eq_length]
    constructor
    · intro h info hinfo
      have := h info hinfo
      cases hv : m.GetTextureParameterValue info with
      | none => simp [hv] at this
      | some Texture => rfl
    · intro h info hinfo
      have := h info hinfo
      cases hv : m.GetTextureParameterValue info with
      | none => simp [hv] at this
      | some Texture => rfl

/-! ## Name resolution (C20) -/

theorem Split_at_first_dot (P N : String) (hP : ∀ c ∈ P.data, c ≠ '.') :
    Split (P ++ "." ++ N) = (P, N) := by
  have hp : ∀ c ∈ P.data, (fun c : Char => c != '.') c = true := by
    intro c hc
    simp [hP c hc]
  have hd : (P ++ "." ++ N).data = P.data ++ ('.' :: N.data) := by
    simp [String.data_append]
  have ht : (P.data ++ ('.' :: N.data)).takeWhile (fun c : Char => c != '.') = P.data := by
    rw [List.takeWhile_append_of_pos hp]
    simp
  have hdrop : (P.data ++ ('.' :: N.data)).dropWhile (fun c : Char => c != '.') =
      '.' :: N.data := by
    rw [List.dropWhile_append_of_pos hp]
    simp
  simp only [Split, hd, List.span_eq_take_drop, ht, hdrop]

theorem Split_without_dot (s : String) (hs : ∀ c ∈ s.data, c ≠ '.') : Split s = ("", "") := by
  have hp : ∀ c ∈ s.data, (fun c : Char => c != '.') c = true := by
    intro c hc
    simp [hs c hc]
  have hdrop : s.data.dropWhile (fun c : Char => c != '.') = [] :=
    List.dropWhile_eq_nil_iff.mpr hp
  simp only [Split, List.span_eq_take_drop, hdrop]

/-- C20: for a path `P ++ "." ++ N` whose part `P` holds no ".", the split at
the first "." yields `P` and `N` and the canonical name is `N`; for the path
`P` itself, which holds no ".", the split fails and the canonical name is
empty; equal paths have equal canonical names. -/
theorem C20_name_resolution (P N : String) (hP : ∀ c ∈ P.data, c ≠ '.') :
    Split (P ++ "." ++ N) = (P, N) ∧
    canonicalName (P ++ "." ++ N) = N ∧
    Split P = ("", "") ∧
    canonicalName P = "" ∧
    ∀ p q : String, p = q → canonicalName p = canonicalName q := by
  refine ⟨Split_at_first_dot P N hP, ?_, Split_without_dot P hP, ?_, ?_⟩
  · rw [canonicalName, Split_at_first_dot P N hP]
  · rw [canonicalName, Split_without_dot P hP]
  · intro p q h
    rw [h]

theorem C20_name_resolution_witness :
    (∀ c ∈ "/Game/Hero/Hero_Skeleton".data, c ≠ '.') ∧
    canonicalName ("/Game/Hero/Hero_Skeleton" ++ "." ++ "Hero_Skeleton") = "Hero_Skeleton" ∧
    canonicalName "/Game/Hero/Hero_Skeleton" = "" :=
  ⟨by decide,
    (C20_name_resolution "/Game/Hero/Hero_Skeleton" "Hero_Skeleton" (by decide)).2.1,
    (C20_name_resolution "/Game/Hero/Hero_Skeleton" "Hero_Skeleton" (by decide)).2.2.2.1⟩

/-! ## Scene export (C11, C16, C17, C18, C19) -/

/-- The export of a static mesh with render data returns. -/
theorem ExportStaticMesh_returns (host : Host) (m : UStaticMesh) (path : String)
    (h : m.exportable) : ∃ flag, (ExportStaticMesh host (some m) path).outcome = .returned flag := by
  unfold UStaticMesh.exportable at h
  obtain ⟨rd, hrd⟩ := Option.isSome_iff_exists.mp h
  unfold ExportStaticMesh
  simp only [hrd, SaveStringToFile]
  split_ifs <;> (try split) <;> (try split_ifs) <;> exact ⟨_, rfl⟩

/-- The body of the export of an exportable skeletal mesh does not fault. -/
theorem writeSkeletalMeshLODs_isSome (m : USkeletalMesh) (RenderData : FSkeletalMeshRenderData)
    (hskel : m.GetSkeleton.isSome = true)
    (h : ∀ CurLOD rest, RenderData.LODRenderData = CurLOD :: rest →
      ∃ Section0 others, CurLOD.RenderSections = Section0 :: others ∧
        skinIndicesInRange CurLOD Section0.BoneMap) :
    ∃ Ar, writeSkeletalMeshLODs m RenderData.LODRenderData [] = some Ar := by
  obtain ⟨Skeleton, hS⟩ := Option.isSome_iff_exists.mp hskel
  cases hl : RenderData.LODRenderData with
  | nil => exact ⟨[], rfl⟩
  | cons CurLOD rest =>
    obtain ⟨Section0, others, hsec, hrange⟩ := h CurLOD rest hl
    exact ⟨_, writeSkeletalMeshLODs_cons m CurLOD rest Section0 others Skeleton hsec hrange hS⟩

/-- The export of an exportable skeletal mesh returns. -/
theorem ExportSkeletalMesh_returns (host : Host) (m : USkeletalMesh) (path : String)
    (h : m.exportable) :
    ∃ flag, (ExportSkeletalMesh host (some m) path).outcome = .returned flag := by
  obtain ⟨hskel, rd, hrd, hl⟩ := h
  obtain ⟨Ar, hAr⟩ := writeSkeletalMeshLODs_isSome m rd hskel hl
  unfold ExportSkeletalMesh
  simp only [hrd, hAr]
  split_ifs <;> exact ⟨_, rfl⟩

/-- The material loop: one name, one export and one call per valid material
instance. -/
theorem foldl_exportMaterialSlot (host : Host) (paths : FPaths)
    (slots : List (Option UMaterialInterface)) (st : MapState) :
    slots.foldl (exportMaterialSlot host paths) st =
      ⟨st.Ar ++ (validMaterialInstances slots).flatMap
          (fun i => encFString (canonicalName i.GetPathName)),
        st.events ++ (materialEffects host paths slots).1,
        st.external ++ (materialEffects host paths slots).2,
        st.calls ++ materialCalls paths slots⟩ := by
  induction slots generalizing st with
  | nil => simp [validMaterialInstances, materialEffects, materialCalls]
  | cons slot rest ih =>
    rw [List.foldl_cons, ih]
    unfold exportMaterialSlot
    cases hc : castMaterialInstance slot with
    | none =>
      simp [validMaterialInstances, materialEffects, materialCalls, hc]
    | some Instance =>
      cases hv : Instance.IsValidLowLevel <;>
        simp [validMaterialInstances, materialEffects, materialCalls, hc, hv, outputPath,
          canonicalName, FArchive.fstring, List.append_assoc]

/-- A loop over actors that all have their component, whose body appends to the
archive and does not fault. -/
theorem foldlM_map_some {α : Type} (step : FArchive → Option α → Option FArchive)
    (f : α → List Nat) (h : ∀ Ar x, step Ar (some x) = some (Ar ++ f x)) (xs : List α)
    (Ar : FArchive) : (xs.map some).foldlM step Ar = some (Ar ++ xs.flatMap f) := by
  induction xs generalizing Ar with
  | nil => simp
  | cons x xs ih =>
    rw [List.map_cons, List.foldlM_cons, h Ar x]
    simp [ih, List.append_assoc]

/-- A loop over mesh actors that all have their component, whose body appends
to the four parts of the state and does not fault. -/
theorem foldlM_mapState {α : Type} (step : MapState → Option α → Option MapState)
    (fa : α → List Nat) (fe : α → List FileEvent) (fx : α → List ExternalCall)
    (fc : α → List ExportCall) (xs : List α)
    (h : ∀ x ∈ xs, ∀ st, step st (some x) =
      some ⟨st.Ar ++ fa x, st.events ++ fe x, st.external ++ fx x, st.calls ++ fc x⟩)
    (st : MapState) :
    (xs.map some).foldlM step st =
      some ⟨st.Ar ++ xs.flatMap fa, st.events ++ xs.flatMap fe, st.external ++ xs.flatMap fx,
        st.calls ++ xs.flatMap fc⟩ := by
  induction xs generalizing st with
  | nil => simp
  | cons x xs ih =>
    rw [List.map_cons, List.foldlM_cons, h x (List.mem_cons_self _ _) st]
    simp [ih (fun y hy => h y (List.mem_cons_of_mem _ hy)), List.append_assoc]

theorem writeCameraActor_eq (host : Host) (math : FMath) (Ar : FArchive)
    (c : UCameraComponent) :
    writeCameraActor host math Ar (some c) = some (Ar ++ cameraRecord host math c) := by
  simp only [writeCameraActor, cameraRecord, vector3f_eq, FArchive.float, List.append_assoc]

theorem writeDirectionalLightActor_eq (host : Host) (math : FMath) (Ar : FArchive)
    (c : UDirectionalLightComponent) :
    writeDirectionalLightActor host math Ar (some c) =
      some (Ar ++ directionalLightRecord host math c) := by
  simp only [writeDirectionalLightActor, directionalLightRecord, vector3f_eq, linearColor_eq,
    FArchive.float, List.append_assoc]

theorem writePointLightActor_eq (host : Host) (math : FMath) (Ar : FArchive)
    (c : UPointLightComponent) :
    writePointLightActor host math Ar (some c) = some (Ar ++ pointLightRecord host math c) := by
  simp only [writePointLightActor, pointLightRecord, vector3f_eq, linearColor_eq,
    FArchive.float, List.append_assoc]

theorem exportStaticMeshActor_eq (host : Host) (paths : FPaths) (st : MapState)
    (c : UStaticMeshComponent) (h : c.wellFormed) :
    exportStaticMeshActor host paths st (some c) =
      some ⟨st.Ar ++ staticMeshInstanceRecord host c,
        st.events ++ staticMeshActorEvents host paths c,
        st.external ++ (materialEffects host paths c.GetMaterials).2,
        st.calls ++ staticMeshActorCalls paths c⟩ := by
  obtain ⟨Mesh, hMesh, hexp⟩ := h
  obtain ⟨flag, hflag⟩ := ExportStaticMesh_returns host Mesh.Object
    (paths.ProjectSavedDir ++ STATICMESH_PATH ++ (Split Mesh.GetPathName).2 ++
      STATIC_MESH_BINARY_FILE_POSTFIX) hexp
  simp only [exportStaticMeshActor, hMesh, hflag, foldl_exportMaterialSlot,
    staticMeshInstanceRecord, staticMeshActorEvents, staticMeshActorCalls, transformRecord,
    outputPath, canonicalName, quat4f_eq, vector3f_eq, FArchive.fstring, FArchive.int32,
    List.append_assoc, List.cons_append, List.nil_append, List.singleton_append]

theorem exportSkeletalMeshActor_eq (host : Host) (paths : FPaths) (st : MapState)
    (c : USkeletalMeshComponent) (h : c.wellFormed) :
    exportSkeletalMeshActor host paths st (some c) =
      some ⟨st.Ar ++ skeletalMeshInstanceRecord host c,
        st.events ++ skeletalMeshActorEvents host paths c,
        st.external ++ (materialEffects host paths c.GetMaterials).2,
        st.calls ++ skeletalMeshActorCalls paths c⟩ := by
  obtain ⟨Mesh, Anim, hMesh, hAnim, hexp⟩ := h
  obtain ⟨flag, hflag⟩ := ExportSkeletalMesh_returns host Mesh.Object
    (paths.ProjectSavedDir ++ SKELETALMESH_PATH ++ (Split Mesh.GetPathName).2 ++
      SKELETAL_MESH_BINARY_FILE_POSTFIX) hexp
  obtain ⟨Skeleton, hS⟩ := Option.isSome_iff_exists.mp hexp.1
  simp only [exportSkeletalMeshActor, hMesh, hAnim, hflag, hS, foldl_exportMaterialSlot,
    skeletalMeshInstanceRecord, skeletalMeshActorEvents, skeletalMeshActorCalls,
    transformRecord, outputPath, canonicalName, quat4f_eq, vector3f_eq, FArchive.fstring,
    FArchive.int32, List.append_assoc, List.cons_append, List.nil_append,
    List.singleton_append]

/-- The five loops of `ExportMap` on a well-formed scene. -/
theorem writeMap_scene (host : Host) (paths : FPaths) (math : FMath) (s : Scene)
    (h : s.wellFormed) :
    writeMap host paths math s.toWorld =
      some ⟨sceneLayout host math s,
        s.StaticMeshes.flatMap (staticMeshActorEvents host paths) ++
          s.SkeletalMeshes.flatMap (skeletalMeshActorEvents host paths),
        s.StaticMeshes.flatMap (fun c => (materialEffects host paths c.GetMaterials).2) ++
          s.SkeletalMeshes.flatMap (fun c => (materialEffects host paths c.GetMaterials).2),
        s.StaticMeshes.flatMap (staticMeshActorCalls paths) ++
          s.SkeletalMeshes.flatMap (skeletalMeshActorCalls paths)⟩ := by
  have hcam := foldlM_map_some (writeCameraActor host math) (cameraRecord host math)
    (writeCameraActor_eq host math) s.Cameras
  have hdir := foldlM_map_some (writeDirectionalLightActor host math)
    (directionalLightRecord host math) (writeDirectionalLightActor_eq host math)
    s.DirectionalLights
  have hpoint := foldlM_map_some (writePointLightActor host math) (pointLightRecord host math)
    (writePointLightActor_eq host math) s.PointLights
  have hstatic := foldlM_mapState (exportStaticMeshActor host paths)
    (staticMeshInstanceRecord host) (staticMeshActorEvents host paths)
    (fun c => (materialEffects host paths c.GetMaterials).2) (staticMeshActorCalls paths)
    s.StaticMeshes (fun c hc st => exportStaticMeshActor_eq host paths st c (h.1 c hc))
  have hskel := foldlM_mapState (exportSkeletalMeshActor host paths)
    (skeletalMeshInstanceRecord host) (skeletalMeshActorEvents host paths)
    (fun c => (materialEffects host paths c.GetMaterials).2) (skeletalMeshActorCalls paths)
    s.SkeletalMeshes (fun c hc st => exportSkeletalMeshActor_eq host paths st c (h.2 c hc))
  simp only [writeMap, Scene.toWorld, sceneLayout, hcam, hdir, hpoint, hstatic, hskel,
    Option.bind_eq_bind, Option.some_bind, FArchive.int32, List.length_map, List.nil_append,
    List.append_assoc]

/-- The run of `ExportMap` on a well-formed scene, a path ending in ".map" and a
created writer. -/
theorem ExportMap_scene (host : Host) (paths : FPaths) (math : FMath) (s : Scene)
    (path : String) (CopyToPath : Bool) (CopyPath : String)
    (hext : EndsWith path MAP_BINARY_FILE_POSTFIX = true)
    (hwriter : host.CreateFileWriter path = true) (h : s.wellFormed) :
    ExportMap host paths math (some s.toWorld) path CopyToPath CopyPath =
      ⟨.returned true,
        [.CreateFileWriter path true] ++
          (s.StaticMeshes.flatMap (staticMeshActorEvents host paths) ++
            s.SkeletalMeshes.flatMap (skeletalMeshActorEvents host paths)) ++
          [.Serialize path (sceneLayout host math s), .Close path],
        (s.StaticMeshes.flatMap (fun c => (materialEffects host paths c.GetMaterials).2) ++
            s.SkeletalMeshes.flatMap (fun c => (materialEffects host paths c.GetMaterials).2)) ++
          (if CopyToPath then
            [.system (ReplaceSlashes ("xcopy " ++ (paths.ProjectSavedDir ++ ROOT_PATH) ++ " " ++
              CopyPath) ++ " /s/e/i/y")]
          else []),
        s.StaticMeshes.flatMap (staticMeshActorCalls paths) ++
          s.SkeletalMeshes.flatMap (skeletalMeshActorCalls paths)⟩ := by
  simp only [ExportMap, hext, hwriter, writeMap_scene host paths math s h, if_true,
    Bool.not_true, Bool.false_eq_true, if_false]

theorem EndsWith_append (a ext : String) :
    EndsWith (a ++ ext) ext = true := by
  simp only [EndsWith, String.data_append, List.map_append, List.isSuffixOf_iff_suffix]
  exact List.suffix_append _ _

theorem sampleStaticMeshComponent_wellFormed : sampleStaticMeshComponent.wellFormed :=
  ⟨⟨"/Game/Meshes/Triangle.Triangle", sampleStaticMesh⟩, rfl, rfl⟩

theorem twoSectionMesh_exportable : twoSectionMesh.exportable := by
  refine ⟨rfl, ⟨[twoSectionLOD]⟩, rfl, ?_⟩
  intro CurLOD rest h
  have h1 : twoSectionLOD = CurLOD := (List.cons.inj h).1
  subst h1
  exact ⟨sampleSection0, [sampleSection1], rfl, twoSectionLOD_inRange⟩

theorem sampleSkeletalMeshComponent_wellFormed : sampleSkeletalMeshComponent.wellFormed :=
  ⟨⟨"/Game/Hero/Hero.Hero", twoSectionMesh⟩, sampleAnimationAsset, rfl, rfl,
    twoSectionMesh_exportable⟩

theorem sampleScene_wellFormed : sampleScene.wellFormed := by
  constructor
  · intro c hc
    have h : c = sampleStaticMeshComponent := by
      simpa [sampleScene] using hc
    rw [h]
    exact sampleStaticMeshComponent_wellFormed
  · intro c hc
    have h : c = sampleSkeletalMeshComponent := by
      simpa [sampleScene] using hc
    rw [h]
    exact sampleSkeletalMeshComponent_wellFormed

theorem oneCameraScene_wellFormed : oneCameraScene.wellFormed := by
  constructor <;> intro c hc <;> simp [oneCameraScene] at hc

/-- C16: on a well-formed scene, a path ending in ".map" and a created writer,
the scene file `ExportMap` writes is five blocks in the order cameras,
directional lights, point lights, static-mesh instances, skinned-mesh
instances; each block is the int32 number of actors the query returned for
its category followed by one record per actor in query order. -/
theorem C16_scene_file_layout (host : Host) (paths : FPaths) (math : FMath) (s : Scene)
    (path : String) (CopyToPath : Bool) (CopyPath : String)
    (hext : EndsWith path MAP_BINARY_FILE_POSTFIX = true)
    (hwriter : host.CreateFileWriter path = true) (hwf : s.wellFormed) :
    (ExportMap host paths math (some s.toWorld) path CopyToPath CopyPath).events =
      [.CreateFileWriter path true] ++
        (s.StaticMeshes.flatMap (staticMeshActorEvents host paths) ++
          s.SkeletalMeshes.flatMap (skeletalMeshActorEvents host paths)) ++
        [.Serialize path
          (encInt32 s.toWorld.CameraActors.length ++
            s.Cameras.flatMap (cameraRecord host math) ++
           encInt32 s.toWorld.DirectionalLightActors.length ++
            s.DirectionalLights.flatMap (directionalLightRecord host math) ++
           encInt32 s.toWorld.PointLightActors.length ++
            s.PointLights.flatMap (pointLightRecord host math) ++
           encInt32 s.toWorld.StaticMeshActors.length ++
            s.StaticMeshes.flatMap (staticMeshInstanceRecord host) ++
           encInt32 s.toWorld.SkeletalMeshActors.length ++
            s.SkeletalMeshes.flatMap (skeletalMeshInstanceRecord host)),
         .Close path] ∧
    s.toWorld.CameraActors = s.Cameras.map some ∧
    s.toWorld.DirectionalLightActors = s.DirectionalLights.map some ∧
    s.toWorld.PointLightActors = s.PointLights.map some ∧
    s.toWorld.StaticMeshActors = s.StaticMeshes.map some ∧
    s.toWorld.SkeletalMeshActors = s.SkeletalMeshes.map some := by
  refine ⟨?_, rfl, rfl, rfl, rfl, rfl⟩
  rw [ExportMap_scene host paths math s path CopyToPath CopyPath hext hwriter hwf]
  simp only [sceneLayout, Scene.toWorld, List.length_map]

theorem C16_scene_file_layout_witness :
    EndsWith "Level.map" MAP_BINARY_FILE_POSTFIX = true ∧ sampleScene.wellFormed ∧
    (ExportMap sampleHost samplePaths ieeeMath (some sampleScene.toWorld) "Level.map" false
        "").events =
      [.CreateFileWriter "Level.map" true] ++
        (sampleScene.StaticMeshes.flatMap (staticMeshActorEvents sampleHost samplePaths) ++
          sampleScene.SkeletalMeshes.flatMap (skeletalMeshActorEvents sampleHost samplePaths)) ++
        [.Serialize "Level.map"
          (encInt32 sampleScene.toWorld.CameraActors.length ++
            sampleScene.Cameras.flatMap (cameraRecord sampleHost ieeeMath) ++
           encInt32 sampleScene.toWorld.DirectionalLightActors.length ++
            sampleScene.DirectionalLights.flatMap (directionalLightRecord sampleHost ieeeMath) ++
           encInt32 sampleScene.toWorld.PointLightActors.length ++
            sampleScene.PointLights.flatMap (pointLightRecord sampleHost ieeeMath) ++
           encInt32 sampleScene.toWorld.StaticMeshActors.length ++
            sampleScene.StaticMeshes.flatMap (staticMeshInstanceRecord sampleHost) ++
           encInt32 sampleScene.toWorld.SkeletalMeshActors.length ++
            sampleScene.SkeletalMeshes.flatMap (skeletalMeshInstanceRecord sampleHost)),
         .Close "Level.map"] :=
  ⟨by decide, sampleScene_wellFormed,
    (C16_scene_file_layout sampleHost samplePaths ieeeMath sampleScene "Level.map" false ""
      (by decide) rfl sampleScene_wellFormed).1⟩

set_option maxRecDepth 100000 in
theorem oneCameraScene_layout :
    sceneLayout ieeeHost ieeeMath oneCameraScene =
      [1, 0, 0, 0,
       0, 0, 0, 0, 0, 0, 0, 0, 0, 0, 200, 66,
       0, 0, 200, 66, 0, 0, 0, 0, 0, 0, 200, 66,
       0, 0, 180, 66,
       188, 116, 227, 63,
       0, 0, 0, 0, 0, 0, 0, 0, 0, 0, 0, 0, 0, 0, 0, 0] := by
  decide

/-- C17: in the scene file every camera record is location, target, field of
view, aspect ratio, the target being the location plus the forward vector
times the float 100; for the scene of one camera at (0, 0, 100) with identity
rotation, field of view 90 and aspect ratio 1.777, under IEEE-754 arithmetic,
the file is camera count 1, location (0, 0, 100), target (100, 0, 100), 90,
1.777 and four counts 0, 52 bytes in all. -/
theorem C17_camera_scene (host : Host) (paths : FPaths) (math : FMath) (s : Scene)
    (path : String) (CopyToPath : Bool) (CopyPath : String)
    (hext : EndsWith path MAP_BINARY_FILE_POSTFIX = true)
    (hwriter : host.CreateFileWriter path = true) (hwf : s.wellFormed) :
    (∃ nested rest,
      (ExportMap host paths math (some s.toWorld) path CopyToPath CopyPath).events =
        [.CreateFileWriter path true] ++ nested ++
          [.Serialize path
            (encInt32 s.Cameras.length ++
              s.Cameras.flatMap (fun c =>
                encVector3f (host.toVector3f c.GetComponentToWorld.GetTranslation) ++
                encVector3f (math.VectorAdd (host.toVector3f c.GetComponentToWorld.GetTranslation)
                  (math.VectorScale (math.QuatVector (host.toQuat4f c.GetComponentToWorld.GetRotation))
                    (F32.ofBits 0x42C80000))) ++
                encFloat c.FieldOfView ++ encFloat c.AspectRatio) ++
              rest),
           .Close path]) ∧
    (F32.ofBits 0x42C80000).toRat? = some 100 ∧
    (F32.ofBits 0x42B40000).toRat? = some 90 ∧
    (ExportMap ieeeHost samplePaths ieeeMath (some oneCameraScene.toWorld) "Level.map" false
        "").events =
      [.CreateFileWriter "Level.map" true,
       .Serialize "Level.map"
         (encInt32 1 ++
          (encFloat F32.zero ++ encFloat F32.zero ++ encFloat (F32.ofBits 0x42C80000)) ++
          (encFloat (F32.ofBits 0x42C80000) ++ encFloat F32.zero ++
            encFloat (F32.ofBits 0x42C80000)) ++
          encFloat (F32.ofBits 0x42B40000) ++ encFloat (F32.divNat 1777 1000) ++
          encInt32 0 ++ encInt32 0 ++ encInt32 0 ++ encInt32 0),
       .Close "Level.map"] ∧
    (encInt32 1 ++
      (encFloat F32.zero ++ encFloat F32.zero ++ encFloat (F32.ofBits 0x42C80000)) ++
      (encFloat (F32.ofBits 0x42C80000) ++ encFloat F32.zero ++
        encFloat (F32.ofBits 0x42C80000)) ++
      encFloat (F32.ofBits 0x42B40000) ++ encFloat (F32.divNat 1777 1000) ++
      encInt32 0 ++ encInt32 0 ++ encInt32 0 ++ encInt32 0).length = 52 := by
  refine ⟨⟨s.StaticMeshes.flatMap (staticMeshActorEvents host paths) ++
      s.SkeletalMeshes.flatMap (skeletalMeshActorEvents host paths),
    encInt32 s.DirectionalLights.length ++
      (s.DirectionalLights.flatMap (directionalLightRecord host math) ++
      (encInt32 s.PointLights.length ++ (s.PointLights.flatMap (pointLightRecord host math) ++
      (encInt32 s.StaticMeshes.length ++
      (s.StaticMeshes.flatMap (staticMeshInstanceRecord host) ++
      (encInt32 s.SkeletalMeshes.length ++
      s.SkeletalMeshes.flatMap (skeletalMeshInstanceRecord host))))))), ?_⟩,
    ?_, ?_, ?_, by decide⟩
  · rw [ExportMap_scene host paths math s path CopyToPath CopyPath hext hwriter hwf]
    have e : cameraRecord host math = fun c =>
        encVector3f (host.toVector3f c.GetComponentToWorld.GetTranslation) ++
        encVector3f (math.VectorAdd (host.toVector3f c.GetComponentToWorld.GetTranslation)
          (math.VectorScale (math.QuatVector (host.toQuat4f c.GetComponentToWorld.GetRotation))
            (F32.ofBits 0x42C80000))) ++
        encFloat c.FieldOfView ++ encFloat c.AspectRatio := rfl
    simp only [sceneLayout, e, List.append_assoc]
  · norm_num [F32.toRat?, F32.ofBits]
  · norm_num [F32.toRat?, F32.ofBits]
  · rw [ExportMap_scene ieeeHost samplePaths ieeeMath oneCameraScene "Level.map" false ""
      (by decide) rfl oneCameraScene_wellFormed, oneCameraScene_layout]
    decide

theorem C17_camera_scene_witness :
    EndsWith "Level.map" MAP_BINARY_FILE_POSTFIX = true ∧ sampleScene.wellFormed ∧
    ∃ nested rest,
      (ExportMap sampleHost samplePaths ieeeMath (some sampleScene.toWorld) "Level.map" false
        "").events =
        [.CreateFileWriter "Level.map" true] ++ nested ++
          [.Serialize "Level.map"
            (encInt32 sampleScene.Cameras.length ++
              sampleScene.Cameras.flatMap (fun c =>
                encVector3f (sampleHost.toVector3f c.GetComponentToWorld.GetTranslation) ++
                encVector3f (ieeeMath.VectorAdd
                  (sampleHost.toVector3f c.GetComponentToWorld.GetTranslation)
                  (ieeeMath.VectorScale
                    (ieeeMath.QuatVector (sampleHost.toQuat4f c.GetComponentToWorld.GetRotation))
                    (F32.ofBits 0x42C80000))) ++
                encFloat c.FieldOfView ++ encFloat c.AspectRatio) ++
              rest),
           .Close "Level.map"] :=
  ⟨by decide, sampleScene_wellFormed,
    (C17_camera_scene sampleHost samplePaths ieeeMath sampleScene "Level.map" false ""
      (by decide) rfl sampleScene_wellFormed).1⟩

theorem count_flatMap_const {α β : Type} [DecidableEq β] (a : β) (f : α → List β) (k : Nat)
    (xs : List α) (h : ∀ x ∈ xs, (f x).count a = k) :
    (xs.flatMap f).count a = xs.length * k := by
  induction xs with
  | nil => simp
  | cons x xs ih =>
    rw [List.flatMap_cons, List.count_append, h x (List.mem_cons_self _ _),
      ih (fun y hy => h y (List.mem_cons_of_mem _ hy)), List.length_cons, Nat.succ_mul,
      Nat.add_comm]

theorem count_materialCalls (paths : FPaths) (slots : List (Option UMaterialInterface))
    (target : String) : (materialCalls paths slots).count (.ExportStaticMesh target) = 0 := by
  apply List.count_eq_zero_of_not_mem
  simp [materialCalls]

theorem count_staticMeshActorCalls (paths : FPaths) (c : UStaticMeshComponent)
    (Mesh : UObjectHandle UStaticMesh) (h : c.GetStaticMesh = some Mesh) :
    (staticMeshActorCalls paths c).count
      (.ExportStaticMesh (outputPath paths STATICMESH_PATH Mesh.GetPathName
        STATIC_MESH_BINARY_FILE_POSTFIX)) = 1 := by
  simp [staticMeshActorCalls, h, count_materialCalls]

theorem count_skeletalMeshActorCalls (paths : FPaths) (c : USkeletalMeshComponent)
    (target : String) : (skeletalMeshActorCalls paths c).count (.ExportStaticMesh target) = 0 := by
  apply List.count_eq_zero_of_not_mem
  unfold skeletalMeshActorCalls
  split
  · split <;> simp [materialCalls]
  · simp

/-- C18: `ExportMap` returns false exactly when the world context is not valid,
or the path does not end with ".map", or the writer is not created, and then
no per-asset export has been called and nothing was written; when it returns
true these three conditions hold; and on a well-formed scene that meets them
it returns true, although the skeleton export it calls returns false on
every input. -/
theorem C18_ExportMap_result (host : Host) (paths : FPaths) (math : FMath)
    (WorldContextObject : Option UWorld) (path : String) (CopyToPath : Bool)
    (CopyPath : String) :
    ((ExportMap host paths math WorldContextObject path CopyToPath CopyPath).outcome =
        .returned true →
      WorldContextObject.isSome = true ∧ EndsWith path MAP_BINARY_FILE_POSTFIX = true ∧
        host.CreateFileWriter path = true) ∧
    ((ExportMap host paths math WorldContextObject path CopyToPath CopyPath).outcome =
        .returned false ↔
      (WorldContextObject = none ∨ EndsWith path MAP_BINARY_FILE_POSTFIX = false ∨
        host.CreateFileWriter path = false)) ∧
    ((ExportMap host paths math WorldContextObject path CopyToPath CopyPath).outcome =
        .returned false →
      (ExportMap host paths math WorldContextObject path CopyToPath CopyPath).calls = [] ∧
      (ExportMap host paths math WorldContextObject path CopyToPath CopyPath).external = [] ∧
      ((ExportMap host paths math WorldContextObject path CopyToPath CopyPath).events = [] ∨
       (ExportMap host paths math WorldContextObject path CopyToPath CopyPath).events =
         [.CreateFileWriter path false])) ∧
    (∀ s : Scene, s.wellFormed → WorldContextObject = some s.toWorld →
      EndsWith path MAP_BINARY_FILE_POSTFIX = true → host.CreateFileWriter path = true →
      (ExportMap host paths math WorldContextObject path CopyToPath CopyPath).outcome =
        .returned true) ∧
    (∀ (Skeleton : Option USkeleton) (skeletonPath : String),
      (ExportSkeleton host Skeleton skeletonPath).outcome = .returned false) := by
  refine ⟨?_, ?_, ?_, ?_, ?_⟩
  · intro h
    unfold ExportMap at h
    cases WorldContextObject with
    | none => simp at h
    | some World =>
      cases hext : EndsWith path MAP_BINARY_FILE_POSTFIX
      · simp [hext] at h
      · cases hw : host.CreateFileWriter path
        · simp [hext, hw] at h
        · simp
  · unfold ExportMap
    cases WorldContextObject with
    | none => simp
    | some World =>
      cases hext : EndsWith path MAP_BINARY_FILE_POSTFIX
      · simp
      · cases hw : host.CreateFileWriter path
        · simp
        · cases hm : writeMap host paths math World <;> simp [hext, hw, hm]
  · intro h
    unfold ExportMap at h ⊢
    cases WorldContextObject with
    | none => simp
    | some World =>
      cases hext : EndsWith path MAP_BINARY_FILE_POSTFIX
      · simp
      · cases hw : host.CreateFileWriter path
        · simp
        · cases hm : writeMap host paths math World <;> simp [hext, hw, hm] at h
  · intro s hwf hW hext hw
    rw [hW, ExportMap_scene host paths math s path CopyToPath CopyPath hext hw hwf]
  · intro Skeleton skeletonPath
    unfold ExportSkeleton
    cases Skeleton <;> simp only [] <;> split_ifs <;> rfl

theorem C18_ExportMap_result_witness :
    sampleScene.wellFormed ∧ EndsWith "Level.map" MAP_BINARY_FILE_POSTFIX = true ∧
    (ExportMap sampleHost samplePaths ieeeMath (some sampleScene.toWorld) "Level.map" false
      "").outcome = .returned true ∧
    (ExportMap sampleHost samplePaths ieeeMath (some sampleScene.toWorld) "Level.txt" false
      "").outcome = .returned false :=
  ⟨sampleScene_wellFormed, by decide,
    (C18_ExportMap_result sampleHost samplePaths ieeeMath (some sampleScene.toWorld) "Level.map"
      false "").2.2.2.1 sampleScene sampleScene_wellFormed rfl (by decide) rfl,
    (C18_ExportMap_result sampleHost samplePaths ieeeMath (some sampleScene.toWorld) "Level.txt"
      false "").2.1.mpr (Or.inr (Or.inl (by decide)))⟩

/-- C19: on a well-formed scene `ExportMap` calls, per static-mesh instance in
query order, the static-mesh export and then the material export once per
valid material instance of the instance, and per skinned-mesh instance in
query order the skeletal-mesh export, the material exports, the skeleton
export and the animation export; nothing is remembered between instances, so
when all n static-mesh instances refer to the same mesh path the static-mesh
export is called n times with the same output path. -/
theorem C19_no_memoization (host : Host) (paths : FPaths) (math : FMath) (s : Scene)
    (path : String) (CopyToPath : Bool) (CopyPath : String)
    (hext : EndsWith path MAP_BINARY_FILE_POSTFIX = true)
    (hwriter : host.CreateFileWriter path = true) (hwf : s.wellFormed) :
    (ExportMap host paths math (some s.toWorld) path CopyToPath CopyPath).calls =
      s.StaticMeshes.flatMap (staticMeshActorCalls paths) ++
        s.SkeletalMeshes.flatMap (skeletalMeshActorCalls paths) ∧
    (∀ (c : UStaticMeshComponent) (Mesh : UObjectHandle UStaticMesh),
      c.GetStaticMesh = some Mesh →
      staticMeshActorCalls paths c =
        .ExportStaticMesh (paths.ProjectSavedDir ++ STATICMESH_PATH ++
            canonicalName Mesh.GetPathName ++ STATIC_MESH_BINARY_FILE_POSTFIX) ::
          (validMaterialInstances c.GetMaterials).map (fun i =>
            .ExportMaterialInstance (paths.ProjectSavedDir ++ MATERIAL_PATH ++
              canonicalName i.GetPathName ++ MATERIAL_BINARY_FILE_POSTFIX))) ∧
    (∀ (c : USkeletalMeshComponent) (Mesh : UObjectHandle USkeletalMesh)
        (Anim : UAnimationAsset) (Skeleton : USkeleton),
      c.GetSkeletalMeshAsset = some Mesh → c.AnimToPlay = some Anim →
      Mesh.Object.GetSkeleton = some Skeleton →
      skeletalMeshActorCalls paths c =
        .ExportSkeletalMesh (paths.ProjectSavedDir ++ SKELETALMESH_PATH ++
            canonicalName Mesh.GetPathName ++ SKELETAL_MESH_BINARY_FILE_POSTFIX) ::
          (validMaterialInstances c.GetMaterials).map (fun i =>
            .ExportMaterialInstance (paths.ProjectSavedDir ++ MATERIAL_PATH ++
              canonicalName i.GetPathName ++ MATERIAL_BINARY_FILE_POSTFIX)) ++
          [.ExportSkeleton (paths.ProjectSavedDir ++ SKELETON_PATH ++
              canonicalName Skeleton.GetPathName ++ SKELETON_BINARY_FILE_POSTFIX),
           .ExportAnimSequence (paths.ProjectSavedDir ++ ANIMATION_PATH ++
              canonicalName Anim.GetPathName ++ ANIMSEQUENCE_BINARY_FILE_POSTFIX)]) ∧
    (∀ meshPath : String,
      (∀ c ∈ s.StaticMeshes, ∃ Mesh, c.GetStaticMesh = some Mesh ∧
        Mesh.GetPathName = meshPath) →
      (ExportMap host paths math (some s.toWorld) path CopyToPath CopyPath).calls.count
        (.ExportStaticMesh (paths.ProjectSavedDir ++ STATICMESH_PATH ++
          canonicalName meshPath ++ STATIC_MESH_BINARY_FILE_POSTFIX)) =
        s.StaticMeshes.length) := by
  have hcalls : (ExportMap host paths math (some s.toWorld) path CopyToPath CopyPath).calls =
      s.StaticMeshes.flatMap (staticMeshActorCalls paths) ++
        s.SkeletalMeshes.flatMap (skeletalMeshActorCalls paths) := by
    rw [ExportMap_scene host paths math s path CopyToPath CopyPath hext hwriter hwf]
  refine ⟨hcalls, ?_, ?_, ?_⟩
  · intro c Mesh h
    simp [staticMeshActorCalls, h, materialCalls, outputPath]
  · intro c Mesh Anim Skeleton h1 h2 h3
    simp [skeletalMeshActorCalls, h1, h2, h3, materialCalls, outputPath]
  · intro meshPath hall
    rw [hcalls, List.count_append,
      count_flatMap_const _ (staticMeshActorCalls paths) 1 s.StaticMeshes,
      count_flatMap_const _ (skeletalMeshActorCalls paths) 0 s.SkeletalMeshes]
    · simp
    · intro c _
      exact count_skeletalMeshActorCalls paths c _
    · intro c hc
      obtain ⟨Mesh, hMesh, hpath⟩ := hall c hc
      have := count_staticMeshActorCalls paths c Mesh hMesh
      rw [hpath] at this
      exact this

theorem C19_no_memoization_witness :
    EndsWith "Level.map" MAP_BINARY_FILE_POSTFIX = true ∧ sampleScene.wellFormed ∧
    sampleScene.StaticMeshes.length = 2 ∧
    (ExportMap sampleHost samplePaths ieeeMath (some sampleScene.toWorld) "Level.map" false
      "").calls.count
        (.ExportStaticMesh (samplePaths.ProjectSavedDir ++ STATICMESH_PATH ++
          canonicalName "/Game/Meshes/Triangle.Triangle" ++ STATIC_MESH_BINARY_FILE_POSTFIX)) =
      sampleScene.StaticMeshes.length :=
  ⟨by decide, sampleScene_wellFormed, rfl,
    (C19_no_memoization sampleHost samplePaths ieeeMath sampleScene "Level.map" false ""
      (by decide) rfl sampleScene_wellFormed).2.2.2 "/Game/Meshes/Triangle.Triangle"
      (fun c hc => by
        have h : c = sampleStaticMeshComponent := by
          simpa [sampleScene] using hc
        rw [h]
        exact ⟨_, rfl, rfl⟩)⟩

/-- C11: for a skinned-mesh instance of a well-formed scene whose mesh file is
written, the string `ExportSkeletalMesh` writes after the section list of the
mesh file and the base file name of the ".skt" file `ExportMap` exports for
the instance are the same string: the resolved part of the path name of the
skeleton of the mesh. -/
theorem C11_skeleton_cross_reference (host : Host) (paths : FPaths) (math : FMath) (s : Scene)
    (path : String) (CopyToPath : Bool) (CopyPath : String) (c : USkeletalMeshComponent)
    (Mesh : UObjectHandle USkeletalMesh) (Anim : UAnimationAsset) (Skeleton : USkeleton)
    (RenderData : FSkeletalMeshRenderData) (CurLOD : FSkeletalMeshLODRenderData)
    (rest : List FSkeletalMeshLODRenderData) (Section0 : FSkelMeshRenderSection)
    (others : List FSkelMeshRenderSection)
    (hext : EndsWith path MAP_BINARY_FILE_POSTFIX = true)
    (hwriter : host.CreateFileWriter path = true) (hwf : s.wellFormed)
    (hc : c ∈ s.SkeletalMeshes)
    (hmesh : c.GetSkeletalMeshAsset = some Mesh) (hanim : c.AnimToPlay = some Anim)
    (hskel : Mesh.Object.GetSkeleton = some Skeleton)
    (hdata : Mesh.Object.GetResourceForRendering = some RenderData)
    (hlod : RenderData.LODRenderData = CurLOD :: rest)
    (hsec : CurLOD.RenderSections = Section0 :: others)
    (hrange : skinIndicesInRange CurLOD Section0.BoneMap)
    (hvalid : host.IsFilenameValidForSaving (paths.ProjectSavedDir ++ SKELETALMESH_PATH ++
      canonicalName Mesh.GetPathName ++ SKELETAL_MESH_BINARY_FILE_POSTFIX) = true)
    (hmeshWriter : host.CreateFileWriter (paths.ProjectSavedDir ++ SKELETALMESH_PATH ++
      canonicalName Mesh.GetPathName ++ SKELETAL_MESH_BINARY_FILE_POSTFIX) = true) :
    ∃ SkeletonName : String,
      SkeletonName = (Split Skeleton.GetPathName).2 ∧
      ExportCall.ExportSkeleton (paths.ProjectSavedDir ++ SKELETON_PATH ++ SkeletonName ++
          SKELETON_BINARY_FILE_POSTFIX) ∈
        (ExportMap host paths math (some s.toWorld) path CopyToPath CopyPath).calls ∧
      FileEvent.Serialize (paths.ProjectSavedDir ++ SKELETALMESH_PATH ++
          canonicalName Mesh.GetPathName ++ SKELETAL_MESH_BINARY_FILE_POSTFIX)
          (encInt32 CurLOD.StaticVertexBuffers.PositionVertexBuffer.GetNumVertices ++
            (List.range CurLOD.StaticVertexBuffers.PositionVertexBuffer.GetNumVertices).flatMap
              (fun i => skinnedVertexRecord CurLOD.StaticVertexBuffers Section0.BoneMap
                (CurLOD.SkinWeights.getD i default) i) ++
            encInt32 CurLOD.Indices.length ++
            CurLOD.Indices.flatMap encUInt32 ++
            encInt32 CurLOD.RenderSections.length ++
            CurLOD.RenderSections.flatMap skelSectionRecord ++
            encFString SkeletonName) ∈
        (ExportMap host paths math (some s.toWorld) path CopyToPath CopyPath).events := by
  refine ⟨(Split Skeleton.GetPathName).2, rfl, ?_, ?_⟩
  · rw [ExportMap_scene host paths math s path CopyToPath CopyPath hext hwriter hwf]
    refine List.mem_append_right _ (List.mem_flatMap.mpr ⟨c, hc, ?_⟩)
    simp [skeletalMeshActorCalls, hmesh, hanim, hskel, outputPath, canonicalName]
  · rw [ExportMap_scene host paths math s path CopyToPath CopyPath hext hwriter hwf]
    refine List.mem_append_left _ (List.mem_append_right _
      (List.mem_append_right _ (List.mem_flatMap.mpr ⟨c, hc, ?_⟩)))
    have hrun := ExportSkeletalMesh_binary host Mesh.Object RenderData CurLOD rest Section0
      others Skeleton (paths.ProjectSavedDir ++ SKELETALMESH_PATH ++
        canonicalName Mesh.GetPathName ++ SKELETAL_MESH_BINARY_FILE_POSTFIX)
      hvalid (EndsWith_append _ _) hmeshWriter hdata hlod hsec hrange hskel
    simp only [skeletalMeshActorEvents, hmesh, hanim, hskel, outputPath, hrun, skeletalMeshLayout]
    simp

theorem C11_skeleton_cross_reference_witness :
    EndsWith "Level.map" MAP_BINARY_FILE_POSTFIX = true ∧ sampleScene.wellFormed ∧
    sampleSkeletalMeshComponent ∈ sampleScene.SkeletalMeshes ∧
    skinIndicesInRange twoSectionLOD sampleSection0.BoneMap ∧
    ∃ SkeletonName : String,
      SkeletonName = (Split sampleSkeleton.GetPathName).2 ∧
      ExportCall.ExportSkeleton (samplePaths.ProjectSavedDir ++ SKELETON_PATH ++ SkeletonName ++
          SKELETON_BINARY_FILE_POSTFIX) ∈
        (ExportMap sampleHost samplePaths ieeeMath (some sampleScene.toWorld) "Level.map" false
          "").calls ∧
      FileEvent.Serialize (samplePaths.ProjectSavedDir ++ SKELETALMESH_PATH ++
          canonicalName "/Game/Hero/Hero.Hero" ++ SKELETAL_MESH_BINARY_FILE_POSTFIX)
          (encInt32 twoSectionLOD.StaticVertexBuffers.PositionVertexBuffer.GetNumVertices ++
            (List.range
                twoSectionLOD.StaticVertexBuffers.PositionVertexBuffer.GetNumVertices).flatMap
              (fun i => skinnedVertexRecord twoSectionLOD.StaticVertexBuffers
                sampleSection0.BoneMap (twoSectionLOD.SkinWeights.getD i default) i) ++
            encInt32 twoSectionLOD.Indices.length ++
            twoSectionLOD.Indices.flatMap encUInt32 ++
            encInt32 twoSectionLOD.RenderSections.length ++
            twoSectionLOD.RenderSections.flatMap skelSectionRecord ++
            encFString SkeletonName) ∈
        (ExportMap sampleHost samplePaths ieeeMath (some sampleScene.toWorld) "Level.map" false
          "").events :=
  ⟨by decide, sampleScene_wellFormed, List.mem_singleton.mpr rfl, twoSectionLOD_inRange,
    C11_skeleton_cross_reference sampleHost samplePaths ieeeMath sampleScene "Level.map" false ""
      sampleSkeletalMeshComponent ⟨"/Game/Hero/Hero.Hero", twoSectionMesh⟩ sampleAnimationAsset
      sampleSkeleton ⟨[twoSectionLOD]⟩ twoSectionLOD [] sampleSection0 [sampleSection1]
      (by decide) rfl sampleScene_wellFormed (List.mem_singleton.mpr rfl) rfl rfl rfl rfl rfl rfl
      twoSectionLOD_inRange rfl rfl⟩

/-! ## Uniqueness of resolved names (C21) -/

theorem String_append_left_cancel (a x y : String) (h : a ++ x = a ++ y) : x = y := by
  have hd := congrArg String.data h
  simp only [String.data_append] at hd
  exact String.ext (List.append_cancel_left hd)

theorem String_append_right_cancel (x y e : String) (h : x ++ e = y ++ e) : x = y := by
  have hd := congrArg String.data h
  simp only [String.data_append] at hd
  exact String.ext (List.append_cancel_right hd)

theorem outputPath_injective (paths : FPaths) (subdirectory extension p q : String)
    (h : outputPath paths subdirectory p extension = outputPath paths subdirectory q extension) :
    canonicalName p = canonicalName q := by
  unfold outputPath at h
  exact String_append_left_cancel _ _ _ (String_append_right_cancel _ _ _ h)

/-- C21 fails as stated: two assets with the distinct content paths
"/Game/Props/Crate.Crate" and "/Game/Ruins/Crate.Crate" resolve to the same
canonical name "Crate" and so to the same static-mesh output path. -/
theorem C21_distinct_paths_same_name :
    "/Game/Props/Crate.Crate" ≠ "/Game/Ruins/Crate.Crate" ∧
    canonicalName "/Game/Props/Crate.Crate" = "Crate" ∧
    canonicalName "/Game/Ruins/Crate.Crate" = "Crate" ∧
    outputPath samplePaths STATICMESH_PATH "/Game/Props/Crate.Crate"
        STATIC_MESH_BINARY_FILE_POSTFIX =
      outputPath samplePaths STATICMESH_PATH "/Game/Ruins/Crate.Crate"
        STATIC_MESH_BINARY_FILE_POSTFIX ∧
    ¬ ∀ p q : String, p ≠ q → canonicalName p ≠ canonicalName q := by
  refine ⟨by decide, by decide, by decide, by decide, ?_⟩
  intro h
  exact h "/Game/Props/Crate.Crate" "/Game/Ruins/Crate.Crate" (by decide) (by decide)

/-- C21 amended: for content paths `P1 ++ "." ++ N1` and `P2 ++ "." ++ N2`
whose prefixes hold no ".", the canonical names are equal exactly when the
object names `N1` and `N2` are equal, whatever the prefixes; and assets with
distinct canonical names get distinct output paths within one asset kind. -/
theorem C21_names_distinct_iff_object_names_distinct (P1 N1 P2 N2 : String)
    (hP1 : ∀ c ∈ P1.data, c ≠ '.') (hP2 : ∀ c ∈ P2.data, c ≠ '.') :
    (canonicalName (P1 ++ "." ++ N1) = canonicalName (P2 ++ "." ++ N2) ↔ N1 = N2) ∧
    (∀ (paths : FPaths) (subdirectory extension : String),
      N1 ≠ N2 →
      outputPath paths subdirectory (P1 ++ "." ++ N1) extension ≠
        outputPath paths subdirectory (P2 ++ "." ++ N2) extension) ∧
    (∀ (paths : FPaths) (subdirectory extension p q : String),
      canonicalName p ≠ canonicalName q →
      outputPath paths subdirectory p extension ≠ outputPath paths subdirectory q extension) := by
  have e1 : canonicalName (P1 ++ "." ++ N1) = N1 := by
    rw [canonicalName, Split_at_first_dot P1 N1 hP1]
  have e2 : canonicalName (P2 ++ "." ++ N2) = N2 := by
    rw [canonicalName, Split_at_first_dot P2 N2 hP2]
  refine ⟨by rw [e1, e2], ?_, ?_⟩
  · intro paths subdirectory extension hne h
    have := outputPath_injective paths subdirectory extension _ _ h
    rw [e1, e2] at this
    exact hne this
  · intro paths subdirectory extension p q hne h
    exact hne (outputPath_injective paths subdirectory extension p q h)

theorem C21_names_distinct_iff_object_names_distinct_witness :
    (∀ c ∈ "/Game/Props/Crate".data, c ≠ '.') ∧ (∀ c ∈ "/Game/Ruins/Barrel".data, c ≠ '.') ∧
    "Crate" ≠ "Barrel" ∧
    outputPath samplePaths STATICMESH_PATH ("/Game/Props/Crate" ++ "." ++ "Crate")
        STATIC_MESH_BINARY_FILE_POSTFIX ≠
      outputPath samplePaths STATICMESH_PATH ("/Game/Ruins/Barrel" ++ "." ++ "Barrel")
        STATIC_MESH_BINARY_FILE_POSTFIX :=
  ⟨by decide, by decide, by decide,
    (C21_names_distinct_iff_object_names_distinct "/Game/Props/Crate" "Crate"
      "/Game/Ruins/Barrel" "Barrel" (by decide) (by decide)).2.1 samplePaths STATICMESH_PATH
      STATIC_MESH_BINARY_FILE_POSTFIX (by decide)⟩

/-! ## Dependency paths (C29) -/

theorem materialCalls_selectsBinary (paths : FPaths) (slots : List (Option UMaterialInterface))
    (call : ExportCall) (h : call ∈ materialCalls paths slots) : call.selectsBinary = true := by
  obtain ⟨i, _, rfl⟩ := List.mem_map.mp h
  simp only [ExportCall.selectsBinary, outputPath, EndsWith_append,
    not_json_of_mtl _ (EndsWith_append _ _), Bool.not_false, Bool.and_self]

theorem staticMeshActorCalls_selectsBinary (paths : FPaths) (c : UStaticMeshComponent)
    (call : ExportCall) (h : call ∈ staticMeshActorCalls paths c) :
    call.selectsBinary = true := by
  unfold staticMeshActorCalls at h
  cases hm : c.GetStaticMesh with
  | none => simp [hm] at h
  | some Mesh =>
    simp only [hm, List.mem_cons] at h
    rcases h with rfl | h
    · simp only [ExportCall.selectsBinary, outputPath, EndsWith_append,
        not_json_of_stm _ (EndsWith_append _ _), Bool.not_false, Bool.and_self]
    · exact materialCalls_selectsBinary paths _ call h

theorem skeletalMeshActorCalls_selectsBinary (paths : FPaths) (c : USkeletalMeshComponent)
    (call : ExportCall) (h : call ∈ skeletalMeshActorCalls paths c) :
    call.selectsBinary = true := by
  unfold skeletalMeshActorCalls at h
  cases hm : c.GetSkeletalMeshAsset with
  | none => simp [hm] at h
  | some Mesh =>
    cases ha : c.AnimToPlay with
    | none => simp [hm, ha] at h
    | some Anim =>
      cases hs : Mesh.Object.GetSkeleton with
      | none => simp [hm, ha, hs] at h
      | some Skeleton =>
        simp only [hm, ha, hs, List.mem_cons, List.mem_append, List.mem_singleton,
          List.not_mem_nil, or_false] at h
        rcases h with (rfl | h) | rfl | rfl
        · simp only [ExportCall.selectsBinary, outputPath, EndsWith_append,
            not_json_of_skm _ (EndsWith_append _ _), Bool.not_false, Bool.and_self]
        · exact materialCalls_selectsBinary paths _ call h
        · simp only [ExportCall.selectsBinary, outputPath, EndsWith_append,
            not_json_of_skt _ (EndsWith_append _ _), Bool.not_false, Bool.and_self]
        · simp only [ExportCall.selectsBinary, outputPath, EndsWith_append,
            not_json_of_anm _ (EndsWith_append _ _), Bool.not_false, Bool.and_self]

/-- C29: whatever the saved directory and the canonical name, the empty one
included, the path `ExportMap` builds for a static mesh ends with ".stm", for a
skeletal mesh with ".skm", for a skeleton with ".skt", for an animation with
".anm" and for a material with ".mtl", and none of them ends with ".json"; so
every nested export call of a scene export is passed a path that selects the
binary branch of the function called. -/
theorem C29_dependency_paths_select_binary (host : Host) (paths : FPaths) (math : FMath)
    (s : Scene) (path : String) (CopyToPath : Bool) (CopyPath : String)
    (hext : EndsWith path MAP_BINARY_FILE_POSTFIX = true)
    (hwriter : host.CreateFileWriter path = true) (hwf : s.wellFormed) :
    (∀ name : String,
      (EndsWith (paths.ProjectSavedDir ++ STATICMESH_PATH ++ name ++
          STATIC_MESH_BINARY_FILE_POSTFIX) STATIC_MESH_BINARY_FILE_POSTFIX = true ∧
        EndsWith (paths.ProjectSavedDir ++ STATICMESH_PATH ++ name ++
          STATIC_MESH_BINARY_FILE_POSTFIX) JSON_FILE_POSTFIX = false) ∧
      (EndsWith (paths.ProjectSavedDir ++ SKELETALMESH_PATH ++ name ++
          SKELETAL_MESH_BINARY_FILE_POSTFIX) SKELETAL_MESH_BINARY_FILE_POSTFIX = true ∧
        EndsWith (paths.ProjectSavedDir ++ SKELETALMESH_PATH ++ name ++
          SKELETAL_MESH_BINARY_FILE_POSTFIX) JSON_FILE_POSTFIX = false) ∧
      (EndsWith (paths.ProjectSavedDir ++ SKELETON_PATH ++ name ++
          SKELETON_BINARY_FILE_POSTFIX) SKELETON_BINARY_FILE_POSTFIX = true ∧
        EndsWith (paths.ProjectSavedDir ++ SKELETON_PATH ++ name ++
          SKELETON_BINARY_FILE_POSTFIX) JSON_FILE_POSTFIX = false) ∧
      (EndsWith (paths.ProjectSavedDir ++ ANIMATION_PATH ++ name ++
          ANIMSEQUENCE_BINARY_FILE_POSTFIX) ANIMSEQUENCE_BINARY_FILE_POSTFIX = true ∧
        EndsWith (paths.ProjectSavedDir ++ ANIMATION_PATH ++ name ++
          ANIMSEQUENCE_BINARY_FILE_POSTFIX) JSON_FILE_POSTFIX = false) ∧
      (EndsWith (paths.ProjectSavedDir ++ MATERIAL_PATH ++ name ++
          MATERIAL_BINARY_FILE_POSTFIX) MATERIAL_BINARY_FILE_POSTFIX = true ∧
        EndsWith (paths.ProjectSavedDir ++ MATERIAL_PATH ++ name ++
          MATERIAL_BINARY_FILE_POSTFIX) JSON_FILE_POSTFIX = false)) ∧
    (∀ call ∈ (ExportMap host paths math (some s.toWorld) path CopyToPath CopyPath).calls,
      call.selectsBinary = true) := by
  constructor
  · intro name
    exact ⟨⟨EndsWith_append _ _, not_json_of_stm _ (EndsWith_append _ _)⟩,
      ⟨EndsWith_append _ _, not_json_of_skm _ (EndsWith_append _ _)⟩,
      ⟨EndsWith_append _ _, not_json_of_skt _ (EndsWith_append _ _)⟩,
      ⟨EndsWith_append _ _, not_json_of_anm _ (EndsWith_append _ _)⟩,
      ⟨EndsWith_append _ _, not_json_of_mtl _ (EndsWith_append _ _)⟩⟩
  · intro call hcall
    rw [ExportMap_scene host paths math s path CopyToPath CopyPath hext hwriter hwf] at hcall
    rcases List.mem_append.mp hcall with h | h
    · obtain ⟨c, _, hc⟩ := List.mem_flatMap.mp h
      exact staticMeshActorCalls_selectsBinary paths c call hc
    · obtain ⟨c, _, hc⟩ := List.mem_flatMap.mp h
      exact skeletalMeshActorCalls_selectsBinary paths c call hc

theorem C29_dependency_paths_select_binary_witness :
    EndsWith "Level.map" MAP_BINARY_FILE_POSTFIX = true ∧ sampleScene.wellFormed ∧
    (EndsWith (samplePaths.ProjectSavedDir ++ STATICMESH_PATH ++ "" ++
        STATIC_MESH_BINARY_FILE_POSTFIX) STATIC_MESH_BINARY_FILE_POSTFIX = true ∧
      EndsWith (samplePaths.ProjectSavedDir ++ STATICMESH_PATH ++ "" ++
        STATIC_MESH_BINARY_FILE_POSTFIX) JSON_FILE_POSTFIX = false) ∧
    (∀ call ∈ (ExportMap sampleHost samplePaths ieeeMath (some sampleScene.toWorld) "Level.map"
        false "").calls, call.selectsBinary = true) :=
  ⟨by decide, sampleScene_wellFormed,
    ((C29_dependency_paths_select_binary sampleHost samplePaths ieeeMath sampleScene "Level.map"
      false "" (by decide) rfl sampleScene_wellFormed).1 "").1,
    (C29_dependency_paths_select_binary sampleHost samplePaths ieeeMath sampleScene "Level.map"
      false "" (by decide) rfl sampleScene_wellFormed).2⟩

/-! ## Idempotence of the skinned geometry export (C22) -/

/-- C22: the run of `ExportSkeletalMesh`, and so the bytes it writes, is
determined by the host, the path, the first detail level of the mesh (with the
bone map of its section 0) and the path name of its skeleton: two exports of
meshes that agree on these, in particular two exports of the same unchanged
mesh, give the same run and byte-identical output. -/
theorem C22_ExportSkeletalMesh_idempotent (host : Host) (Mesh1 Mesh2 : USkeletalMesh)
    (RenderData1 RenderData2 : FSkeletalMeshRenderData) (Skeleton1 Skeleton2 : USkeleton)
    (path : String)
    (hdata1 : Mesh1.GetResourceForRendering = some RenderData1)
    (hdata2 : Mesh2.GetResourceForRendering = some RenderData2)
    (hlod : RenderData1.LODRenderData.head? = RenderData2.LODRenderData.head?)
    (hskel1 : Mesh1.GetSkeleton = some Skeleton1)
    (hskel2 : Mesh2.GetSkeleton = some Skeleton2)
    (hname : Skeleton1.GetPathName = Skeleton2.GetPathName) :
    ExportSkeletalMesh host (some Mesh1) path = ExportSkeletalMesh host (some Mesh2) path ∧
    (ExportSkeletalMesh host (some Mesh1) path).bytesWritten =
      (ExportSkeletalMesh host (some Mesh2) path).bytesWritten := by
  have hw : writeSkeletalMeshLODs Mesh1 RenderData1.LODRenderData [] =
      writeSkeletalMeshLODs Mesh2 RenderData2.LODRenderData [] := by
    cases h1 : RenderData1.LODRenderData with
    | nil =>
      cases h2 : RenderData2.LODRenderData with
      | nil => rfl
      | cons l2 r2 => simp [h1, h2] at hlod
    | cons l1 r1 =>
      cases h2 : RenderData2.LODRenderData with
      | nil => simp [h1, h2] at hlod
      | cons l2 r2 =>
        have e : l1 = l2 := by simpa [h1, h2] using hlod
        subst e
        simp only [writeSkeletalMeshLODs, hskel1, hskel2, Option.bind_eq_bind,
          Option.some_bind, hname]
  have hrun : ExportSkeletalMesh host (some Mesh1) path =
      ExportSkeletalMesh host (some Mesh2) path := by
    simp only [ExportSkeletalMesh, hdata1, hdata2, hw]
  exact ⟨hrun, by rw [hrun]⟩

theorem C22_ExportSkeletalMesh_idempotent_witness :
    twoSectionMesh.GetSkeleton = some sampleSkeleton ∧
    twoLevelSkinnedMesh.GetSkeleton =
      some { lopsidedSkeleton with GetPathName := sampleSkeleton.GetPathName } ∧
    (ExportSkeletalMesh sampleHost (some twoSectionMesh) "Hero.skm").bytesWritten =
      (ExportSkeletalMesh sampleHost (some twoLevelSkinnedMesh) "Hero.skm").bytesWritten :=
  ⟨rfl, rfl,
    (C22_ExportSkeletalMesh_idempotent sampleHost twoSectionMesh twoLevelSkinnedMesh
      ⟨[twoSectionLOD]⟩ ⟨[twoSectionLOD, coarseSkinnedLOD]⟩ sampleSkeleton
      { lopsidedSkeleton with GetPathName := sampleSkeleton.GetPathName } "Hero.skm"
      rfl rfl rfl rfl rfl rfl).2⟩

/-! ## The human-readable variant of the other codecs (C24) -/

/-- C24 fails as stated: on a valid path ending in ".json" and a non-null
asset the four functions emit no document: each returns false, creates no
writer and writes nothing, while `ExportStaticMesh` on such a path does save
a text. -/
theorem C24_json_variant_emits_nothing :
    EndsWith "Hero.json" JSON_FILE_POSTFIX = true ∧
    ((ExportSkeletalMesh sampleHost (some twoSectionMesh) "Hero.json").events = [] ∧
      (ExportSkeletalMesh sampleHost (some twoSectionMesh) "Hero.json").wroteNothing = true) ∧
    ((ExportSkeleton sampleHost (some sampleSkeleton) "Hero.json").events = [] ∧
      (ExportSkeleton sampleHost (some sampleSkeleton) "Hero.json").wroteNothing = true) ∧
    ((ExportAnimSequence sampleHost (some sampleAnimSequence) "Hero.json").events = [] ∧
      (ExportAnimSequence sampleHost (some sampleAnimSequence) "Hero.json").wroteNothing =
        true) ∧
    ((ExportMaterialInstance sampleHost samplePaths (some roughEmissiveMaterial)
        "Hero.json").run.events = [] ∧
      (ExportMaterialInstance sampleHost samplePaths (some roughEmissiveMaterial)
        "Hero.json").run.wroteNothing = true) ∧
    (ExportStaticMesh sampleHost (some sampleStaticMesh) "Hero.json").wroteNothing = false := by
  decide

/-- C24 amended: on a valid path ending in ".json" and a non-null asset, the
human-readable variant of `ExportSkeletalMesh`, `ExportSkeleton`,
`ExportAnimSequence` and `ExportMaterialInstance` returns false without any
file event (no writer, no text, no bytes) and without any external call: the
document holding the version tag is not serialized or saved. -/
theorem C24_json_variant_writes_no_document (host : Host) (paths : FPaths)
    (SkeletalMesh : USkeletalMesh) (Skeleton : USkeleton) (AnimSequence : UAnimSequence)
    (MaterialInstace : UMaterialInstance) (path : String)
    (hvalid : host.IsFilenameValidForSaving path = true)
    (hext : EndsWith path JSON_FILE_POSTFIX = true) :
    ExportSkeletalMesh host (some SkeletalMesh) path = ⟨.returned false, []⟩ ∧
    ExportSkeleton host (some Skeleton) path = ⟨.returned false, []⟩ ∧
    ExportAnimSequence host (some AnimSequence) path = ⟨.returned false, []⟩ ∧
    (ExportMaterialInstance host paths (some MaterialInstace) path).run =
      ⟨.returned false, []⟩ ∧
    (ExportMaterialInstance host paths (some MaterialInstace) path).external = [] := by
  simp [ExportSkeletalMesh, ExportSkeleton, ExportAnimSequence, ExportMaterialInstance, hvalid,
    hext]

theorem C24_json_variant_writes_no_document_witness :
    EndsWith "Hero.json" JSON_FILE_POSTFIX = true ∧
    ExportSkeletalMesh sampleHost (some twoSectionMesh) "Hero.json" = ⟨.returned false, []⟩ ∧
    ExportSkeleton sampleHost (some sampleSkeleton) "Hero.json" = ⟨.returned false, []⟩ :=
  ⟨by decide,
    (C24_json_variant_writes_no_document sampleHost samplePaths twoSectionMesh sampleSkeleton
      sampleAnimSequence roughEmissiveMaterial "Hero.json" rfl (by decide)).1,
    (C24_json_variant_writes_no_document sampleHost samplePaths twoSectionMesh sampleSkeleton
      sampleAnimSequence roughEmissiveMaterial "Hero.json" rfl (by decide)).2.1⟩

/-! ## The human-readable variant of the static geometry codec (C23) -/

theorem ExportStaticMesh_json (host : Host) (Mesh : UStaticMesh)
    (RenderData : FStaticMeshRenderData) (path text : String)
    (hvalid : host.IsFilenameValidForSaving path = true)
    (hext : EndsWith path JSON_FILE_POSTFIX = true)
    (hdata : Mesh.GetRenderData = some RenderData)
    (htext : host.JsonSerialize (jsonStaticMesh Mesh RenderData) = some text)
    (hwriter : host.CreateFileWriter path = true) :
    ExportStaticMesh host (some Mesh) path =
      ⟨.returned true, [.CreateFileWriter path true, .SaveText path text, .Close path]⟩ := by
  simp [ExportStaticMesh, hvalid, hext, hdata, htext, SaveStringToFile, hwriter]

theorem lodEntries_jsonStaticMesh (Mesh : UStaticMesh) (RenderData : FStaticMeshRenderData) :
    lodEntries (jsonStaticMesh Mesh RenderData) =
      RenderData.LODResources.enum.map (fun p => jsonStaticLOD p.1 p.2) := rfl

theorem vertexRecords_enumFrom (levels : List FStaticMeshLODResources) (n : Nat) :
    ((levels.enumFrom n).map (fun p => jsonStaticLOD p.1 p.2)).flatMap
        (fun lod => FJsonValue.entries (jsonField? lod "Vertices")) =
      levels.flatMap levelVertexRecords := by
  induction levels generalizing n with
  | nil => rfl
  | cons lod rest ih =>
    simp only [List.enumFrom_cons, List.map_cons, List.flatMap_cons, ih]
    rfl

theorem indexRecords_enumFrom (levels : List FStaticMeshLODResources) (n : Nat) :
    ((levels.enumFrom n).map (fun p => jsonStaticLOD p.1 p.2)).flatMap
        (fun lod => FJsonValue.entries (jsonField? lod "Indices")) =
      levels.flatMap levelIndexRecords := by
  induction levels generalizing n with
  | nil => rfl
  | cons lod rest ih =>
    simp only [List.enumFrom_cons, List.map_cons, List.flatMap_cons, ih]
    rfl

/-- C23 fails as stated: the document of a mesh with two detail levels holds
two level entries and the vertex records of both levels (6, the first level
has 3), and two meshes of the same name and first level, one with a further
level, are saved as different texts on the same ".json" path. -/
theorem C23_json_document_includes_further_levels :
    EndsWith "Triangle.json" JSON_FILE_POSTFIX = true ∧
    sampleStaticMesh.GetRenderData = some ⟨[sampleLOD, coarseLOD]⟩ ∧
    sampleStaticMeshFirstLevel.GetRenderData = some ⟨[sampleLOD]⟩ ∧
    (levelVertexRecords sampleLOD).length = 3 ∧
    (lodEntries (jsonStaticMesh sampleStaticMesh ⟨[sampleLOD, coarseLOD]⟩)).length = 2 ∧
    (vertexRecords (jsonStaticMesh sampleStaticMesh ⟨[sampleLOD, coarseLOD]⟩)).length = 6 ∧
    (vertexRecords (jsonStaticMesh sampleStaticMeshFirstLevel ⟨[sampleLOD]⟩)).length = 3 ∧
    (ExportStaticMesh jsonHost (some sampleStaticMesh) "Triangle.json").outcome =
      .returned true ∧
    ExportStaticMesh jsonHost (some sampleStaticMesh) "Triangle.json" ≠
      ExportStaticMesh jsonHost (some sampleStaticMeshFirstLevel) "Triangle.json" := by
  refine ⟨by decide, rfl, rfl, by decide, by decide, by decide, by decide, by decide, ?_⟩
  decide

/-- C23 amended: on a valid path ending in ".json", for a mesh with render
data, `ExportStaticMesh` saves the serialized document and returns true; the
document holds one entry per detail level, and its vertex and index records
are those of every level, level after level (only the binary format is
restricted to the first level). -/
theorem C23_json_document_holds_every_level (host : Host) (Mesh : UStaticMesh)
    (RenderData : FStaticMeshRenderData) (path text : String)
    (hvalid : host.IsFilenameValidForSaving path = true)
    (hext : EndsWith path JSON_FILE_POSTFIX = true)
    (hdata : Mesh.GetRenderData = some RenderData)
    (htext : host.JsonSerialize (jsonStaticMesh Mesh RenderData) = some text)
    (hwriter : host.CreateFileWriter path = true) :
    ExportStaticMesh host (some Mesh) path =
      ⟨.returned true, [.CreateFileWriter path true, .SaveText path text, .Close path]⟩ ∧
    (lodEntries (jsonStaticMesh Mesh RenderData)).length = RenderData.LODResources.length ∧
    vertexRecords (jsonStaticMesh Mesh RenderData) =
      RenderData.LODResources.flatMap levelVertexRecords ∧
    indexRecords (jsonStaticMesh Mesh RenderData) =
      RenderData.LODResources.flatMap levelIndexRecords := by
  refine ⟨ExportStaticMesh_json host Mesh RenderData path text hvalid hext hdata htext hwriter,
    ?_, ?_, ?_⟩
  · rw [lodEntries_jsonStaticMesh, List.length_map, List.enum_length]
  · rw [vertexRecords, lodEntries_jsonStaticMesh]
    exact vertexRecords_enumFrom _ 0
  · rw [indexRecords, lodEntries_jsonStaticMesh]
    exact indexRecords_enumFrom _ 0

theorem C23_json_document_holds_every_level_witness :
    EndsWith "Triangle.json" JSON_FILE_POSTFIX = true ∧
    vertexRecords (jsonStaticMesh sampleStaticMesh ⟨[sampleLOD, coarseLOD]⟩) =
      [sampleLOD, coarseLOD].flatMap levelVertexRecords ∧
    indexRecords (jsonStaticMesh sampleStaticMesh ⟨[sampleLOD, coarseLOD]⟩) =
      [sampleLOD, coarseLOD].flatMap levelIndexRecords :=
  ⟨by decide,
    (C23_json_document_holds_every_level sampleHost sampleStaticMesh ⟨[sampleLOD, coarseLOD]⟩
      "Triangle.json" "\x7b\x7d" rfl (by decide) rfl rfl rfl).2.2.1,
    (C23_json_document_holds_every_level sampleHost sampleStaticMesh ⟨[sampleLOD, coarseLOD]⟩
      "Triangle.json" "\x7b\x7d" rfl (by decide) rfl rfl rfl).2.2.2⟩

/-! ## Material names of mesh instance records (C28) -/

theorem materialNames_flatMap (slots : List (Option UMaterialInterface)) :
    (validMaterialInstances slots).flatMap (fun i => encFString (canonicalName i.GetPathName)) =
      (materialNames slots).flatMap encFString := by
  rw [materialNames, List.flatMap_map]

theorem length_materialNames_le (slots : List (Option UMaterialInterface)) :
    (materialNames slots).length ≤ slots.length := by
  rw [materialNames, List.length_map]
  exact List.length_filterMap_le _ _

theorem length_materialNames_eq_iff (slots : List (Option UMaterialInterface)) :
    (materialNames slots).length = slots.length ↔
      ∀ slot ∈ slots, holdsValidInstance slot = true := by
  rw [materialNames, List.length_map, validMaterialInstances, List.filterMap_length_eq_length]
  constructor
  · intro h slot hslot
    have := h slot hslot
    unfold holdsValidInstance
    cases hc : castMaterialInstance slot with
    | none => simp [hc] at this
    | some Instance =>
      cases hv : Instance.IsValidLowLevel with
      | false => simp [hc, hv] at this
      | true => simp [hv]
  · intro h slot hslot
    have := h slot hslot
    unfold holdsValidInstance at this
    cases hc : castMaterialInstance slot with
    | none => simp [hc] at this
    | some Instance =>
      simp only [hc] at this
      simp [this]

theorem materialNames_skip (pre post : List (Option UMaterialInterface))
    (slot : Option UMaterialInterface) (h : holdsValidInstance slot = false) :
    validMaterialInstances (pre ++ slot :: post) =
      validMaterialInstances pre ++ validMaterialInstances post := by
  unfold holdsValidInstance at h
  unfold validMaterialInstances
  rw [List.filterMap_append, List.filterMap_cons]
  cases hc : castMaterialInstance slot with
  | none => rfl
  | some Instance =>
    simp only [hc] at h
    simp [h]

/-- C28: in the scene file of a well-formed scene every static-mesh and
skinned-mesh instance record holds the int32 number of material slots followed
by one name string per slot that holds a valid material instance, in slot
order; the number of names is at most the count and equals it exactly when
every slot holds a valid material instance; one material export is called per
name, and a slot that holds no valid material instance (a material of another
class, a null slot) adds no name and no export call. -/
theorem C28_material_names_at_most_count (host : Host) (paths : FPaths) (math : FMath)
    (s : Scene) (path : String) (CopyToPath : Bool) (CopyPath : String)
    (hext : EndsWith path MAP_BINARY_FILE_POSTFIX = true)
    (hwriter : host.CreateFileWriter path = true) (hwf : s.wellFormed) :
    (∃ nested blocks,
      (ExportMap host paths math (some s.toWorld) path CopyToPath CopyPath).events =
        [.CreateFileWriter path true] ++ nested ++
          [.Serialize path
            (blocks ++
              (encInt32 s.StaticMeshes.length ++
                s.StaticMeshes.flatMap (staticMeshInstanceRecord host)) ++
              (encInt32 s.SkeletalMeshes.length ++
                s.SkeletalMeshes.flatMap (skeletalMeshInstanceRecord host))),
           .Close path]) ∧
    (ExportMap host paths math (some s.toWorld) path CopyToPath CopyPath).calls =
      s.StaticMeshes.flatMap (staticMeshActorCalls paths) ++
        s.SkeletalMeshes.flatMap (skeletalMeshActorCalls paths) ∧
    (∀ c ∈ s.StaticMeshes, ∃ Mesh, c.GetStaticMesh = some Mesh ∧
      staticMeshInstanceRecord host c =
        transformRecord host c.GetComponentToWorld ++
          encFString (canonicalName Mesh.GetPathName) ++
          encInt32 c.GetMaterials.length ++
          (materialNames c.GetMaterials).flatMap encFString ∧
      staticMeshActorCalls paths c =
        .ExportStaticMesh (outputPath paths STATICMESH_PATH Mesh.GetPathName
            STATIC_MESH_BINARY_FILE_POSTFIX) ::
          materialCalls paths c.GetMaterials) ∧
    (∀ c ∈ s.SkeletalMeshes, ∃ Mesh Anim, c.GetSkeletalMeshAsset = some Mesh ∧
      c.AnimToPlay = some Anim ∧
      skeletalMeshInstanceRecord host c =
        transformRecord host c.GetComponentToWorld ++
          encFString (canonicalName Mesh.GetPathName) ++
          encFString (canonicalName Anim.GetPathName) ++
          encInt32 c.GetMaterials.length ++
          (materialNames c.GetMaterials).flatMap encFString ∧
      ∃ Skeleton, Mesh.Object.GetSkeleton = some Skeleton ∧
        skeletalMeshActorCalls paths c =
          .ExportSkeletalMesh (outputPath paths SKELETALMESH_PATH Mesh.GetPathName
              SKELETAL_MESH_BINARY_FILE_POSTFIX) ::
            materialCalls paths c.GetMaterials ++
            [.ExportSkeleton (outputPath paths SKELETON_PATH Skeleton.GetPathName
                SKELETON_BINARY_FILE_POSTFIX),
             .ExportAnimSequence (outputPath paths ANIMATION_PATH Anim.GetPathName
                ANIMSEQUENCE_BINARY_FILE_POSTFIX)]) ∧
    (∀ slots : List (Option UMaterialInterface),
      (materialNames slots).length ≤ slots.length ∧
      ((materialNames slots).length = slots.length ↔
        ∀ slot ∈ slots, holdsValidInstance slot = true) ∧
      (materialCalls paths slots).length = (materialNames slots).length) ∧
    (∀ (pre post : List (Option UMaterialInterface)) (slot : Option UMaterialInterface),
      holdsValidInstance slot = false →
      materialNames (pre ++ slot :: post) = materialNames pre ++ materialNames post ∧
      materialCalls paths (pre ++ slot :: post) =
        materialCalls paths pre ++ materialCalls paths post) ∧
    (∀ GetPathName : String, holdsValidInstance (some (.Material GetPathName)) = false) ∧
    holdsValidInstance none = false := by
  refine ⟨⟨s.StaticMeshes.flatMap (staticMeshActorEvents host paths) ++
      s.SkeletalMeshes.flatMap (skeletalMeshActorEvents host paths),
    encInt32 s.Cameras.length ++ s.Cameras.flatMap (cameraRecord host math) ++
      encInt32 s.DirectionalLights.length ++
      s.DirectionalLights.flatMap (directionalLightRecord host math) ++
      encInt32 s.PointLights.length ++ s.PointLights.flatMap (pointLightRecord host math), ?_⟩,
    ?_, ?_, ?_, ?_, ?_, fun _ => rfl, rfl⟩
  · rw [ExportMap_scene host paths math s path CopyToPath CopyPath hext hwriter hwf]
    simp only [sceneLayout, List.append_assoc]
  · rw [ExportMap_scene host paths math s path CopyToPath CopyPath hext hwriter hwf]
  · intro c hc
    obtain ⟨Mesh, hMesh, _⟩ := hwf.1 c hc
    refine ⟨Mesh, hMesh, ?_, ?_⟩
    · simp only [staticMeshInstanceRecord, hMesh, materialNames_flatMap]
    · simp only [staticMeshActorCalls, hMesh]
  · intro c hc
    obtain ⟨Mesh, Anim, hMesh, hAnim, hexp⟩ := hwf.2 c hc
    obtain ⟨Skeleton, hS⟩ := Option.isSome_iff_exists.mp hexp.1
    refine ⟨Mesh, Anim, hMesh, hAnim, ?_, Skeleton, hS, ?_⟩
    · simp only [skeletalMeshInstanceRecord, hMesh, hAnim, materialNames_flatMap]
    · simp only [skeletalMeshActorCalls, hMesh, hAnim, hS]
  · intro slots
    refine ⟨length_materialNames_le slots, length_materialNames_eq_iff slots, ?_⟩
    simp only [materialCalls, materialNames, List.length_map]
  · intro pre post slot h
    simp only [materialNames, materialCalls, materialNames_skip pre post slot h, List.map_append,
      and_self]

theorem C28_material_names_at_most_count_witness :
    EndsWith "Level.map" MAP_BINARY_FILE_POSTFIX = true ∧ sampleScene.wellFormed ∧
    sampleStaticMeshComponent.GetMaterials.length = 3 ∧
    materialNames sampleStaticMeshComponent.GetMaterials = ["MI_Wood"] ∧
    ((materialNames sampleStaticMeshComponent.GetMaterials).length ≤
        sampleStaticMeshComponent.GetMaterials.length ∧
      ((materialNames sampleStaticMeshComponent.GetMaterials).length =
          sampleStaticMeshComponent.GetMaterials.length ↔
        ∀ slot ∈ sampleStaticMeshComponent.GetMaterials, holdsValidInstance slot = true) ∧
      (materialCalls samplePaths sampleStaticMeshComponent.GetMaterials).length =
        (materialNames sampleStaticMeshComponent.GetMaterials).length) :=
  ⟨by decide, sampleScene_wellFormed, rfl, by decide,
    (C28_material_names_at_most_count sampleHost samplePaths ieeeMath sampleScene "Level.map"
      false "" (by decide) rfl sampleScene_wellFormed).2.2.2.2.1
      sampleStaticMeshComponent.GetMaterials⟩

/-! ## Index safety of the skinned geometry codec (C30) -/

/-- C30: when the first detail level has a render section, its skin-weight
array has an entry per vertex and every influence bone of slots 0 to 3 of
every vertex is an index into the bone map of the first section, the accesses
`RenderSections[0]`, `WeightInfos[v]` and `BoneMap[...]` are all in range, the
body of the vertex loop yields an archive for every vertex, and (the skeleton
not being null) `ExportSkeletalMesh` returns a flag on every path; a level
without a section, or with an influence bone outside the bone map, makes the
binary export fault. -/
theorem C30_skinned_codec_index_safety (host : Host) (Mesh : USkeletalMesh)
    (RenderData : FSkeletalMeshRenderData) (CurLOD : FSkeletalMeshLODRenderData)
    (rest : List FSkeletalMeshLODRenderData) (Section0 : FSkelMeshRenderSection)
    (others : List FSkelMeshRenderSection) (Skeleton : USkeleton) (path : String)
    (hdata : Mesh.GetResourceForRendering = some RenderData)
    (hlod : RenderData.LODRenderData = CurLOD :: rest)
    (hskel : Mesh.GetSkeleton = some Skeleton)
    (hsec : CurLOD.RenderSections = Section0 :: others)
    (hweights : CurLOD.StaticVertexBuffers.PositionVertexBuffer.GetNumVertices ≤
      CurLOD.SkinWeights.length)
    (hbones : ∀ i, i < CurLOD.StaticVertexBuffers.PositionVertexBuffer.GetNumVertices →
      ∀ k, k < 4 →
        (CurLOD.SkinWeights.getD i default).InfluenceBones k < Section0.BoneMap.length) :
    CurLOD.RenderSections[0]? = some Section0 ∧
    (∀ i, i < CurLOD.StaticVertexBuffers.PositionVertexBuffer.GetNumVertices →
      ∃ Info, CurLOD.SkinWeights[i]? = some Info ∧
        ∀ k, k < 4 → (Section0.BoneMap[Info.InfluenceBones k]?).isSome = true) ∧
    (∀ (Ar : FArchive) i, i < CurLOD.StaticVertexBuffers.PositionVertexBuffer.GetNumVertices →
      (writeSkinnedVertex CurLOD Section0.BoneMap CurLOD.SkinWeights Ar i).isSome = true) ∧
    (writeSkeletalMeshLODs Mesh RenderData.LODRenderData []).isSome = true ∧
    (∃ flag, (ExportSkeletalMesh host (some Mesh) path).outcome = .returned flag) ∧
    ((ExportSkeletalMesh sampleHost (some noSectionMesh) "Hero.skm").outcome = .fault ∧
      noSectionLOD.RenderSections[0]? = none) ∧
    ((ExportSkeletalMesh sampleHost (some strayBoneMesh) "Hero.skm").outcome = .fault ∧
      strayBoneLOD.SkinWeights.length = 3 ∧
      sampleSection0.BoneMap[(strayBoneLOD.SkinWeights.getD 1 default).InfluenceBones 0]? =
        none) := by
  have hLODs : writeSkeletalMeshLODs Mesh RenderData.LODRenderData [] =
      some (skeletalMeshLayout CurLOD Section0.BoneMap (Split Skeleton.GetPathName).2) := by
    rw [hlod]
    exact writeSkeletalMeshLODs_cons Mesh CurLOD rest Section0 others Skeleton hsec
      ⟨hweights, hbones⟩ hskel
  refine ⟨by simp [hsec], ?_, ?_, by simp [hLODs], ?_, by decide, by decide⟩
  · intro i hi
    have hlt : i < CurLOD.SkinWeights.length := Nat.lt_of_lt_of_le hi hweights
    refine ⟨CurLOD.SkinWeights.getD i default, by simp [hlt], ?_⟩
    intro k hk
    rw [List.getElem?_eq_getElem (hbones i hi k hk)]
    rfl
  · intro Ar i hi
    rw [writeSkinnedVertex_eq CurLOD Section0.BoneMap Ar i (Nat.lt_of_lt_of_le hi hweights)
      (hbones i hi)]
    rfl
  · unfold ExportSkeletalMesh
    simp only [hdata, hLODs]
    split_ifs <;> exact ⟨_, rfl⟩

theorem C30_skinned_codec_index_safety_witness :
    twoSectionLOD.RenderSections = sampleSection0 :: [sampleSection1] ∧
    twoSectionLOD.StaticVertexBuffers.PositionVertexBuffer.GetNumVertices ≤
      twoSectionLOD.SkinWeights.length ∧
    (∀ i, i < twoSectionLOD.StaticVertexBuffers.PositionVertexBuffer.GetNumVertices →
      ∀ k, k < 4 →
        (twoSectionLOD.SkinWeights.getD i default).InfluenceBones k <
          sampleSection0.BoneMap.length) ∧
    (writeSkeletalMeshLODs twoSectionMesh
      (FSkeletalMeshRenderData.mk [twoSectionLOD]).LODRenderData []).isSome = true ∧
    ∃ flag, (ExportSkeletalMesh sampleHost (some twoSectionMesh) "Hero.skm").outcome =
      .returned flag :=
  ⟨rfl, twoSectionLOD_inRange.1, twoSectionLOD_inRange.2,
    (C30_skinned_codec_index_safety sampleHost twoSectionMesh ⟨[twoSectionLOD]⟩ twoSectionLOD []
      sampleSection0 [sampleSection1] sampleSkeleton "Hero.skm" rfl rfl rfl rfl
      twoSectionLOD_inRange.1 twoSectionLOD_inRange.2).2.2.2.1,
    (C30_skinned_codec_index_safety sampleHost twoSectionMesh ⟨[twoSectionLOD]⟩ twoSectionLOD []
      sampleSection0 [sampleSection1] sampleSkeleton "Hero.skm" rfl rfl rfl rfl
      twoSectionLOD_inRange.1 twoSectionLOD_inRange.2).2.2.2.2.1⟩

/-! ## Positions of bone indices and weights in the skinned geometry file (C25, C26) -/

theorem drop_flatMap_const {α β : Type} (f : α → List β) (n : Nat) (h : ∀ x, (f x).length = n)
    (xs : List α) (i : Nat) : (xs.flatMap f).drop (n * i) = (xs.drop i).flatMap f := by
  induction i generalizing xs with
  | zero => simp
  | succ i ih =>
    cases xs with
    | nil => simp
    | cons x xs =>
      have e : n * (i + 1) = (f x).length + n * i := by rw [h x, Nat.mul_succ, Nat.add_comm]
      rw [List.flatMap_cons, e, List.drop_append, List.drop_succ_cons, ih]

/-- A slice inside record `i` of a sequence of records of one length. -/
theorem slice_flatMap_range (f : Nat → List Nat) (n N i y m : Nat)
    (h : ∀ x, (f x).length = n) (hi : i < N) (hy : y + m ≤ n) (tail : List Nat) :
    ((((List.range N).flatMap f ++ tail).drop (n * i + y)).take m) = ((f i).drop y).take m := by
  have hlen : n * i ≤ ((List.range N).flatMap f).length := by
    rw [length_flatMap_const f n _ h, List.length_range, Nat.mul_comm]
    exact Nat.mul_le_mul_right n (Nat.le_of_lt hi)
  have hr : (List.range N).drop i = i :: (List.range N).drop (i + 1) := by
    rw [List.drop_eq_getElem_cons (by simpa using hi)]
    simp
  rw [← List.drop_drop, List.drop_append_of_le_length hlen,
    drop_flatMap_const f n h, hr, List.flatMap_cons, List.append_assoc,
    List.drop_append_of_le_length (by rw [h i]; omega),
    List.take_append_of_le_length (by rw [List.length_drop, h i]; omega)]

theorem drop_length_add (a rest : List Nat) (n x : Nat) (h : a.length = n) :
    (a ++ rest).drop (n + x) = rest.drop x := by
  subst h
  exact List.drop_append _

/-- In a skinned vertex record the bone index of slot `k` is at offset
`48 + 2 * k`. -/
theorem skinnedVertexRecord_bone (vb : FStaticMeshVertexBuffers) (BoneMap : List Nat)
    (Info : FSkinWeightInfo) (i k : Nat) (hk : k < 4) :
    ((skinnedVertexRecord vb BoneMap Info i).drop (48 + 2 * k)).take 2 =
      encUInt16 (BoneMap.getD (Info.InfluenceBones k) 0) := by
  have h := slice_flatMap_range (fun k => encUInt16 (BoneMap.getD (Info.InfluenceBones k) 0))
    2 4 k 0 2 (fun _ => length_encUInt16 _) hk (le_refl _)
    ((List.range 4).flatMap (fun k => encFloat (BoneWeight (Info.InfluenceWeights k))))
  rw [skinnedVertexRecord, List.append_assoc, drop_length_add _ _ 48 _ (length_vertexFloats vb i)]
  rw [Nat.add_zero, List.drop_zero] at h
  rw [h, List.take_of_length_le (by rw [length_encUInt16])]

/-- In a skinned vertex record the weight of slot `k` is at offset
`56 + 4 * k`. -/
theorem skinnedVertexRecord_weight (vb : FStaticMeshVertexBuffers) (BoneMap : List Nat)
    (Info : FSkinWeightInfo) (i k : Nat) (hk : k < 4) :
    ((skinnedVertexRecord vb BoneMap Info i).drop (56 + 4 * k)).take 4 =
      encFloat (BoneWeight (Info.InfluenceWeights k)) := by
  have h := slice_flatMap_range (fun k => encFloat (BoneWeight (Info.InfluenceWeights k)))
    4 4 k 0 4 (fun _ => length_encFloat _) hk (le_refl _) []
  have h8 : ((List.range 4).flatMap
      (fun k => encUInt16 (BoneMap.getD (Info.InfluenceBones k) 0))).length = 8 := by
    rw [length_flatMap_const _ 2 _ (fun _ => length_encUInt16 _), List.length_range]
  have e : 56 + 4 * k = 48 + (8 + 4 * k) := by omega
  rw [skinnedVertexRecord, List.append_assoc, e,
    drop_length_add _ _ 48 _ (length_vertexFloats vb i), drop_length_add _ _ 8 _ h8]
  rw [Nat.add_zero, List.drop_zero, List.append_nil] at h
  rw [h, List.take_of_length_le (by rw [length_encFloat])]

/-- In the skinned geometry file the record of vertex `v` starts at offset
`4 + 72 * v`. -/
theorem skeletalMeshLayout_slice (lod : FSkeletalMeshLODRenderData) (BoneMap : List Nat)
    (SkeletonName : String) (v y m : Nat)
    (hv : v < lod.StaticVertexBuffers.PositionVertexBuffer.GetNumVertices) (hy : y + m ≤ 72) :
    ((skeletalMeshLayout lod BoneMap SkeletonName).drop (4 + 72 * v + y)).take m =
      ((skinnedVertexRecord lod.StaticVertexBuffers BoneMap (lod.SkinWeights.getD v default)
        v).drop y).take m := by
  simp only [skeletalMeshLayout, List.append_assoc]
  rw [Nat.add_assoc, drop_length_add _ _ 4 _ (length_encInt32 _)]
  exact slice_flatMap_range
    (fun i => skinnedVertexRecord lod.StaticVertexBuffers BoneMap (lod.SkinWeights.getD i default)
      i) 72 _ v y m (fun _ => length_skinnedVertexRecord _ _ _ _) hv hy _

/-- C25: for a mesh whose first level has a render section, the two bytes
written for the bone index of slot k of vertex v (offset 4 + 72 v + 48 + 2 k)
are the image of `BoneMap0[InfluenceBones(v)[k]]`, where `BoneMap0` is the bone
map of the first render section, whichever section owns v; on the two-section
sample mesh, whose sections have different bone maps, vertex 2 is owned by
section 1, whose map gives 10, and the bytes written are the image of 6. -/
theorem C25_bone_index_through_first_section (host : Host) (Mesh : USkeletalMesh)
    (RenderData : FSkeletalMeshRenderData) (CurLOD : FSkeletalMeshLODRenderData)
    (rest : List FSkeletalMeshLODRenderData) (Section0 : FSkelMeshRenderSection)
    (others : List FSkelMeshRenderSection) (Skeleton : USkeleton) (path : String)
    (hvalid : host.IsFilenameValidForSaving path = true)
    (hext : EndsWith path SKELETAL_MESH_BINARY_FILE_POSTFIX = true)
    (hwriter : host.CreateFileWriter path = true)
    (hdata : Mesh.GetResourceForRendering = some RenderData)
    (hlod : RenderData.LODRenderData = CurLOD :: rest)
    (hsec : CurLOD.RenderSections = Section0 :: others)
    (hrange : skinIndicesInRange CurLOD Section0.BoneMap)
    (hskel : Mesh.GetSkeleton = some Skeleton) :
    (∀ v k, v < CurLOD.StaticVertexBuffers.PositionVertexBuffer.GetNumVertices → k < 4 →
      ∃ Info BoneIndex, CurLOD.SkinWeights[v]? = some Info ∧
        Section0.BoneMap[Info.InfluenceBones k]? = some BoneIndex ∧
        ((ExportSkeletalMesh host (some Mesh) path).bytesWritten.drop
          (4 + 72 * v + (48 + 2 * k))).take 2 = encUInt16 BoneIndex) ∧
    (twoSectionLOD.RenderSections = [sampleSection0, sampleSection1] ∧
      sampleSection0.BoneMap ≠ sampleSection1.BoneMap ∧
      owningSection twoSectionLOD.RenderSections 2 = some sampleSection1 ∧
      boneIndexThroughOwner twoSectionLOD 2 0 = some 10 ∧
      ((ExportSkeletalMesh sampleHost (some twoSectionMesh) "Hero.skm").bytesWritten.drop
        (4 + 72 * 2 + (48 + 2 * 0))).take 2 = encUInt16 6 ∧
      encUInt16 6 ≠ encUInt16 10) := by
  constructor
  · intro v k hv hk
    have hlt : v < CurLOD.SkinWeights.length := Nat.lt_of_lt_of_le hv hrange.1
    have hb := hrange.2 v hv k hk
    refine ⟨CurLOD.SkinWeights.getD v default,
      Section0.BoneMap.getD ((CurLOD.SkinWeights.getD v default).InfluenceBones k) 0, ?_, ?_, ?_⟩
    · simp [hlt]
    · rw [List.getD_eq_getElem _ _ hb]
      exact List.getElem?_eq_getElem hb
    · rw [ExportSkeletalMesh_binary host Mesh RenderData CurLOD rest Section0 others Skeleton
        path hvalid hext hwriter hdata hlod hsec hrange hskel, bytesWritten_single,
        skeletalMeshLayout_slice CurLOD Section0.BoneMap _ v (48 + 2 * k) 2 hv (by omega),
        skinnedVertexRecord_bone _ _ _ v k hk]
  · refine ⟨rfl, by decide, by decide, by decide, ?_, by decide⟩
    rw [ExportSkeletalMesh_binary sampleHost twoSectionMesh ⟨[twoSectionLOD]⟩ twoSectionLOD []
      sampleSection0 [sampleSection1] sampleSkeleton "Hero.skm" rfl (by decide) rfl rfl rfl rfl
      twoSectionLOD_inRange rfl]
    decide

theorem C25_bone_index_through_first_section_witness :
    EndsWith "Hero.skm" SKELETAL_MESH_BINARY_FILE_POSTFIX = true ∧
    twoSectionLOD.RenderSections = sampleSection0 :: [sampleSection1] ∧
    skinIndicesInRange twoSectionLOD sampleSection0.BoneMap ∧
    ∃ Info BoneIndex, twoSectionLOD.SkinWeights[2]? = some Info ∧
      sampleSection0.BoneMap[Info.InfluenceBones 0]? = some BoneIndex ∧
      ((ExportSkeletalMesh sampleHost (some twoSectionMesh) "Hero.skm").bytesWritten.drop
        (4 + 72 * 2 + (48 + 2 * 0))).take 2 = encUInt16 BoneIndex :=
  ⟨by decide, rfl, twoSectionLOD_inRange,
    (C25_bone_index_through_first_section sampleHost twoSectionMesh ⟨[twoSectionLOD]⟩
      twoSectionLOD [] sampleSection0 [sampleSection1] sampleSkeleton "Hero.skm" rfl (by decide)
      rfl rfl rfl rfl twoSectionLOD_inRange rfl).1 2 0 (by decide) (by decide)⟩

/-! ## Sum of the serialized weights (C26) -/

theorem BoneWeight_full : (BoneWeight 255).toRat? = some 1 := by
  have e : BoneWeight 255 = F32.ofBits 0x3F800000 := by decide
  rw [e]
  norm_num [F32.toRat?, F32.ofBits]

theorem BoneWeight_none : (BoneWeight 0).toRat? = some 0 := by
  have e : BoneWeight 0 = F32.ofBits 0 := by decide
  rw [e]
  norm_num [F32.toRat?, F32.ofBits]

theorem unnormalizedLOD_inRange : skinIndicesInRange unnormalizedLOD sampleSection0.BoneMap := by
  unfold skinIndicesInRange
  decide

/-- The sum of the four serialized weights is within relative error `2 ^ -24`
of the sum of the raw weights divided by 255. -/
theorem weightSum_serializedWeights (Info : FSkinWeightInfo)
    (h : ∀ k, k < 4 → Info.InfluenceWeights k ≤ 255) :
    ∃ s : ℚ, weightSum (serializedWeights Info) = some s ∧
      |s - ((Info.InfluenceWeights 0 + Info.InfluenceWeights 1 + Info.InfluenceWeights 2 +
          Info.InfluenceWeights 3 : Nat) : ℚ) / 255| ≤
        ((Info.InfluenceWeights 0 + Info.InfluenceWeights 1 + Info.InfluenceWeights 2 +
          Info.InfluenceWeights 3 : Nat) : ℚ) / 255 / 2 ^ 24 := by
  obtain ⟨q0, e0, -, -, b0⟩ := BoneWeight_value (Info.InfluenceWeights 0) (h 0 (by decide))
  obtain ⟨q1, e1, -, -, b1⟩ := BoneWeight_value (Info.InfluenceWeights 1) (h 1 (by decide))
  obtain ⟨q2, e2, -, -, b2⟩ := BoneWeight_value (Info.InfluenceWeights 2) (h 2 (by decide))
  obtain ⟨q3, e3, -, -, b3⟩ := BoneWeight_value (Info.InfluenceWeights 3) (h 3 (by decide))
  have hr : List.range 4 = [0, 1, 2, 3] := rfl
  refine ⟨q0 + (q1 + (q2 + (q3 + 0))), ?_, ?_⟩
  · simp only [weightSum, serializedWeights, hr, List.map_cons, List.map_nil, List.foldr_cons,
      List.foldr_nil, e0, e1, e2, e3]
  · rw [abs_le] at b0 b1 b2 b3 ⊢
    push_cast
    constructor <;> linarith [b0.1, b0.2, b1.1, b1.2, b2.1, b2.2, b3.1, b3.2]

/-- C26: the four bytes written for the weight of slot k of vertex v (offset
4 + 72 v + 56 + 4 k) are the image of the single-precision quotient of the raw
weight of that slot by 255, whatever the other three raw weights: nothing
renormalizes. The sum of the four numbers written is the sum of the raw
weights divided by 255, each quotient rounded to single precision (relative
error at most 2^-24); for the raw weights 255, 255, 0, 0 it is 2 and for
0, 0, 0, 0 it is 0, neither of which is 1. -/
theorem C26_weights_not_normalized (host : Host) (Mesh : USkeletalMesh)
    (RenderData : FSkeletalMeshRenderData) (CurLOD : FSkeletalMeshLODRenderData)
    (rest : List FSkeletalMeshLODRenderData) (Section0 : FSkelMeshRenderSection)
    (others : List FSkelMeshRenderSection) (Skeleton : USkeleton) (path : String)
    (hvalid : host.IsFilenameValidForSaving path = true)
    (hext : EndsWith path SKELETAL_MESH_BINARY_FILE_POSTFIX = true)
    (hwriter : host.CreateFileWriter path = true)
    (hdata : Mesh.GetResourceForRendering = some RenderData)
    (hlod : RenderData.LODRenderData = CurLOD :: rest)
    (hsec : CurLOD.RenderSections = Section0 :: others)
    (hrange : skinIndicesInRange CurLOD Section0.BoneMap)
    (hskel : Mesh.GetSkeleton = some Skeleton) :
    (∀ v k, v < CurLOD.StaticVertexBuffers.PositionVertexBuffer.GetNumVertices → k < 4 →
      ∃ Info, CurLOD.SkinWeights[v]? = some Info ∧
        ((ExportSkeletalMesh host (some Mesh) path).bytesWritten.drop
          (4 + 72 * v + (56 + 4 * k))).take 4 =
          encFloat (F32.divNat (Info.InfluenceWeights k) 255) ∧
        (serializedWeights Info)[k]? = some (F32.divNat (Info.InfluenceWeights k) 255)) ∧
    (∀ Info : FSkinWeightInfo, (∀ k, k < 4 → Info.InfluenceWeights k ≤ 255) →
      ∃ s : ℚ, weightSum (serializedWeights Info) = some s ∧
        |s - ((Info.InfluenceWeights 0 + Info.InfluenceWeights 1 + Info.InfluenceWeights 2 +
            Info.InfluenceWeights 3 : Nat) : ℚ) / 255| ≤
          ((Info.InfluenceWeights 0 + Info.InfluenceWeights 1 + Info.InfluenceWeights 2 +
            Info.InfluenceWeights 3 : Nat) : ℚ) / 255 / 2 ^ 24) ∧
    (weightSum (serializedWeights ⟨fun _ => 0, fun k => if k < 2 then 255 else 0⟩) = some 2 ∧
      (2 : ℚ) ≠ 1) ∧
    (weightSum (serializedWeights ⟨fun _ => 0, fun _ => 0⟩) = some 0 ∧ (0 : ℚ) ≠ 1) := by
  have hr : List.range 4 = [0, 1, 2, 3] := rfl
  refine ⟨?_, weightSum_serializedWeights, ⟨?_, by norm_num⟩, ⟨?_, by norm_num⟩⟩
  · intro v k hv hk
    have hlt : v < CurLOD.SkinWeights.length := Nat.lt_of_lt_of_le hv hrange.1
    refine ⟨CurLOD.SkinWeights.getD v default, ?_, ?_, ?_⟩
    · rw [List.getD_eq_getElem _ _ hlt]
      exact List.getElem?_eq_getElem hlt
    · rw [ExportSkeletalMesh_binary host Mesh RenderData CurLOD rest Section0 others Skeleton
        path hvalid hext hwriter hdata hlod hsec hrange hskel, bytesWritten_single,
        skeletalMeshLayout_slice CurLOD Section0.BoneMap _ v (56 + 4 * k) 4 hv (by omega),
        skinnedVertexRecord_weight _ _ _ v k hk]
      rfl
    · rw [serializedWeights, List.getElem?_map, List.getElem?_range hk]
      rfl
  · simp only [weightSum, serializedWeights, hr, List.map_cons, List.map_nil, List.foldr_cons,
      List.foldr_nil]
    have e0 : (0 : Nat) < 2 := by decide
    have e1 : (1 : Nat) < 2 := by decide
    have e2 : ¬ (2 : Nat) < 2 := by decide
    have e3 : ¬ (3 : Nat) < 2 := by decide
    simp only [e0, e1, e2, e3, if_true, if_false, BoneWeight_full, BoneWeight_none]
    norm_num
  · simp only [weightSum, serializedWeights, hr, List.map_cons, List.map_nil, List.foldr_cons,
      List.foldr_nil, BoneWeight_none]
    norm_num

theorem C26_weights_not_normalized_witness :
    EndsWith "Hero.skm" SKELETAL_MESH_BINARY_FILE_POSTFIX = true ∧
    unnormalizedLOD.RenderSections = sampleSection0 :: [sampleSection1] ∧
    skinIndicesInRange unnormalizedLOD sampleSection0.BoneMap ∧
    ∃ Info, unnormalizedLOD.SkinWeights[0]? = some Info ∧
      ((ExportSkeletalMesh sampleHost (some unnormalizedMesh) "Hero.skm").bytesWritten.drop
        (4 + 72 * 0 + (56 + 4 * 1))).take 4 =
        encFloat (F32.divNat (Info.InfluenceWeights 1) 255) ∧
      (serializedWeights Info)[1]? = some (F32.divNat (Info.InfluenceWeights 1) 255) :=
  ⟨by decide, rfl, unnormalizedLOD_inRange,
    (C26_weights_not_normalized sampleHost unnormalizedMesh ⟨[unnormalizedLOD]⟩
      unnormalizedLOD [] sampleSection0 [sampleSection1] sampleSkeleton "Hero.skm" rfl (by decide)
      rfl rfl rfl rfl unnormalizedLOD_inRange rfl).1 0 1 (by decide) (by decide)⟩

/-! ## Order of the parameter lists of a material (C27) -/

/-- With pairwise distinct names, the first parameter info of a name is the
same in every reordering of the list. -/
theorem find?_name_perm (Name : FName) {l1 l2 : List FMaterialParameterInfo}
    (hp : l1.Perm l2) (hnd : (l1.map (fun info => info.Name)).Nodup) :
    l1.find? (fun info => decide (info.Name = Name)) =
      l2.find? (fun info => decide (info.Name = Name)) := by
  induction hp with
  | nil => rfl
  | cons x _ ih =>
    rw [List.map_cons, List.nodup_cons] at hnd
    simp only [List.find?_cons, ih hnd.2]
  | swap x y l =>
    simp only [List.map_cons, List.nodup_cons, List.mem_cons, not_or] at hnd
    by_cases hx : x.Name = Name
    · by_cases hy : y.Name = Name
      · exact absurd (hy.trans hx.symm) hnd.1.1
      · simp [List.find?_cons, hx, hy]
    · by_cases hy : y.Name = Name
      · simp [List.find?_cons, hx, hy]
      · simp [List.find?_cons, hx, hy]
  | trans h1 _ ih1 ih2 =>
    rw [ih1 hnd]
    exact ih2 ((h1.map _).nodup_iff.mp hnd)

theorem writeScalarParameter_first (m : UMaterialInstance) (Name : FName)
    (pre post : List FMaterialParameterInfo) (info : FMaterialParameterInfo) (Ar : FArchive)
    (hpre : ∀ p ∈ pre, p.Name ≠ Name) (hinfo : info.Name = Name) :
    writeScalarParameter m Name (pre ++ info :: post) Ar =
      writeScalarParameter m Name [info] Ar := by
  induction pre with
  | nil => simp [writeScalarParameter, hinfo]
  | cons p rest ih =>
    have hp := hpre p (List.mem_cons_self _ _)
    simp only [List.cons_append, writeScalarParameter, hp, if_false]
    exact ih (fun q hq => hpre q (List.mem_cons_of_mem _ hq))

theorem writeVectorParameter_first (m : UMaterialInstance) (Name : FName)
    (pre post : List FMaterialParameterInfo) (info : FMaterialParameterInfo) (Ar : FArchive)
    (hpre : ∀ p ∈ pre, p.Name ≠ Name) (hinfo : info.Name = Name) :
    writeVectorParameter m Name (pre ++ info :: post) Ar =
      writeVectorParameter m Name [info] Ar := by
  induction pre with
  | nil => simp [writeVectorParameter, hinfo]
  | cons p rest ih =>
    have hp := hpre p (List.mem_cons_self _ _)
    simp only [List.cons_append, writeVectorParameter, hp, if_false]
    exact ih (fun q hq => hpre q (List.mem_cons_of_mem _ hq))

/-- C27: for a material whose scalar parameter names are pairwise distinct and
whose vector parameter names are pairwise distinct, listing the scalar and
the vector parameters in any other order leaves the run of
`ExportMaterialInstance`, and so the bytes written, unchanged; and in any list
the loop for a name consults only the first parameter info of that name,
whatever follows it. -/
theorem C27_parameter_order_invariance (host : Host) (paths : FPaths) (m : UMaterialInstance)
    (scalars vectors : List FMaterialParameterInfo) (path : String)
    (hscalars : scalars.Perm m.GetAllScalarParameterInfo)
    (hvectors : vectors.Perm m.GetAllVectorParameterInfo)
    (hsd : (m.GetAllScalarParameterInfo.map (fun info => info.Name)).Nodup)
    (hvd : (m.GetAllVectorParameterInfo.map (fun info => info.Name)).Nodup) :
    (ExportMaterialInstance host paths
        (some { m with GetAllScalarParameterInfo := scalars
                       GetAllVectorParameterInfo := vectors }) path).run =
      (ExportMaterialInstance host paths (some m) path).run ∧
    (ExportMaterialInstance host paths
        (some { m with GetAllScalarParameterInfo := scalars
                       GetAllVectorParameterInfo := vectors }) path).run.bytesWritten =
      (ExportMaterialInstance host paths (some m) path).run.bytesWritten ∧
    (∀ (Name : FName) (pre post : List FMaterialParameterInfo) (info : FMaterialParameterInfo)
        (Ar : FArchive), (∀ p ∈ pre, p.Name ≠ Name) → info.Name = Name →
      writeScalarParameter m Name (pre ++ info :: post) Ar =
        (match m.GetScalarParameterValue info with
          | some Value => Ar ++ encFloat Value
          | none => Ar) ∧
      writeVectorParameter m Name (pre ++ info :: post) Ar =
        (match m.GetVectorParameterValue info with
          | some Value => Ar ++ encLinearColor Value
          | none => Ar)) := by
  have hs : ∀ name : String,
      scalars.find? (fun info => decide (info.Name = ⟨name⟩)) =
        m.GetAllScalarParameterInfo.find? (fun info => decide (info.Name = ⟨name⟩)) :=
    fun name => (find?_name_perm ⟨name⟩ hscalars.symm hsd).symm
  have hv : ∀ name : String,
      vectors.find? (fun info => decide (info.Name = ⟨name⟩)) =
        m.GetAllVectorParameterInfo.find? (fun info => decide (info.Name = ⟨name⟩)) :=
    fun name => (find?_name_perm ⟨name⟩ hvectors.symm hvd).symm
  have ht : writeTextureParameter paths
      { m with GetAllScalarParameterInfo := scalars, GetAllVectorParameterInfo := vectors } =
      writeTextureParameter paths m := rfl
  have hw : writeMaterialInstance paths
      { m with GetAllScalarParameterInfo := scalars, GetAllVectorParameterInfo := vectors } [] =
      writeMaterialInstance paths m [] := by
    simp only [writeMaterialInstance, writeScalarParameter_find, writeVectorParameter_find, hs, hv,
      ht]
  have hrun : (ExportMaterialInstance host paths
        (some { m with GetAllScalarParameterInfo := scalars
                       GetAllVectorParameterInfo := vectors }) path).run =
      (ExportMaterialInstance host paths (some m) path).run := by
    simp only [ExportMaterialInstance, hw]
  refine ⟨hrun, by rw [hrun], ?_⟩
  intro Name pre post info Ar hpre hinfo
  rw [writeScalarParameter_first m Name pre post info Ar hpre hinfo,
    writeVectorParameter_first m Name pre post info Ar hpre hinfo]
  constructor
  · cases hval : m.GetScalarParameterValue info <;>
      simp [writeScalarParameter, hinfo, hval, FArchive.float]
  · cases hval : m.GetVectorParameterValue info <;>
      simp [writeVectorParameter, hinfo, hval, linearColor_eq]

theorem C27_parameter_order_invariance_witness :
    [(⟨⟨"Roughness"⟩, 0, -1⟩ : FMaterialParameterInfo), ⟨⟨"Tiling"⟩, 0, -1⟩].Perm
      roughEmissiveMaterial.GetAllScalarParameterInfo ∧
    (roughEmissiveMaterial.GetAllScalarParameterInfo.map (fun info => info.Name)).Nodup ∧
    (roughEmissiveMaterial.GetAllVectorParameterInfo.map (fun info => info.Name)).Nodup ∧
    (ExportMaterialInstance sampleHost samplePaths
        (some { roughEmissiveMaterial with
          GetAllScalarParameterInfo := [⟨⟨"Roughness"⟩, 0, -1⟩, ⟨⟨"Tiling"⟩, 0, -1⟩]
          GetAllVectorParameterInfo := roughEmissiveMaterial.GetAllVectorParameterInfo })
        "MI_Wood.mtl").run.bytesWritten =
      (ExportMaterialInstance sampleHost samplePaths (some roughEmissiveMaterial)
        "MI_Wood.mtl").run.bytesWritten :=
  ⟨List.Perm.swap _ _ _, by decide, by decide,
    (C27_parameter_order_invariance sampleHost samplePaths roughEmissiveMaterial
      [⟨⟨"Roughness"⟩, 0, -1⟩, ⟨⟨"Tiling"⟩, 0, -1⟩]
      roughEmissiveMaterial.GetAllVectorParameterInfo "MI_Wood.mtl" (List.Perm.swap _ _ _)
      (List.Perm.refl _) (by decide) (by decide)).2.1⟩

/-! ## Paths of an unknown extension (C31) -/

/-- C31: on a valid path that does not end with ".json", each per-asset export
called with a path that does not end with its own binary extension returns
false without any file event (no writer created, no text, no bytes), for a
null asset as for a non-null one, and the material export makes no external
call; `ExportMap` called with a path that does not end with ".map" returns
false without any file event, external call or nested export, whatever the
world. -/
theorem C31_unknown_extension_writes_nothing (host : Host) (paths : FPaths) (math : FMath)
    (path : String)
    (hvalid : host.IsFilenameValidForSaving path = true)
    (hjson : EndsWith path JSON_FILE_POSTFIX = false) :
    (∀ StaticMesh : Option UStaticMesh,
      EndsWith path STATIC_MESH_BINARY_FILE_POSTFIX = false →
      ExportStaticMesh host StaticMesh path = ⟨.returned false, []⟩ ∧
      (ExportStaticMesh host StaticMesh path).writersCreated = [] ∧
      (ExportStaticMesh host StaticMesh path).wroteNothing = true) ∧
    (∀ SkeletalMesh : Option USkeletalMesh,
      EndsWith path SKELETAL_MESH_BINARY_FILE_POSTFIX = false →
      ExportSkeletalMesh host SkeletalMesh path = ⟨.returned false, []⟩ ∧
      (ExportSkeletalMesh host SkeletalMesh path).writersCreated = [] ∧
      (ExportSkeletalMesh host SkeletalMesh path).wroteNothing = true) ∧
    (∀ Skeleton : Option USkeleton,
      EndsWith path SKELETON_BINARY_FILE_POSTFIX = false →
      ExportSkeleton host Skeleton path = ⟨.returned false, []⟩ ∧
      (ExportSkeleton host Skeleton path).writersCreated = [] ∧
      (ExportSkeleton host Skeleton path).wroteNothing = true) ∧
    (∀ AnimSequence : Option UAnimSequence,
      EndsWith path ANIMSEQUENCE_BINARY_FILE_POSTFIX = false →
      ExportAnimSequence host AnimSequence path = ⟨.returned false, []⟩ ∧
      (ExportAnimSequence host AnimSequence path).writersCreated = [] ∧
      (ExportAnimSequence host AnimSequence path).wroteNothing = true) ∧
    (∀ MaterialInstace : Option UMaterialInstance,
      EndsWith path MATERIAL_BINARY_FILE_POSTFIX = false →
      (ExportMaterialInstance host paths MaterialInstace path).run = ⟨.returned false, []⟩ ∧
      (ExportMaterialInstance host paths MaterialInstace path).external = [] ∧
      (ExportMaterialInstance host paths MaterialInstace path).run.writersCreated = [] ∧
      (ExportMaterialInstance host paths MaterialInstace path).run.wroteNothing = true) ∧
    (∀ (WorldContextObject : Option UWorld) (mapPath : String) (CopyToPath : Bool)
        (CopyPath : String),
      EndsWith mapPath MAP_BINARY_FILE_POSTFIX = false →
      (ExportMap host paths math WorldContextObject mapPath CopyToPath CopyPath).outcome =
        .returned false ∧
      (ExportMap host paths math WorldContextObject mapPath CopyToPath CopyPath).events = [] ∧
      (ExportMap host paths math WorldContextObject mapPath CopyToPath CopyPath).external = [] ∧
      (ExportMap host paths math WorldContextObject mapPath CopyToPath CopyPath).calls = []) := by
  refine ⟨?_, ?_, ?_, ?_, ?_, ?_⟩
  · intro StaticMesh hext
    have h : ExportStaticMesh host StaticMesh path = ⟨.returned false, []⟩ := by
      cases StaticMesh <;> simp [ExportStaticMesh, hvalid, hjson, hext]
    rw [h]
    exact ⟨rfl, rfl, rfl⟩
  · intro SkeletalMesh hext
    have h : ExportSkeletalMesh host SkeletalMesh path = ⟨.returned false, []⟩ := by
      cases SkeletalMesh <;> simp [ExportSkeletalMesh, hvalid, hjson, hext]
    rw [h]
    exact ⟨rfl, rfl, rfl⟩
  · intro Skeleton hext
    have h : ExportSkeleton host Skeleton path = ⟨.returned false, []⟩ := by
      cases Skeleton <;> simp [ExportSkeleton, hvalid, hjson, hext]
    rw [h]
    exact ⟨rfl, rfl, rfl⟩
  · intro AnimSequence hext
    have h : ExportAnimSequence host AnimSequence path = ⟨.returned false, []⟩ := by
      cases AnimSequence <;> simp [ExportAnimSequence, hvalid, hjson, hext]
    rw [h]
    exact ⟨rfl, rfl, rfl⟩
  · intro MaterialInstace hext
    have h : ExportMaterialInstance host paths MaterialInstace path =
        ⟨⟨.returned false, []⟩, []⟩ := by
      cases MaterialInstace <;> simp [ExportMaterialInstance, hvalid, hjson, hext]
    rw [h]
    exact ⟨rfl, rfl, rfl, rfl⟩
  · intro WorldContextObject mapPath CopyToPath CopyPath hext
    cases WorldContextObject <;> simp [ExportMap, hext]

theorem C31_unknown_extension_writes_nothing_witness :
    EndsWith "Hero.skm" JSON_FILE_POSTFIX = false ∧
    EndsWith "Hero.skm" STATIC_MESH_BINARY_FILE_POSTFIX = false ∧
    EndsWith "Level.txt" MAP_BINARY_FILE_POSTFIX = false ∧
    ExportStaticMesh sampleHost (some sampleStaticMesh) "Hero.skm" = ⟨.returned false, []⟩ ∧
    (ExportMap sampleHost samplePaths ieeeMath (some sampleScene.toWorld) "Level.txt" true
      "D:/Out").events = [] :=
  ⟨by decide, by decide, by decide,
    ((C31_unknown_extension_writes_nothing sampleHost samplePaths ieeeMath "Hero.skm" rfl
      (by decide)).1 (some sampleStaticMesh) (by decide)).1,
    ((C31_unknown_extension_writes_nothing sampleHost samplePaths ieeeMath "Hero.skm" rfl
      (by decide)).2.2.2.2.2 (some sampleScene.toWorld) "Level.txt" true "D:/Out"
      (by decide)).2.1⟩

end ObjectExporter
